import Mathlib

/-!
# Verification of the twenty-first algebraic library

This file gives a shallow embedding, in Lean 4, of the core algorithms of the
`twenty-first` repository (prime-field polynomial engine, the Tip5 permutation
helpers, the Merkle-tree verifiers and the MMR successor proof verifier), and
proves or refutes the specified properties of those algorithms.

Conventions:
* `BFieldElement` is the prime field with `p = 2^64 - 2^32 + 1`; it is
  modelled as `ZMod p` (the element is "a single integer in `[0, p)`").
  Primality of `p` is established below with a Lucas certificate.
* Rust `Vec<PFElem>` coefficient vectors become `List F`; machine integers
  (`u32`/`u64`/`usize`) become `ℕ`, with `% 2^64` inserted where release-mode
  wrap-around is observable.
* Fallible code (indexing that can go out of bounds, `unwrap`, explicit
  `panic!`) is modelled with `Option`: a `none` result marks a panic.
* Functions of the repository that are referenced by the embedded code but
  whose sources are not part of the source tree (the external `ntt`/`intt`
  kernel, the `BFieldElement` primitives, the MMR index helpers, the hash
  functions of external crates) are modelled from the specification document;
  each such definition carries a doc comment starting with
  `Modelled from the spec:`.
-/

set_option maxRecDepth 2000

/-! ## The Goldilocks prime field -/

/-- Modelled from the spec: the `BFieldElement` modulus, `p = 2^64 - 2^32 + 1`. -/
def bfieldP : ℕ := 18446744069414584321

/-- Modelled from the spec: `BFieldElement` is "a single integer in `[0, p)`",
with wrap-around arithmetic, i.e. the ring `ZMod p`. -/
abbrev Fp := ZMod bfieldP

/-- `p = 2^64 - 2^32 + 1` is prime (Lucas certificate with witness `7`:
`p - 1 = 2^32 * 3 * 5 * 17 * 257 * 65537`). -/
theorem bfieldPPrime : Nat.Prime 18446744069414584321 := by
  have h0 : (7 : Fp) ^ ((2:ℕ) ^ 0) = 7 := by norm_num
  have h1 : (7 : Fp) ^ ((2:ℕ) ^ 1) = 49 := by
    rw [show ((2:ℕ) ^ 1) = 2 ^ 0 * 2 by norm_num, pow_mul, h0]; decide
  have h2 : (7 : Fp) ^ ((2:ℕ) ^ 2) = 2401 := by
    rw [show ((2:ℕ) ^ 2) = 2 ^ 1 * 2 by norm_num, pow_mul, h1]; decide
  have h3 : (7 : Fp) ^ ((2:ℕ) ^ 3) = 5764801 := by
    rw [show ((2:ℕ) ^ 3) = 2 ^ 2 * 2 by norm_num, pow_mul, h2]; decide
  have h4 : (7 : Fp) ^ ((2:ℕ) ^ 4) = 33232930569601 := by
    rw [show ((2:ℕ) ^ 4) = 2 ^ 3 * 2 by norm_num, pow_mul, h3]; decide
  have h5 : (7 : Fp) ^ ((2:ℕ) ^ 5) = 3732854072722565977 := by
    rw [show ((2:ℕ) ^ 5) = 2 ^ 4 * 2 by norm_num, pow_mul, h4]; decide
  have h6 : (7 : Fp) ^ ((2:ℕ) ^ 6) = 11250886851934520606 := by
    rw [show ((2:ℕ) ^ 6) = 2 ^ 5 * 2 by norm_num, pow_mul, h5]; decide
  have h7 : (7 : Fp) ^ ((2:ℕ) ^ 7) = 12159723539389677939 := by
    rw [show ((2:ℕ) ^ 7) = 2 ^ 6 * 2 by norm_num, pow_mul, h6]; decide
  have h8 : (7 : Fp) ^ ((2:ℕ) ^ 8) = 1536671775522476176 := by
    rw [show ((2:ℕ) ^ 8) = 2 ^ 7 * 2 by norm_num, pow_mul, h7]; decide
  have h9 : (7 : Fp) ^ ((2:ℕ) ^ 9) = 18371408314118145657 := by
    rw [show ((2:ℕ) ^ 9) = 2 ^ 8 * 2 by norm_num, pow_mul, h8]; decide
  have h10 : (7 : Fp) ^ ((2:ℕ) ^ 10) = 2431605942540367610 := by
    rw [show ((2:ℕ) ^ 10) = 2 ^ 9 * 2 by norm_num, pow_mul, h9]; decide
  have h11 : (7 : Fp) ^ ((2:ℕ) ^ 11) = 6358221588783459004 := by
    rw [show ((2:ℕ) ^ 11) = 2 ^ 10 * 2 by norm_num, pow_mul, h10]; decide
  have h12 : (7 : Fp) ^ ((2:ℕ) ^ 12) = 10083885515493449909 := by
    rw [show ((2:ℕ) ^ 12) = 2 ^ 11 * 2 by norm_num, pow_mul, h11]; decide
  have h13 : (7 : Fp) ^ ((2:ℕ) ^ 13) = 15094611910849701842 := by
    rw [show ((2:ℕ) ^ 13) = 2 ^ 12 * 2 by norm_num, pow_mul, h12]; decide
  have h14 : (7 : Fp) ^ ((2:ℕ) ^ 14) = 18060412910171584788 := by
    rw [show ((2:ℕ) ^ 14) = 2 ^ 13 * 2 by norm_num, pow_mul, h13]; decide
  have h15 : (7 : Fp) ^ ((2:ℕ) ^ 15) = 10529651373896570371 := by
    rw [show ((2:ℕ) ^ 15) = 2 ^ 14 * 2 by norm_num, pow_mul, h14]; decide
  have h16 : (7 : Fp) ^ ((2:ℕ) ^ 16) = 11156834669773791359 := by
    rw [show ((2:ℕ) ^ 16) = 2 ^ 15 * 2 by norm_num, pow_mul, h15]; decide
  have h17 : (7 : Fp) ^ ((2:ℕ) ^ 17) = 11840798296997857860 := by
    rw [show ((2:ℕ) ^ 17) = 2 ^ 16 * 2 by norm_num, pow_mul, h16]; decide
  have h18 : (7 : Fp) ^ ((2:ℕ) ^ 18) = 1447330804268045396 := by
    rw [show ((2:ℕ) ^ 18) = 2 ^ 17 * 2 by norm_num, pow_mul, h17]; decide
  have h19 : (7 : Fp) ^ ((2:ℕ) ^ 19) = 15265864706138236984 := by
    rw [show ((2:ℕ) ^ 19) = 2 ^ 18 * 2 by norm_num, pow_mul, h18]; decide
  have h20 : (7 : Fp) ^ ((2:ℕ) ^ 20) = 12990112920302977158 := by
    rw [show ((2:ℕ) ^ 20) = 2 ^ 19 * 2 by norm_num, pow_mul, h19]; decide
  have h21 : (7 : Fp) ^ ((2:ℕ) ^ 21) = 16491641580159807679 := by
    rw [show ((2:ℕ) ^ 21) = 2 ^ 20 * 2 by norm_num, pow_mul, h20]; decide
  have h22 : (7 : Fp) ^ ((2:ℕ) ^ 22) = 17642952523097762870 := by
    rw [show ((2:ℕ) ^ 22) = 2 ^ 21 * 2 by norm_num, pow_mul, h21]; decide
  have h23 : (7 : Fp) ^ ((2:ℕ) ^ 23) = 4419967652436713981 := by
    rw [show ((2:ℕ) ^ 23) = 2 ^ 22 * 2 by norm_num, pow_mul, h22]; decide
  have h24 : (7 : Fp) ^ ((2:ℕ) ^ 24) = 7206579306846404579 := by
    rw [show ((2:ℕ) ^ 24) = 2 ^ 23 * 2 by norm_num, pow_mul, h23]; decide
  have h25 : (7 : Fp) ^ ((2:ℕ) ^ 25) = 17869454728573311546 := by
    rw [show ((2:ℕ) ^ 25) = 2 ^ 24 * 2 by norm_num, pow_mul, h24]; decide
  have h26 : (7 : Fp) ^ ((2:ℕ) ^ 26) = 4919185416341570378 := by
    rw [show ((2:ℕ) ^ 26) = 2 ^ 25 * 2 by norm_num, pow_mul, h25]; decide
  have h27 : (7 : Fp) ^ ((2:ℕ) ^ 27) = 14445320067108370181 := by
    rw [show ((2:ℕ) ^ 27) = 2 ^ 26 * 2 by norm_num, pow_mul, h26]; decide
  have h28 : (7 : Fp) ^ ((2:ℕ) ^ 28) = 17666966662873528270 := by
    rw [show ((2:ℕ) ^ 28) = 2 ^ 27 * 2 by norm_num, pow_mul, h27]; decide
  have h29 : (7 : Fp) ^ ((2:ℕ) ^ 29) = 5473358340599679662 := by
    rw [show ((2:ℕ) ^ 29) = 2 ^ 28 * 2 by norm_num, pow_mul, h28]; decide
  have h30 : (7 : Fp) ^ ((2:ℕ) ^ 30) = 4120449531758749877 := by
    rw [show ((2:ℕ) ^ 30) = 2 ^ 29 * 2 by norm_num, pow_mul, h29]; decide
  have h31 : (7 : Fp) ^ ((2:ℕ) ^ 31) = 17380019310548783236 := by
    rw [show ((2:ℕ) ^ 31) = 2 ^ 30 * 2 by norm_num, pow_mul, h30]; decide
  have h32 : (7 : Fp) ^ ((2:ℕ) ^ 32) = 12275445934081160404 := by
    rw [show ((2:ℕ) ^ 32) = 2 ^ 31 * 2 by norm_num, pow_mul, h31]; decide
  have k0 : (17380019310548783236 : Fp) ^ ((2:ℕ) ^ 0 - 1) = 1 := by norm_num
  have k1 : (17380019310548783236 : Fp) ^ ((2:ℕ) ^ 1 - 1) = 17380019310548783236 := by
    rw [show ((2:ℕ) ^ 1 - 1) = (2 ^ 0 - 1) * 2 + 1 by norm_num, pow_add, pow_mul, k0]; decide
  have k2 : (17380019310548783236 : Fp) ^ ((2:ℕ) ^ 2 - 1) = 16341254035993852604 := by
    rw [show ((2:ℕ) ^ 2 - 1) = (2 ^ 1 - 1) * 2 + 1 by norm_num, pow_add, pow_mul, k1]; decide
  have k3 : (17380019310548783236 : Fp) ^ ((2:ℕ) ^ 3 - 1) = 17838412189661013420 := by
    rw [show ((2:ℕ) ^ 3 - 1) = (2 ^ 2 - 1) * 2 + 1 by norm_num, pow_add, pow_mul, k2]; decide
  have k4 : (17380019310548783236 : Fp) ^ ((2:ℕ) ^ 4 - 1) = 14553636398574310458 := by
    rw [show ((2:ℕ) ^ 4 - 1) = (2 ^ 3 - 1) * 2 + 1 by norm_num, pow_add, pow_mul, k3]; decide
  have k5 : (17380019310548783236 : Fp) ^ ((2:ℕ) ^ 5 - 1) = 12914056198713337911 := by
    rw [show ((2:ℕ) ^ 5 - 1) = (2 ^ 4 - 1) * 2 + 1 by norm_num, pow_add, pow_mul, k4]; decide
  have k6 : (17380019310548783236 : Fp) ^ ((2:ℕ) ^ 6 - 1) = 10709466607341495954 := by
    rw [show ((2:ℕ) ^ 6 - 1) = (2 ^ 5 - 1) * 2 + 1 by norm_num, pow_add, pow_mul, k5]; decide
  have k7 : (17380019310548783236 : Fp) ^ ((2:ℕ) ^ 7 - 1) = 7500959378422514263 := by
    rw [show ((2:ℕ) ^ 7 - 1) = (2 ^ 6 - 1) * 2 + 1 by norm_num, pow_add, pow_mul, k6]; decide
  have k8 : (17380019310548783236 : Fp) ^ ((2:ℕ) ^ 8 - 1) = 8965981650855844639 := by
    rw [show ((2:ℕ) ^ 8 - 1) = (2 ^ 7 - 1) * 2 + 1 by norm_num, pow_add, pow_mul, k7]; decide
  have k9 : (17380019310548783236 : Fp) ^ ((2:ℕ) ^ 9 - 1) = 12986574462539434953 := by
    rw [show ((2:ℕ) ^ 9 - 1) = (2 ^ 8 - 1) * 2 + 1 by norm_num, pow_add, pow_mul, k8]; decide
  have k10 : (17380019310548783236 : Fp) ^ ((2:ℕ) ^ 10 - 1) = 12658757672957790760 := by
    rw [show ((2:ℕ) ^ 10 - 1) = (2 ^ 9 - 1) * 2 + 1 by norm_num, pow_add, pow_mul, k9]; decide
  have k11 : (17380019310548783236 : Fp) ^ ((2:ℕ) ^ 11 - 1) = 328486730228707336 := by
    rw [show ((2:ℕ) ^ 11 - 1) = (2 ^ 10 - 1) * 2 + 1 by norm_num, pow_add, pow_mul, k10]; decide
  have k12 : (17380019310548783236 : Fp) ^ ((2:ℕ) ^ 12 - 1) = 10989187623479390669 := by
    rw [show ((2:ℕ) ^ 12 - 1) = (2 ^ 11 - 1) * 2 + 1 by norm_num, pow_add, pow_mul, k11]; decide
  have k13 : (17380019310548783236 : Fp) ^ ((2:ℕ) ^ 13 - 1) = 14744565892089108049 := by
    rw [show ((2:ℕ) ^ 13 - 1) = (2 ^ 12 - 1) * 2 + 1 by norm_num, pow_add, pow_mul, k12]; decide
  have k14 : (17380019310548783236 : Fp) ^ ((2:ℕ) ^ 14 - 1) = 10977344643077333037 := by
    rw [show ((2:ℕ) ^ 14 - 1) = (2 ^ 13 - 1) * 2 + 1 by norm_num, pow_add, pow_mul, k13]; decide
  have k15 : (17380019310548783236 : Fp) ^ ((2:ℕ) ^ 15 - 1) = 10862935977680770068 := by
    rw [show ((2:ℕ) ^ 15 - 1) = (2 ^ 14 - 1) * 2 + 1 by norm_num, pow_add, pow_mul, k14]; decide
  have k16 : (17380019310548783236 : Fp) ^ ((2:ℕ) ^ 16 - 1) = 7318164361609642178 := by
    rw [show ((2:ℕ) ^ 16 - 1) = (2 ^ 15 - 1) * 2 + 1 by norm_num, pow_add, pow_mul, k15]; decide
  have k17 : (17380019310548783236 : Fp) ^ ((2:ℕ) ^ 17 - 1) = 10123972320692110086 := by
    rw [show ((2:ℕ) ^ 17 - 1) = (2 ^ 16 - 1) * 2 + 1 by norm_num, pow_add, pow_mul, k16]; decide
  have k18 : (17380019310548783236 : Fp) ^ ((2:ℕ) ^ 18 - 1) = 130724526948758986 := by
    rw [show ((2:ℕ) ^ 18 - 1) = (2 ^ 17 - 1) * 2 + 1 by norm_num, pow_add, pow_mul, k17]; decide
  have k19 : (17380019310548783236 : Fp) ^ ((2:ℕ) ^ 19 - 1) = 17661458235941421312 := by
    rw [show ((2:ℕ) ^ 19 - 1) = (2 ^ 18 - 1) * 2 + 1 by norm_num, pow_add, pow_mul, k18]; decide
  have k20 : (17380019310548783236 : Fp) ^ ((2:ℕ) ^ 20 - 1) = 6339018849627109285 := by
    rw [show ((2:ℕ) ^ 20 - 1) = (2 ^ 19 - 1) * 2 + 1 by norm_num, pow_add, pow_mul, k19]; decide
  have k21 : (17380019310548783236 : Fp) ^ ((2:ℕ) ^ 21 - 1) = 11012737045107515342 := by
    rw [show ((2:ℕ) ^ 21 - 1) = (2 ^ 20 - 1) * 2 + 1 by norm_num, pow_add, pow_mul, k20]; decide
  have k22 : (17380019310548783236 : Fp) ^ ((2:ℕ) ^ 22 - 1) = 14175618418188641576 := by
    rw [show ((2:ℕ) ^ 22 - 1) = (2 ^ 21 - 1) * 2 + 1 by norm_num, pow_add, pow_mul, k21]; decide
  have k23 : (17380019310548783236 : Fp) ^ ((2:ℕ) ^ 23 - 1) = 14962862707483549008 := by
    rw [show ((2:ℕ) ^ 23 - 1) = (2 ^ 22 - 1) * 2 + 1 by norm_num, pow_add, pow_mul, k22]; decide
  have k24 : (17380019310548783236 : Fp) ^ ((2:ℕ) ^ 24 - 1) = 13017193425094701279 := by
    rw [show ((2:ℕ) ^ 24 - 1) = (2 ^ 23 - 1) * 2 + 1 by norm_num, pow_add, pow_mul, k23]; decide
  have k25 : (17380019310548783236 : Fp) ^ ((2:ℕ) ^ 25 - 1) = 8024443007816062896 := by
    rw [show ((2:ℕ) ^ 25 - 1) = (2 ^ 24 - 1) * 2 + 1 by norm_num, pow_add, pow_mul, k24]; decide
  have k26 : (17380019310548783236 : Fp) ^ ((2:ℕ) ^ 26 - 1) = 4925816364943579550 := by
    rw [show ((2:ℕ) ^ 26 - 1) = (2 ^ 25 - 1) * 2 + 1 by norm_num, pow_add, pow_mul, k25]; decide
  have k27 : (17380019310548783236 : Fp) ^ ((2:ℕ) ^ 27 - 1) = 14525145177837493890 := by
    rw [show ((2:ℕ) ^ 27 - 1) = (2 ^ 26 - 1) * 2 + 1 by norm_num, pow_add, pow_mul, k26]; decide
  have k28 : (17380019310548783236 : Fp) ^ ((2:ℕ) ^ 28 - 1) = 18298270339531944329 := by
    rw [show ((2:ℕ) ^ 28 - 1) = (2 ^ 27 - 1) * 2 + 1 by norm_num, pow_add, pow_mul, k27]; decide
  have k29 : (17380019310548783236 : Fp) ^ ((2:ℕ) ^ 29 - 1) = 11853244195314237678 := by
    rw [show ((2:ℕ) ^ 29 - 1) = (2 ^ 28 - 1) * 2 + 1 by norm_num, pow_add, pow_mul, k28]; decide
  have k30 : (17380019310548783236 : Fp) ^ ((2:ℕ) ^ 30 - 1) = 9827442270647231951 := by
    rw [show ((2:ℕ) ^ 30 - 1) = (2 ^ 29 - 1) * 2 + 1 by norm_num, pow_add, pow_mul, k29]; decide
  have k31 : (17380019310548783236 : Fp) ^ ((2:ℕ) ^ 31 - 1) = 15846339274147123184 := by
    rw [show ((2:ℕ) ^ 31 - 1) = (2 ^ 30 - 1) * 2 + 1 by norm_num, pow_add, pow_mul, k30]; decide
  have k32 : (17380019310548783236 : Fp) ^ ((2:ℕ) ^ 32 - 1) = 18446744069414584320 := by
    rw [show ((2:ℕ) ^ 32 - 1) = (2 ^ 31 - 1) * 2 + 1 by norm_num, pow_add, pow_mul, k31]; decide
  have t3x0 : (12275445934081160404 : Fp) ^ (1:ℕ) = 12275445934081160404 := by norm_num
  have t3x1 : (12275445934081160404 : Fp) ^ (2:ℕ) = 4756475762779100925 := by
    rw [show (2:ℕ) = 1 * 2 by norm_num, pow_mul, t3x0]; decide
  have t3x2 : (12275445934081160404 : Fp) ^ (5:ℕ) = 7781028390488215464 := by
    rw [show (5:ℕ) = 2 * 2 + 1 by norm_num, pow_add, pow_mul, t3x1]; decide
  have t3x3 : (12275445934081160404 : Fp) ^ (10:ℕ) = 16538725463549498621 := by
    rw [show (10:ℕ) = 5 * 2 by norm_num, pow_mul, t3x2]; decide
  have t3x4 : (12275445934081160404 : Fp) ^ (21:ℕ) = 8246665031048405574 := by
    rw [show (21:ℕ) = 10 * 2 + 1 by norm_num, pow_add, pow_mul, t3x3]; decide
  have t3x5 : (12275445934081160404 : Fp) ^ (42:ℕ) = 2750330294025098837 := by
    rw [show (42:ℕ) = 21 * 2 by norm_num, pow_mul, t3x4]; decide
  have t3x6 : (12275445934081160404 : Fp) ^ (85:ℕ) = 4733570987445959623 := by
    rw [show (85:ℕ) = 42 * 2 + 1 by norm_num, pow_add, pow_mul, t3x5]; decide
  have t3x7 : (12275445934081160404 : Fp) ^ (170:ℕ) = 10619881994662283040 := by
    rw [show (170:ℕ) = 85 * 2 by norm_num, pow_mul, t3x6]; decide
  have t3x8 : (12275445934081160404 : Fp) ^ (341:ℕ) = 18361179848640336464 := by
    rw [show (341:ℕ) = 170 * 2 + 1 by norm_num, pow_add, pow_mul, t3x7]; decide
  have t3x9 : (12275445934081160404 : Fp) ^ (682:ℕ) = 950055633415809085 := by
    rw [show (682:ℕ) = 341 * 2 by norm_num, pow_mul, t3x8]; decide
  have t3x10 : (12275445934081160404 : Fp) ^ (1365:ℕ) = 14539522463670894480 := by
    rw [show (1365:ℕ) = 682 * 2 + 1 by norm_num, pow_add, pow_mul, t3x9]; decide
  have t3x11 : (12275445934081160404 : Fp) ^ (2730:ℕ) = 871452039643317218 := by
    rw [show (2730:ℕ) = 1365 * 2 by norm_num, pow_mul, t3x10]; decide
  have t3x12 : (12275445934081160404 : Fp) ^ (5461:ℕ) = 11310299617345086484 := by
    rw [show (5461:ℕ) = 2730 * 2 + 1 by norm_num, pow_add, pow_mul, t3x11]; decide
  have t3x13 : (12275445934081160404 : Fp) ^ (10922:ℕ) = 15244413738397616579 := by
    rw [show (10922:ℕ) = 5461 * 2 by norm_num, pow_mul, t3x12]; decide
  have t3x14 : (12275445934081160404 : Fp) ^ (21845:ℕ) = 144820208228696286 := by
    rw [show (21845:ℕ) = 10922 * 2 + 1 by norm_num, pow_add, pow_mul, t3x13]; decide
  have t3x15 : (12275445934081160404 : Fp) ^ (43690:ℕ) = 3684268560309858177 := by
    rw [show (43690:ℕ) = 21845 * 2 by norm_num, pow_mul, t3x14]; decide
  have t3x16 : (12275445934081160404 : Fp) ^ (87381:ℕ) = 18342191855603989543 := by
    rw [show (87381:ℕ) = 43690 * 2 + 1 by norm_num, pow_add, pow_mul, t3x15]; decide
  have t3x17 : (12275445934081160404 : Fp) ^ (174762:ℕ) = 14551972485095996566 := by
    rw [show (174762:ℕ) = 87381 * 2 by norm_num, pow_mul, t3x16]; decide
  have t3x18 : (12275445934081160404 : Fp) ^ (349525:ℕ) = 16561037900262977897 := by
    rw [show (349525:ℕ) = 174762 * 2 + 1 by norm_num, pow_add, pow_mul, t3x17]; decide
  have t3x19 : (12275445934081160404 : Fp) ^ (699050:ℕ) = 12047248418557059035 := by
    rw [show (699050:ℕ) = 349525 * 2 by norm_num, pow_mul, t3x18]; decide
  have t3x20 : (12275445934081160404 : Fp) ^ (1398101:ℕ) = 5709593261608934014 := by
    rw [show (1398101:ℕ) = 699050 * 2 + 1 by norm_num, pow_add, pow_mul, t3x19]; decide
  have t3x21 : (12275445934081160404 : Fp) ^ (2796202:ℕ) = 2874022416960892837 := by
    rw [show (2796202:ℕ) = 1398101 * 2 by norm_num, pow_mul, t3x20]; decide
  have t3x22 : (12275445934081160404 : Fp) ^ (5592405:ℕ) = 7802345761617692924 := by
    rw [show (5592405:ℕ) = 2796202 * 2 + 1 by norm_num, pow_add, pow_mul, t3x21]; decide
  have t3x23 : (12275445934081160404 : Fp) ^ (11184810:ℕ) = 18222847149760681567 := by
    rw [show (11184810:ℕ) = 5592405 * 2 by norm_num, pow_mul, t3x22]; decide
  have t3x24 : (12275445934081160404 : Fp) ^ (22369621:ℕ) = 13093268643099712084 := by
    rw [show (22369621:ℕ) = 11184810 * 2 + 1 by norm_num, pow_add, pow_mul, t3x23]; decide
  have t3x25 : (12275445934081160404 : Fp) ^ (44739242:ℕ) = 14805989675903260522 := by
    rw [show (44739242:ℕ) = 22369621 * 2 by norm_num, pow_mul, t3x24]; decide
  have t3x26 : (12275445934081160404 : Fp) ^ (89478485:ℕ) = 6515397714927682743 := by
    rw [show (89478485:ℕ) = 44739242 * 2 + 1 by norm_num, pow_add, pow_mul, t3x25]; decide
  have t3x27 : (12275445934081160404 : Fp) ^ (178956970:ℕ) = 11178342284497030948 := by
    rw [show (178956970:ℕ) = 89478485 * 2 by norm_num, pow_mul, t3x26]; decide
  have t3x28 : (12275445934081160404 : Fp) ^ (357913941:ℕ) = 11368723234197765731 := by
    rw [show (357913941:ℕ) = 178956970 * 2 + 1 by norm_num, pow_add, pow_mul, t3x27]; decide
  have t3x29 : (12275445934081160404 : Fp) ^ (715827882:ℕ) = 4315988950561070367 := by
    rw [show (715827882:ℕ) = 357913941 * 2 by norm_num, pow_mul, t3x28]; decide
  have t3x30 : (12275445934081160404 : Fp) ^ (1431655765:ℕ) = 18446744065119617025 := by
    rw [show (1431655765:ℕ) = 715827882 * 2 + 1 by norm_num, pow_add, pow_mul, t3x29]; decide
  have t5x0 : (12275445934081160404 : Fp) ^ (1:ℕ) = 12275445934081160404 := by norm_num
  have t5x1 : (12275445934081160404 : Fp) ^ (3:ℕ) = 1279992132519201448 := by
    rw [show (3:ℕ) = 1 * 2 + 1 by norm_num, pow_add, pow_mul, t5x0]; decide
  have t5x2 : (12275445934081160404 : Fp) ^ (6:ℕ) = 11302600489504509467 := by
    rw [show (6:ℕ) = 3 * 2 by norm_num, pow_mul, t5x1]; decide
  have t5x3 : (12275445934081160404 : Fp) ^ (12:ℕ) = 15099809066790865939 := by
    rw [show (12:ℕ) = 6 * 2 by norm_num, pow_mul, t5x2]; decide
  have t5x4 : (12275445934081160404 : Fp) ^ (25:ℕ) = 11395689535312925715 := by
    rw [show (25:ℕ) = 12 * 2 + 1 by norm_num, pow_add, pow_mul, t5x3]; decide
  have t5x5 : (12275445934081160404 : Fp) ^ (51:ℕ) = 3080292546802250491 := by
    rw [show (51:ℕ) = 25 * 2 + 1 by norm_num, pow_add, pow_mul, t5x4]; decide
  have t5x6 : (12275445934081160404 : Fp) ^ (102:ℕ) = 17006525114682413860 := by
    rw [show (102:ℕ) = 51 * 2 by norm_num, pow_mul, t5x5]; decide
  have t5x7 : (12275445934081160404 : Fp) ^ (204:ℕ) = 8083283331813898072 := by
    rw [show (204:ℕ) = 102 * 2 by norm_num, pow_mul, t5x6]; decide
  have t5x8 : (12275445934081160404 : Fp) ^ (409:ℕ) = 7481955408674006565 := by
    rw [show (409:ℕ) = 204 * 2 + 1 by norm_num, pow_add, pow_mul, t5x7]; decide
  have t5x9 : (12275445934081160404 : Fp) ^ (819:ℕ) = 8229424189471531445 := by
    rw [show (819:ℕ) = 409 * 2 + 1 by norm_num, pow_add, pow_mul, t5x8]; decide
  have t5x10 : (12275445934081160404 : Fp) ^ (1638:ℕ) = 11544158429850306753 := by
    rw [show (1638:ℕ) = 819 * 2 by norm_num, pow_mul, t5x9]; decide
  have t5x11 : (12275445934081160404 : Fp) ^ (3276:ℕ) = 6575894157890375372 := by
    rw [show (3276:ℕ) = 1638 * 2 by norm_num, pow_mul, t5x10]; decide
  have t5x12 : (12275445934081160404 : Fp) ^ (6553:ℕ) = 15468026419318992136 := by
    rw [show (6553:ℕ) = 3276 * 2 + 1 by norm_num, pow_add, pow_mul, t5x11]; decide
  have t5x13 : (12275445934081160404 : Fp) ^ (13107:ℕ) = 13117622064007455443 := by
    rw [show (13107:ℕ) = 6553 * 2 + 1 by norm_num, pow_add, pow_mul, t5x12]; decide
  have t5x14 : (12275445934081160404 : Fp) ^ (26214:ℕ) = 9907097673348654079 := by
    rw [show (26214:ℕ) = 13107 * 2 by norm_num, pow_mul, t5x13]; decide
  have t5x15 : (12275445934081160404 : Fp) ^ (52428:ℕ) = 6822962341432118346 := by
    rw [show (52428:ℕ) = 26214 * 2 by norm_num, pow_mul, t5x14]; decide
  have t5x16 : (12275445934081160404 : Fp) ^ (104857:ℕ) = 10170028983955575304 := by
    rw [show (104857:ℕ) = 52428 * 2 + 1 by norm_num, pow_add, pow_mul, t5x15]; decide
  have t5x17 : (12275445934081160404 : Fp) ^ (209715:ℕ) = 3714462262458937287 := by
    rw [show (209715:ℕ) = 104857 * 2 + 1 by norm_num, pow_add, pow_mul, t5x16]; decide
  have t5x18 : (12275445934081160404 : Fp) ^ (419430:ℕ) = 10207503010611174361 := by
    rw [show (419430:ℕ) = 209715 * 2 by norm_num, pow_mul, t5x17]; decide
  have t5x19 : (12275445934081160404 : Fp) ^ (838860:ℕ) = 4650203334667317280 := by
    rw [show (838860:ℕ) = 419430 * 2 by norm_num, pow_mul, t5x18]; decide
  have t5x20 : (12275445934081160404 : Fp) ^ (1677721:ℕ) = 7079038093298791840 := by
    rw [show (1677721:ℕ) = 838860 * 2 + 1 by norm_num, pow_add, pow_mul, t5x19]; decide
  have t5x21 : (12275445934081160404 : Fp) ^ (3355443:ℕ) = 750328663734657815 := by
    rw [show (3355443:ℕ) = 1677721 * 2 + 1 by norm_num, pow_add, pow_mul, t5x20]; decide
  have t5x22 : (12275445934081160404 : Fp) ^ (6710886:ℕ) = 7983852518127489983 := by
    rw [show (6710886:ℕ) = 3355443 * 2 by norm_num, pow_mul, t5x21]; decide
  have t5x23 : (12275445934081160404 : Fp) ^ (13421772:ℕ) = 3938614147066682552 := by
    rw [show (13421772:ℕ) = 6710886 * 2 by norm_num, pow_mul, t5x22]; decide
  have t5x24 : (12275445934081160404 : Fp) ^ (26843545:ℕ) = 17105565073236396267 := by
    rw [show (26843545:ℕ) = 13421772 * 2 + 1 by norm_num, pow_add, pow_mul, t5x23]; decide
  have t5x25 : (12275445934081160404 : Fp) ^ (53687091:ℕ) = 7734626918933084012 := by
    rw [show (53687091:ℕ) = 26843545 * 2 + 1 by norm_num, pow_add, pow_mul, t5x24]; decide
  have t5x26 : (12275445934081160404 : Fp) ^ (107374182:ℕ) = 4412797120506850337 := by
    rw [show (107374182:ℕ) = 53687091 * 2 by norm_num, pow_mul, t5x25]; decide
  have t5x27 : (12275445934081160404 : Fp) ^ (214748364:ℕ) = 3875766691360155617 := by
    rw [show (214748364:ℕ) = 107374182 * 2 by norm_num, pow_mul, t5x26]; decide
  have t5x28 : (12275445934081160404 : Fp) ^ (429496729:ℕ) = 17358023527338233849 := by
    rw [show (429496729:ℕ) = 214748364 * 2 + 1 by norm_num, pow_add, pow_mul, t5x27]; decide
  have t5x29 : (12275445934081160404 : Fp) ^ (858993459:ℕ) = 1373043270956696022 := by
    rw [show (858993459:ℕ) = 429496729 * 2 + 1 by norm_num, pow_add, pow_mul, t5x28]; decide
  have t17x0 : (12275445934081160404 : Fp) ^ (1:ℕ) = 12275445934081160404 := by norm_num
  have t17x1 : (12275445934081160404 : Fp) ^ (3:ℕ) = 1279992132519201448 := by
    rw [show (3:ℕ) = 1 * 2 + 1 by norm_num, pow_add, pow_mul, t17x0]; decide
  have t17x2 : (12275445934081160404 : Fp) ^ (7:ℕ) = 4549350404001778198 := by
    rw [show (7:ℕ) = 3 * 2 + 1 by norm_num, pow_add, pow_mul, t17x1]; decide
  have t17x3 : (12275445934081160404 : Fp) ^ (15:ℕ) = 11274872323250451096 := by
    rw [show (15:ℕ) = 7 * 2 + 1 by norm_num, pow_add, pow_mul, t17x2]; decide
  have t17x4 : (12275445934081160404 : Fp) ^ (30:ℕ) = 12069298394184580155 := by
    rw [show (30:ℕ) = 15 * 2 by norm_num, pow_mul, t17x3]; decide
  have t17x5 : (12275445934081160404 : Fp) ^ (60:ℕ) = 5428282574489895836 := by
    rw [show (60:ℕ) = 30 * 2 by norm_num, pow_mul, t17x4]; decide
  have t17x6 : (12275445934081160404 : Fp) ^ (120:ℕ) = 15488913980707339956 := by
    rw [show (120:ℕ) = 60 * 2 by norm_num, pow_mul, t17x5]; decide
  have t17x7 : (12275445934081160404 : Fp) ^ (240:ℕ) = 14489374604437787495 := by
    rw [show (240:ℕ) = 120 * 2 by norm_num, pow_mul, t17x6]; decide
  have t17x8 : (12275445934081160404 : Fp) ^ (481:ℕ) = 17837368160142808105 := by
    rw [show (481:ℕ) = 240 * 2 + 1 by norm_num, pow_add, pow_mul, t17x7]; decide
  have t17x9 : (12275445934081160404 : Fp) ^ (963:ℕ) = 12508716582751049819 := by
    rw [show (963:ℕ) = 481 * 2 + 1 by norm_num, pow_add, pow_mul, t17x8]; decide
  have t17x10 : (12275445934081160404 : Fp) ^ (1927:ℕ) = 16600212635661691142 := by
    rw [show (1927:ℕ) = 963 * 2 + 1 by norm_num, pow_add, pow_mul, t17x9]; decide
  have t17x11 : (12275445934081160404 : Fp) ^ (3855:ℕ) = 17081009302073449373 := by
    rw [show (3855:ℕ) = 1927 * 2 + 1 by norm_num, pow_add, pow_mul, t17x10]; decide
  have t17x12 : (12275445934081160404 : Fp) ^ (7710:ℕ) = 9712290447447227715 := by
    rw [show (7710:ℕ) = 3855 * 2 by norm_num, pow_mul, t17x11]; decide
  have t17x13 : (12275445934081160404 : Fp) ^ (15420:ℕ) = 18353052305479501654 := by
    rw [show (15420:ℕ) = 7710 * 2 by norm_num, pow_mul, t17x12]; decide
  have t17x14 : (12275445934081160404 : Fp) ^ (30840:ℕ) = 3495479116764033220 := by
    rw [show (30840:ℕ) = 15420 * 2 by norm_num, pow_mul, t17x13]; decide
  have t17x15 : (12275445934081160404 : Fp) ^ (61680:ℕ) = 3168539979805436219 := by
    rw [show (61680:ℕ) = 30840 * 2 by norm_num, pow_mul, t17x14]; decide
  have t17x16 : (12275445934081160404 : Fp) ^ (123361:ℕ) = 2173454143271796195 := by
    rw [show (123361:ℕ) = 61680 * 2 + 1 by norm_num, pow_add, pow_mul, t17x15]; decide
  have t17x17 : (12275445934081160404 : Fp) ^ (246723:ℕ) = 1214334918687997890 := by
    rw [show (246723:ℕ) = 123361 * 2 + 1 by norm_num, pow_add, pow_mul, t17x16]; decide
  have t17x18 : (12275445934081160404 : Fp) ^ (493447:ℕ) = 5013457521129386188 := by
    rw [show (493447:ℕ) = 246723 * 2 + 1 by norm_num, pow_add, pow_mul, t17x17]; decide
  have t17x19 : (12275445934081160404 : Fp) ^ (986895:ℕ) = 15021829110735092015 := by
    rw [show (986895:ℕ) = 493447 * 2 + 1 by norm_num, pow_add, pow_mul, t17x18]; decide
  have t17x20 : (12275445934081160404 : Fp) ^ (1973790:ℕ) = 12875054229430057774 := by
    rw [show (1973790:ℕ) = 986895 * 2 by norm_num, pow_mul, t17x19]; decide
  have t17x21 : (12275445934081160404 : Fp) ^ (3947580:ℕ) = 13189085413205303086 := by
    rw [show (3947580:ℕ) = 1973790 * 2 by norm_num, pow_mul, t17x20]; decide
  have t17x22 : (12275445934081160404 : Fp) ^ (7895160:ℕ) = 7390837058150600142 := by
    rw [show (7895160:ℕ) = 3947580 * 2 by norm_num, pow_mul, t17x21]; decide
  have t17x23 : (12275445934081160404 : Fp) ^ (15790320:ℕ) = 1279620912662927432 := by
    rw [show (15790320:ℕ) = 7895160 * 2 by norm_num, pow_mul, t17x22]; decide
  have t17x24 : (12275445934081160404 : Fp) ^ (31580641:ℕ) = 1129246164337980946 := by
    rw [show (31580641:ℕ) = 15790320 * 2 + 1 by norm_num, pow_add, pow_mul, t17x23]; decide
  have t17x25 : (12275445934081160404 : Fp) ^ (63161283:ℕ) = 11392130255474453357 := by
    rw [show (63161283:ℕ) = 31580641 * 2 + 1 by norm_num, pow_add, pow_mul, t17x24]; decide
  have t17x26 : (12275445934081160404 : Fp) ^ (126322567:ℕ) = 13350968192455222727 := by
    rw [show (126322567:ℕ) = 63161283 * 2 + 1 by norm_num, pow_add, pow_mul, t17x25]; decide
  have t17x27 : (12275445934081160404 : Fp) ^ (252645135:ℕ) = 16301593560560007290 := by
    rw [show (252645135:ℕ) = 126322567 * 2 + 1 by norm_num, pow_add, pow_mul, t17x26]; decide
  have t257x0 : (12275445934081160404 : Fp) ^ (1:ℕ) = 12275445934081160404 := by norm_num
  have t257x1 : (12275445934081160404 : Fp) ^ (3:ℕ) = 1279992132519201448 := by
    rw [show (3:ℕ) = 1 * 2 + 1 by norm_num, pow_add, pow_mul, t257x0]; decide
  have t257x2 : (12275445934081160404 : Fp) ^ (7:ℕ) = 4549350404001778198 := by
    rw [show (7:ℕ) = 3 * 2 + 1 by norm_num, pow_add, pow_mul, t257x1]; decide
  have t257x3 : (12275445934081160404 : Fp) ^ (15:ℕ) = 11274872323250451096 := by
    rw [show (15:ℕ) = 7 * 2 + 1 by norm_num, pow_add, pow_mul, t257x2]; decide
  have t257x4 : (12275445934081160404 : Fp) ^ (31:ℕ) = 4304519570518954644 := by
    rw [show (31:ℕ) = 15 * 2 + 1 by norm_num, pow_add, pow_mul, t257x3]; decide
  have t257x5 : (12275445934081160404 : Fp) ^ (63:ℕ) = 16394889243316335910 := by
    rw [show (63:ℕ) = 31 * 2 + 1 by norm_num, pow_add, pow_mul, t257x4]; decide
  have t257x6 : (12275445934081160404 : Fp) ^ (127:ℕ) = 3679734199234472637 := by
    rw [show (127:ℕ) = 63 * 2 + 1 by norm_num, pow_add, pow_mul, t257x5]; decide
  have t257x7 : (12275445934081160404 : Fp) ^ (255:ℕ) = 17588058450869219263 := by
    rw [show (255:ℕ) = 127 * 2 + 1 by norm_num, pow_add, pow_mul, t257x6]; decide
  have t257x8 : (12275445934081160404 : Fp) ^ (510:ℕ) = 683923235602147932 := by
    rw [show (510:ℕ) = 255 * 2 by norm_num, pow_mul, t257x7]; decide
  have t257x9 : (12275445934081160404 : Fp) ^ (1020:ℕ) = 8835979233172182436 := by
    rw [show (1020:ℕ) = 510 * 2 by norm_num, pow_mul, t257x8]; decide
  have t257x10 : (12275445934081160404 : Fp) ^ (2040:ℕ) = 3355407709622930266 := by
    rw [show (2040:ℕ) = 1020 * 2 by norm_num, pow_mul, t257x9]; decide
  have t257x11 : (12275445934081160404 : Fp) ^ (4080:ℕ) = 17799430507262292938 := by
    rw [show (4080:ℕ) = 2040 * 2 by norm_num, pow_mul, t257x10]; decide
  have t257x12 : (12275445934081160404 : Fp) ^ (8160:ℕ) = 11182389913569094181 := by
    rw [show (8160:ℕ) = 4080 * 2 by norm_num, pow_mul, t257x11]; decide
  have t257x13 : (12275445934081160404 : Fp) ^ (16320:ℕ) = 11350173437670463340 := by
    rw [show (16320:ℕ) = 8160 * 2 by norm_num, pow_mul, t257x12]; decide
  have t257x14 : (12275445934081160404 : Fp) ^ (32640:ℕ) = 13348485338936455432 := by
    rw [show (32640:ℕ) = 16320 * 2 by norm_num, pow_mul, t257x13]; decide
  have t257x15 : (12275445934081160404 : Fp) ^ (65280:ℕ) = 13464544557546266752 := by
    rw [show (65280:ℕ) = 32640 * 2 by norm_num, pow_mul, t257x14]; decide
  have t257x16 : (12275445934081160404 : Fp) ^ (130561:ℕ) = 1513428289589361160 := by
    rw [show (130561:ℕ) = 65280 * 2 + 1 by norm_num, pow_add, pow_mul, t257x15]; decide
  have t257x17 : (12275445934081160404 : Fp) ^ (261123:ℕ) = 4375310131417860027 := by
    rw [show (261123:ℕ) = 130561 * 2 + 1 by norm_num, pow_add, pow_mul, t257x16]; decide
  have t257x18 : (12275445934081160404 : Fp) ^ (522247:ℕ) = 2157233494186566964 := by
    rw [show (522247:ℕ) = 261123 * 2 + 1 by norm_num, pow_add, pow_mul, t257x17]; decide
  have t257x19 : (12275445934081160404 : Fp) ^ (1044495:ℕ) = 18009115704370032030 := by
    rw [show (1044495:ℕ) = 522247 * 2 + 1 by norm_num, pow_add, pow_mul, t257x18]; decide
  have t257x20 : (12275445934081160404 : Fp) ^ (2088991:ℕ) = 12804583452587087305 := by
    rw [show (2088991:ℕ) = 1044495 * 2 + 1 by norm_num, pow_add, pow_mul, t257x19]; decide
  have t257x21 : (12275445934081160404 : Fp) ^ (4177983:ℕ) = 16894534560283711836 := by
    rw [show (4177983:ℕ) = 2088991 * 2 + 1 by norm_num, pow_add, pow_mul, t257x20]; decide
  have t257x22 : (12275445934081160404 : Fp) ^ (8355967:ℕ) = 17537846203270146108 := by
    rw [show (8355967:ℕ) = 4177983 * 2 + 1 by norm_num, pow_add, pow_mul, t257x21]; decide
  have t257x23 : (12275445934081160404 : Fp) ^ (16711935:ℕ) = 995085315851368103 := by
    rw [show (16711935:ℕ) = 8355967 * 2 + 1 by norm_num, pow_add, pow_mul, t257x22]; decide
  have t65537x0 : (12275445934081160404 : Fp) ^ (1:ℕ) = 12275445934081160404 := by norm_num
  have t65537x1 : (12275445934081160404 : Fp) ^ (3:ℕ) = 1279992132519201448 := by
    rw [show (3:ℕ) = 1 * 2 + 1 by norm_num, pow_add, pow_mul, t65537x0]; decide
  have t65537x2 : (12275445934081160404 : Fp) ^ (7:ℕ) = 4549350404001778198 := by
    rw [show (7:ℕ) = 3 * 2 + 1 by norm_num, pow_add, pow_mul, t65537x1]; decide
  have t65537x3 : (12275445934081160404 : Fp) ^ (15:ℕ) = 11274872323250451096 := by
    rw [show (15:ℕ) = 7 * 2 + 1 by norm_num, pow_add, pow_mul, t65537x2]; decide
  have t65537x4 : (12275445934081160404 : Fp) ^ (31:ℕ) = 4304519570518954644 := by
    rw [show (31:ℕ) = 15 * 2 + 1 by norm_num, pow_add, pow_mul, t65537x3]; decide
  have t65537x5 : (12275445934081160404 : Fp) ^ (63:ℕ) = 16394889243316335910 := by
    rw [show (63:ℕ) = 31 * 2 + 1 by norm_num, pow_add, pow_mul, t65537x4]; decide
  have t65537x6 : (12275445934081160404 : Fp) ^ (127:ℕ) = 3679734199234472637 := by
    rw [show (127:ℕ) = 63 * 2 + 1 by norm_num, pow_add, pow_mul, t65537x5]; decide
  have t65537x7 : (12275445934081160404 : Fp) ^ (255:ℕ) = 17588058450869219263 := by
    rw [show (255:ℕ) = 127 * 2 + 1 by norm_num, pow_add, pow_mul, t65537x6]; decide
  have t65537x8 : (12275445934081160404 : Fp) ^ (511:ℕ) = 13474118253388618134 := by
    rw [show (511:ℕ) = 255 * 2 + 1 by norm_num, pow_add, pow_mul, t65537x7]; decide
  have t65537x9 : (12275445934081160404 : Fp) ^ (1023:ℕ) = 3424231069583294856 := by
    rw [show (1023:ℕ) = 511 * 2 + 1 by norm_num, pow_add, pow_mul, t65537x8]; decide
  have t65537x10 : (12275445934081160404 : Fp) ^ (2047:ℕ) = 3212278696635431411 := by
    rw [show (2047:ℕ) = 1023 * 2 + 1 by norm_num, pow_add, pow_mul, t65537x9]; decide
  have t65537x11 : (12275445934081160404 : Fp) ^ (4095:ℕ) = 8674491644268464123 := by
    rw [show (4095:ℕ) = 2047 * 2 + 1 by norm_num, pow_add, pow_mul, t65537x10]; decide
  have t65537x12 : (12275445934081160404 : Fp) ^ (8191:ℕ) = 7614671795105477622 := by
    rw [show (8191:ℕ) = 4095 * 2 + 1 by norm_num, pow_add, pow_mul, t65537x11]; decide
  have t65537x13 : (12275445934081160404 : Fp) ^ (16383:ℕ) = 565825823434018290 := by
    rw [show (16383:ℕ) = 8191 * 2 + 1 by norm_num, pow_add, pow_mul, t65537x12]; decide
  have t65537x14 : (12275445934081160404 : Fp) ^ (32767:ℕ) = 1614949354278806530 := by
    rw [show (32767:ℕ) = 16383 * 2 + 1 by norm_num, pow_add, pow_mul, t65537x13]; decide
  have t65537x15 : (12275445934081160404 : Fp) ^ (65535:ℕ) = 8478886009461009681 := by
    rw [show (65535:ℕ) = 32767 * 2 + 1 by norm_num, pow_add, pow_mul, t65537x14]; decide
  have e2 : (7 : Fp) ^ ((18446744069414584321 - 1) / 2) = 18446744069414584320 := by
    rw [show (18446744069414584321 - 1) / 2 = ((2:ℕ)^31) * (2 ^ 32 - 1) by norm_num, pow_mul, h31]; exact k32
  have e1 : (7 : Fp) ^ (18446744069414584321 - 1) = 1 := by
    rw [show (18446744069414584321 - 1 : ℕ) = ((18446744069414584321 - 1) / 2) * 2 by norm_num, pow_mul, e2]; decide
  have e3 : (7 : Fp) ^ ((18446744069414584321 - 1) / 3) = 18446744065119617025 := by
    rw [show (18446744069414584321 - 1) / 3 = ((2:ℕ)^32) * 1431655765 by norm_num, pow_mul, h32]; exact t3x30
  have e5 : (7 : Fp) ^ ((18446744069414584321 - 1) / 5) = 1373043270956696022 := by
    rw [show (18446744069414584321 - 1) / 5 = ((2:ℕ)^32) * 858993459 by norm_num, pow_mul, h32]; exact t5x29
  have e17 : (7 : Fp) ^ ((18446744069414584321 - 1) / 17) = 16301593560560007290 := by
    rw [show (18446744069414584321 - 1) / 17 = ((2:ℕ)^32) * 252645135 by norm_num, pow_mul, h32]; exact t17x27
  have e257 : (7 : Fp) ^ ((18446744069414584321 - 1) / 257) = 995085315851368103 := by
    rw [show (18446744069414584321 - 1) / 257 = ((2:ℕ)^32) * 16711935 by norm_num, pow_mul, h32]; exact t257x23
  have e65537 : (7 : Fp) ^ ((18446744069414584321 - 1) / 65537) = 8478886009461009681 := by
    rw [show (18446744069414584321 - 1) / 65537 = ((2:ℕ)^32) * 65535 by norm_num, pow_mul, h32]; exact t65537x15
  refine lucas_primality 18446744069414584321 7 e1 ?_
  intro q hq hdvd
  have hq2 : q ∣ 2 ^ 32 * (3 * (5 * (17 * (257 * 65537)))) := by
    rw [show (2:ℕ) ^ 32 * (3 * (5 * (17 * (257 * 65537)))) = 18446744069414584321 - 1 by norm_num]; exact hdvd
  have hqmem : q = 2 ∨ q = 3 ∨ q = 5 ∨ q = 17 ∨ q = 257 ∨ q = 65537 := by
    rcases (Nat.Prime.dvd_mul hq).mp hq2 with h | h
    · exact Or.inl ((Nat.prime_dvd_prime_iff_eq hq (by norm_num)).mp (hq.dvd_of_dvd_pow h))
    rcases (Nat.Prime.dvd_mul hq).mp h with h | h
    · exact Or.inr (Or.inl ((Nat.prime_dvd_prime_iff_eq hq (by norm_num)).mp h))
    rcases (Nat.Prime.dvd_mul hq).mp h with h | h
    · exact Or.inr (Or.inr (Or.inl ((Nat.prime_dvd_prime_iff_eq hq (by norm_num)).mp h)))
    rcases (Nat.Prime.dvd_mul hq).mp h with h | h
    · exact Or.inr (Or.inr (Or.inr (Or.inl ((Nat.prime_dvd_prime_iff_eq hq (by norm_num)).mp h))))
    rcases (Nat.Prime.dvd_mul hq).mp h with h | h
    · exact Or.inr (Or.inr (Or.inr (Or.inr (Or.inl ((Nat.prime_dvd_prime_iff_eq hq (by norm_num)).mp h)))))
    · exact Or.inr (Or.inr (Or.inr (Or.inr (Or.inr ((Nat.prime_dvd_prime_iff_eq hq (by norm_num)).mp h)))))
  rcases hqmem with rfl | rfl | rfl | rfl | rfl | rfl
  · rw [e2]; decide
  · rw [e3]; decide
  · rw [e5]; decide
  · rw [e17]; decide
  · rw [e257]; decide
  · rw [e65537]; decide

instance : Fact (Nat.Prime bfieldP) := ⟨bfieldPPrime⟩

/-! ## C2: the Tip5 16-bit limb maps

`Tip5::fermat_cube_map` and `Tip5::inverted_fermat_cube_map`
(`tip5.rs:791-805`).  The `u32` arithmetic never overflows nor underflows for
inputs below `2^16` (the conditional `+ 65537` keeps every subtrahend below the
minuend), so the maps are modelled on `ℕ` with truncated subtraction. -/

/-- `Tip5::fermat_cube_map` (tip5.rs:791): square as a 32-bit integer, reduce
modulo `2^16 + 1` with one carry propagation, multiply by `x`, reduce again. -/
def fermatCubeMap (x : ℕ) : ℕ :=
  let x2 := x * x
  let x2hi := x2 >>> 16
  let x2lo := x2 &&& 0xffff
  let x2p := x2lo + (if x2lo < x2hi then 1 else 0) * 65537 - x2hi
  let x3 := x2p * x
  let x3hi := x3 >>> 16
  let x3lo := x3 &&& 0xffff
  x3lo + (if x3lo < x3hi then 1 else 0) * 65537 - x3hi

/-- `Tip5::inverted_fermat_cube_map` (tip5.rs:803):
`65536 - fermat_cube_map(65535 - x)`. -/
def invertedFermatCubeMap (x : ℕ) : ℕ :=
  65536 - fermatCubeMap (65535 - x)

/-- The carry-propagation arithmetic of `fermat_cube_map` computes the cube
modulo the Fermat prime `2^16 + 1`, landing in `[0, 65536]`. -/
theorem fermatCubeMap_eq_mod (x : ℕ) (hx : x < 65536) :
    fermatCubeMap x = x ^ 3 % 65537 := by
  unfold fermatCubeMap
  simp only [Nat.shiftRight_eq_div_pow, show (0xffff : ℕ) = 2 ^ 16 - 1 from rfl,
    Nat.and_pow_two_sub_one_eq_mod]
  have hxx : x * x < 65536 * 65536 := Nat.mul_lt_mul_of_lt_of_lt hx hx
  have h2 : x * x = 65536 * (x * x / 2 ^ 16) + x * x % 2 ^ 16 := by
    rw [Nat.mul_comm 65536]
    exact (Nat.div_add_mod' _ _).symm
  have hhi : x * x / 2 ^ 16 < 65536 := Nat.div_lt_of_lt_mul (by exact hxx)
  have hlo : x * x % 2 ^ 16 < 65536 := Nat.mod_lt _ (by norm_num)
  set hi := x * x / 2 ^ 16 with hhidef
  set lo := x * x % 2 ^ 16 with hlodef
  set x2p := lo + (if lo < hi then 1 else 0) * 65537 - hi with hx2pdef
  have hx2ple : x2p ≤ 65536 := by rw [hx2pdef]; split <;> omega
  have hx2pmod : x2p % 65537 = (x * x) % 65537 := by
    rw [hx2pdef]; split <;> omega
  have hzz : x2p * x ≤ 65536 * 65535 := Nat.mul_le_mul hx2ple (by omega)
  have h3 : x2p * x = 65536 * (x2p * x / 2 ^ 16) + x2p * x % 2 ^ 16 := by
    rw [Nat.mul_comm 65536]
    exact (Nat.div_add_mod' _ _).symm
  have hhi3 : x2p * x / 2 ^ 16 ≤ 65535 := by
    apply Nat.div_le_of_le_mul
    calc x2p * x ≤ 65536 * 65535 := hzz
    _ ≤ 65535 * 2 ^ 16 := by norm_num
  have hlo3 : x2p * x % 2 ^ 16 < 65536 := Nat.mod_lt _ (by norm_num)
  set hi3 := x2p * x / 2 ^ 16 with hhi3def
  set lo3 := x2p * x % 2 ^ 16 with hlo3def
  have hres : (lo3 + (if lo3 < hi3 then 1 else 0) * 65537 - hi3) % 65537
      = (x2p * x) % 65537 := by split <;> omega
  have hreslt : lo3 + (if lo3 < hi3 then 1 else 0) * 65537 - hi3 < 65537 := by
    split <;> omega
  have hcube : (x2p * x) % 65537 = x ^ 3 % 65537 := by
    have : x2p * x ≡ x * x * x [MOD 65537] := Nat.ModEq.mul_right x hx2pmod
    calc (x2p * x) % 65537 = (x * x * x) % 65537 := this
    _ = x ^ 3 % 65537 := by ring_nf
  omega

/-- Helper: in `ZMod 65537`, taking the `43691`-th power undoes cubing
(`3 * 43691 = 131073 = 2 * 65536 + 1`). -/
theorem zmod65537_cube_pow (a : ZMod 65537) : (a ^ 3) ^ 43691 = a := by
  haveI : Fact (Nat.Prime 65537) := ⟨by norm_num⟩
  rw [← pow_mul, show (3 * 43691 : ℕ) = 65536 * 2 + 1 by norm_num]
  rcases eq_or_ne a 0 with rfl | ha
  · simp
  · rw [pow_add, pow_mul, ZMod.pow_card_sub_one_eq_one ha]
    simp

/-- Helper: cubing is injective modulo the Fermat prime `65537`. -/
theorem cube_mod_injective {a b : ZMod 65537} (h : a ^ 3 = b ^ 3) : a = b := by
  have := zmod65537_cube_pow a
  rw [h, zmod65537_cube_pow b] at this
  exact this.symm

/-- Helper: `65536 = -1` in `ZMod 65537`. -/
theorem zmod65537_top_eq_neg_one : ((65536 : ℕ) : ZMod 65537) = -1 := by
  apply eq_neg_of_add_eq_zero_left
  have h0 : ((65537 : ℕ) : ZMod 65537) = 0 := ZMod.natCast_self 65537
  calc ((65536 : ℕ) : ZMod 65537) + 1 = ((65537 : ℕ) : ZMod 65537) := by push_cast; ring
  _ = 0 := h0

/-- Helper: for `x < 65536` the cube of `x` is not `-1` modulo `65537`. -/
theorem cube_mod_ne (x : ℕ) (hx : x < 65536) : x ^ 3 % 65537 ≠ 65536 := by
  intro h
  have hmod : x ^ 3 ≡ 65536 [MOD 65537] := by
    unfold Nat.ModEq
    omega
  have hcast : ((x : ZMod 65537)) ^ 3 = ((65536 : ℕ) : ZMod 65537) := by
    have := (ZMod.natCast_eq_natCast_iff _ _ _).mpr hmod
    push_cast at this ⊢
    exact this
  have hval : ((65536 : ℕ) : ZMod 65537) ^ 3 = ((65536 : ℕ) : ZMod 65537) := by
    rw [zmod65537_top_eq_neg_one]; ring
  have : (x : ZMod 65537) = ((65536 : ℕ) : ZMod 65537) := by
    apply cube_mod_injective
    rw [hcast, hval]
  have hx1 : ((x : ZMod 65537)).val = x := ZMod.val_cast_of_lt (by omega)
  have hx2 : (((65536 : ℕ) : ZMod 65537)).val = 65536 := ZMod.val_cast_of_lt (by omega)
  rw [this, hx2] at hx1
  omega

/-- Helper: `fermat_cube_map` maps `{0, …, 2^16 - 1}` to itself. -/
theorem fermatCubeMap_lt (x : ℕ) (hx : x < 65536) : fermatCubeMap x < 65536 := by
  rw [fermatCubeMap_eq_mod x hx]
  have h1 : x ^ 3 % 65537 < 65537 := Nat.mod_lt _ (by norm_num)
  have h2 := cube_mod_ne x hx
  omega

/-- Helper: `fermat_cube_map` is injective on `{0, …, 2^16 - 1}`. -/
theorem fermatCubeMap_inj (x y : ℕ) (hx : x < 65536) (hy : y < 65536)
    (h : fermatCubeMap x = fermatCubeMap y) : x = y := by
  rw [fermatCubeMap_eq_mod x hx, fermatCubeMap_eq_mod y hy] at h
  have hmod : x ^ 3 ≡ y ^ 3 [MOD 65537] := by
    unfold Nat.ModEq
    omega
  have hcast : ((x : ZMod 65537)) ^ 3 = ((y : ZMod 65537)) ^ 3 := by
    have := (ZMod.natCast_eq_natCast_iff _ _ _).mpr hmod
    push_cast at this ⊢
    exact this
  have := cube_mod_injective hcast
  have hx1 : ((x : ZMod 65537)).val = x := ZMod.val_cast_of_lt (by omega)
  have hy1 : ((y : ZMod 65537)).val = y := ZMod.val_cast_of_lt (by omega)
  rw [this, hy1] at hx1
  exact hx1.symm

/-- Helper: `fermat_cube_map` permutes `{0, …, 2^16 - 1}`. -/
theorem fermatCubeMap_bijOn :
    Set.BijOn fermatCubeMap (Set.Iio 65536) (Set.Iio 65536) := by
  have hmaps : Set.MapsTo fermatCubeMap (Set.Iio 65536) (Set.Iio 65536) :=
    fun x hx => fermatCubeMap_lt x hx
  refine ((Set.finite_Iio 65536).injOn_iff_bijOn_of_mapsTo hmaps).mp ?_
  intro x hx y hy h
  exact fermatCubeMap_inj x y hx hy h

/-- Helper: `inverted_fermat_cube_map` is a bijection from `{0, …, 2^16 - 1}`
onto `{1, …, 2^16}` (not onto `{0, …, 2^16 - 1}`). -/
theorem invertedFermatCubeMap_bijOn :
    Set.BijOn invertedFermatCubeMap (Set.Iio 65536) (Set.Icc 1 65536) := by
  have h1 : Set.BijOn (fun x : ℕ => 65535 - x) (Set.Iio 65536) (Set.Iio 65536) := by
    refine ⟨fun x hx => ?_, fun x hx y hy h => ?_, fun y hy => ?_⟩
    · simp only [Set.mem_Iio] at *; omega
    · simp only [Set.mem_Iio] at hx hy; dsimp only at h; omega
    · simp only [Set.mem_Iio] at hy
      refine ⟨65535 - y, by simp only [Set.mem_Iio]; omega, ?_⟩
      dsimp only
      omega
  have h2 : Set.BijOn (fun y : ℕ => 65536 - y) (Set.Iio 65536) (Set.Icc 1 65536) := by
    refine ⟨fun x hx => ?_, fun x hx y hy h => ?_, fun y hy => ?_⟩
    · simp only [Set.mem_Iio, Set.mem_Icc] at *; omega
    · simp only [Set.mem_Iio] at hx hy; dsimp only at h; omega
    · simp only [Set.mem_Icc] at hy
      refine ⟨65536 - y, by simp only [Set.mem_Iio]; omega, ?_⟩
      dsimp only
      omega
  have hcomp := (h2.comp fermatCubeMap_bijOn).comp h1
  have : invertedFermatCubeMap
      = (fun y : ℕ => 65536 - y) ∘ fermatCubeMap ∘ (fun x : ℕ => 65535 - x) := rfl
  rw [this]
  exact hcomp

/-- C2, counterexample: the claim asserts `IC(2^16 - 1) = 2^16 - 1`, but the
code computes `inverted_fermat_cube_map(65535) = 65536 - fermat_cube_map(0) =
65536`, which also escapes the claimed codomain `{0, …, 2^16 - 1}`. -/
theorem C2_counterexample :
    invertedFermatCubeMap 65535 = 65536 ∧ invertedFermatCubeMap 65535 ≠ 65535 := by
  constructor <;> decide

/-- C2, amended: the forward cube map `FC` is a permutation of
`{0, …, 2^16 - 1}` with `FC(0) = 0`; the inverse cube map satisfies
`IC(x) = 2^16 - FC(2^16 - 1 - x)` exactly as the code writes it, and is
therefore a bijection from `{0, …, 2^16 - 1}` onto `{1, …, 2^16}` with
`IC(2^16 - 1) = 2^16` (rather than a permutation of `{0, …, 2^16 - 1}` fixing
`2^16 - 1`). -/
theorem C2_tip5_limb_maps :
    Set.BijOn fermatCubeMap (Set.Iio 65536) (Set.Iio 65536) ∧
    fermatCubeMap 0 = 0 ∧
    (∀ x : ℕ, invertedFermatCubeMap x = 65536 - fermatCubeMap (65535 - x)) ∧
    Set.BijOn invertedFermatCubeMap (Set.Iio 65536) (Set.Icc 1 65536) ∧
    invertedFermatCubeMap 65535 = 65536 :=
  ⟨fermatCubeMap_bijOn, rfl, fun _ => rfl, invertedFermatCubeMap_bijOn, rfl⟩

/-! ## The dense polynomial engine (`polynomial.rs`)

`Polynomial<PFElem>` is an ordered coefficient vector, low-order first, over a
generic prime field; it is modelled as `List F` over an arbitrary decidable
field `F`. -/

variable {F : Type} [Field F] [DecidableEq F]

/-- `degree_raw` (polynomial.rs:18): index of the last non-zero coefficient,
`-1` for the all-zero list (the Rust `while` loop scans trailing zeros from the
end). -/
def degreeRaw (l : List F) : ℤ :=
  ((l.reverse.dropWhile fun c => decide (c = 0)).length : ℤ) - 1

/-- `Polynomial::normalize` (polynomial.rs:137): pop trailing zero
coefficients (named `normalizePoly` here: plain `normalize` collides with a
Mathlib name). -/
def normalizePoly (l : List F) : List F :=
  (l.reverse.dropWhile fun c => decide (c = 0)).reverse

/-- `Polynomial::is_zero` (polynomial.rs:155): empty or all-zero coefficient
vector. -/
def isZero (l : List F) : Bool :=
  l.all fun c => decide (c = 0)

/-- `Polynomial::evaluate` (polynomial.rs:167): Horner evaluation. -/
def evaluate (l : List F) (x : F) : F :=
  l.foldr (fun c acc => c + x * acc) 0

/-- Interpretation of a coefficient list as a `Mathlib` polynomial (the
abstraction function of the embedding; not part of the code). -/
noncomputable def toPoly (l : List F) : Polynomial F :=
  ∑ i ∈ Finset.range l.length, Polynomial.C (l.getD i 0) * Polynomial.X ^ i

theorem toPoly_coeff (l : List F) (n : ℕ) : (toPoly l).coeff n = l.getD n 0 := by
  rw [toPoly, Polynomial.finset_sum_coeff]
  simp only [Polynomial.coeff_C_mul, Polynomial.coeff_X_pow, mul_ite, mul_one, mul_zero]
  rw [Finset.sum_ite_eq (Finset.range l.length) n fun i => l.getD i 0]
  split
  · rfl
  · rename_i hn
    rw [Finset.mem_range, not_lt] at hn
    rw [List.getD_eq_getElem?_getD, List.getElem?_eq_none (by omega), Option.getD_none]

theorem toPoly_nil : toPoly ([] : List F) = 0 := by
  simp [toPoly]

theorem toPoly_cons (a : F) (l : List F) :
    toPoly (a :: l) = Polynomial.C a + Polynomial.X * toPoly l := by
  apply Polynomial.ext
  intro n
  rw [toPoly_coeff]
  cases n with
  | zero => simp [Polynomial.coeff_add, Polynomial.coeff_C]
  | succ m =>
      simp only [Polynomial.coeff_add, Polynomial.coeff_C, Polynomial.coeff_X_mul,
        toPoly_coeff]
      simp [List.getD]

theorem toPoly_eq_of_getD (l m : List F) (h : ∀ n, l.getD n 0 = m.getD n 0) :
    toPoly l = toPoly m := by
  apply Polynomial.ext
  intro n
  rw [toPoly_coeff, toPoly_coeff, h]

theorem degreeRaw_eq_length (l : List F) :
    degreeRaw l = ((normalizePoly l).length : ℤ) - 1 := by
  simp [degreeRaw, normalizePoly]

theorem normalizePoly_append_replicate (l : List F) :
    l = normalizePoly l ++ List.replicate (l.length - (normalizePoly l).length) 0 := by
  have hsplit := List.takeWhile_append_dropWhile (p := fun c : F => decide (c = 0))
    (l := l.reverse)
  have htake : l.reverse.takeWhile (fun c : F => decide (c = 0))
      = List.replicate (l.reverse.takeWhile fun c : F => decide (c = 0)).length 0 := by
    apply List.eq_replicate_of_mem
    intro b hb
    have := List.mem_takeWhile_imp hb
    simpa using this
  have hlsplit : l = ((l.reverse.dropWhile fun c : F => decide (c = 0)).reverse)
      ++ ((l.reverse.takeWhile fun c : F => decide (c = 0)).reverse) := by
    conv_lhs => rw [← l.reverse_reverse, ← hsplit]
    rw [List.reverse_append]
  have hlen : l.reverse.length =
      (l.reverse.takeWhile fun c : F => decide (c = 0)).length
      + (l.reverse.dropWhile fun c : F => decide (c = 0)).length := by
    conv_lhs => rw [← hsplit]
    rw [List.length_append]
  have hz : (l.reverse.takeWhile fun c : F => decide (c = 0)).reverse
      = List.replicate (l.length - (normalizePoly l).length) 0 := by
    rw [htake, List.reverse_replicate]
    congr 1
    simp only [List.length_reverse] at hlen
    simp only [normalizePoly, List.length_reverse]
    omega
  conv_lhs => rw [hlsplit]
  rw [hz]
  rfl

theorem normalizePoly_length_le (l : List F) : (normalizePoly l).length ≤ l.length := by
  conv_rhs => rw [normalizePoly_append_replicate l]
  rw [List.length_append]
  omega

theorem getD_eq_of_normalizePoly (l : List F) (n : ℕ) :
    l.getD n 0 = (normalizePoly l).getD n 0 := by
  conv_lhs => rw [normalizePoly_append_replicate l]
  rw [List.getD_eq_getElem?_getD, List.getD_eq_getElem?_getD, List.getElem?_append]
  split
  · rfl
  · rw [List.getElem?_replicate]
    have hn : ¬ n < (normalizePoly l).length := by assumption
    rw [List.getElem?_eq_none (by omega)]
    split <;> rfl

theorem toPoly_normalizePoly (l : List F) : toPoly (normalizePoly l) = toPoly l :=
  toPoly_eq_of_getD _ _ fun n => (getD_eq_of_normalizePoly l n).symm

theorem normalizePoly_getLast_ne_zero (l : List F) (h : normalizePoly l ≠ []) :
    (normalizePoly l).getD ((normalizePoly l).length - 1) 0 ≠ 0 := by
  have hne : (l.reverse.dropWhile fun c : F => decide (c = 0)) ≠ [] := by
    intro hcon
    apply h
    rw [normalizePoly, hcon, List.reverse_nil]
  have hhead := List.head_dropWhile_not (fun c : F => decide (c = 0)) l.reverse hne
  simp only [decide_eq_false_iff_not] at hhead
  have heq : (normalizePoly l).getD ((normalizePoly l).length - 1) 0
      = (l.reverse.dropWhile fun c : F => decide (c = 0)).head hne := by
    rw [List.getD_eq_getElem?_getD, ← List.getLast?_eq_getElem?]
    simp only [normalizePoly, List.getLast?_reverse]
    rw [List.head?_eq_head hne]
    rfl
  rw [heq]
  exact hhead

theorem getD_eq_zero_of_length_le (l : List F) (n : ℕ) (h : l.length ≤ n) :
    l.getD n 0 = 0 := by
  rw [List.getD_eq_getElem?_getD, List.getElem?_eq_none h, Option.getD_none]

theorem getD_eq_zero_of_degreeRaw_lt (l : List F) (n : ℕ)
    (h : degreeRaw l < (n : ℤ)) : l.getD n 0 = 0 := by
  rw [getD_eq_of_normalizePoly]
  apply getD_eq_zero_of_length_le
  rw [degreeRaw_eq_length] at h
  omega

theorem isZero_iff_normalizePoly_nil (l : List F) :
    isZero l = true ↔ normalizePoly l = [] := by
  constructor
  · intro h
    by_contra hne
    have hlast := normalizePoly_getLast_ne_zero l hne
    apply hlast
    have hmem : (normalizePoly l).getD ((normalizePoly l).length - 1) 0 = 0 ∨
        (normalizePoly l).length ≤ (normalizePoly l).length - 1 := by
      left
      rw [← getD_eq_of_normalizePoly]
      rw [isZero, List.all_eq_true] at h
      rcases hlt : l[(normalizePoly l).length - 1]? with _ | x
      · rw [List.getD_eq_getElem?_getD, hlt]; rfl
      · have hxmem : x ∈ l := List.getElem?_mem hlt
        have := h x hxmem
        simp only [decide_eq_true_eq] at this
        rw [List.getD_eq_getElem?_getD, hlt, Option.getD_some, this]
    rcases hmem with h1 | h1
    · exact h1
    · exfalso
      have : normalizePoly l ≠ [] := hne
      have : 0 < (normalizePoly l).length := List.length_pos.mpr hne
      omega
  · intro h
    rw [isZero, List.all_eq_true]
    intro x hx
    have : ∀ n, l.getD n 0 = 0 := by
      intro n
      rw [getD_eq_of_normalizePoly, h]
      rfl
    obtain ⟨n, hn, hxn⟩ := List.getElem_of_mem hx
    have := this n
    rw [List.getD_eq_getElem?_getD, List.getElem?_eq_getElem hn] at this
    simp only [Option.getD_some] at this
    simp [← hxn, this]

theorem isZero_false_degreeRaw (l : List F) (h : isZero l = false) :
    0 ≤ degreeRaw l := by
  rw [degreeRaw_eq_length]
  have : normalizePoly l ≠ [] := by
    intro hcon
    rw [(isZero_iff_normalizePoly_nil l).mpr hcon] at h
    exact absurd h (by simp)
  have : 0 < (normalizePoly l).length := List.length_pos.mpr this
  omega

theorem toPoly_eq_zero_of_isZero (l : List F) (h : isZero l = true) :
    toPoly l = 0 := by
  rw [← toPoly_normalizePoly, (isZero_iff_normalizePoly_nil l).mp h, toPoly_nil]

theorem normalizePoly_idem (l : List F) :
    normalizePoly (normalizePoly l) = normalizePoly l := by
  rw [normalizePoly, normalizePoly, List.reverse_reverse]
  congr 1
  rcases hcase : l.reverse.dropWhile fun c : F => decide (c = 0) with _ | ⟨x, xs⟩
  · rfl
  · have hne2 : List.dropWhile (fun c : F => decide (c = 0)) l.reverse ≠ [] := by
      rw [hcase]; simp
    have hhead := List.head_dropWhile_not (fun c : F => decide (c = 0)) l.reverse hne2
    have hx : (List.dropWhile (fun c : F => decide (c = 0)) l.reverse).head hne2 = x := by
      have h1 : (List.dropWhile (fun c : F => decide (c = 0)) l.reverse).head? = some x := by
        rw [hcase]; rfl
      rw [List.head?_eq_head hne2] at h1
      exact Option.some_injective _ h1
    rw [hx] at hhead
    rw [List.dropWhile_cons_of_neg (by rw [hhead]; simp)]

theorem degreeRaw_normalizePoly (l : List F) :
    degreeRaw (normalizePoly l) = degreeRaw l := by
  rw [degreeRaw_eq_length, degreeRaw_eq_length, normalizePoly_idem]

theorem isZero_normalizePoly (l : List F) :
    isZero (normalizePoly l) = isZero l := by
  rcases h : isZero l with _ | _
  · rcases h2 : isZero (normalizePoly l) with _ | _
    · rfl
    · exfalso
      rw [isZero_iff_normalizePoly_nil, normalizePoly_idem, ← isZero_iff_normalizePoly_nil, h] at h2
      cases h2
  · rw [isZero_iff_normalizePoly_nil, normalizePoly_idem, ← isZero_iff_normalizePoly_nil, h]

theorem getLast_getD_eq (l : List F) : l.getLast?.getD 0 = l.getD (l.length - 1) 0 := by
  rw [List.getLast?_eq_getElem?, List.getD_eq_getElem?_getD]

/-! ### `Polynomial::divide` (polynomial.rs:961-1021) -/

/-- One iteration of the `while` loop of `Polynomial::divide`: pop the leading
remainder coefficient, push the next quotient coefficient, and (unless that
coefficient is zero) subtract the scaled divisor from the top `degree_rhs`
remainder entries. -/
def divideStep (divisor : List F) (dr : ℕ) (inv : F) (st : List F × List F) :
    List F × List F :=
  if st.2.getLast?.getD 0 * inv = 0 then
    (st.1 ++ [st.2.getLast?.getD 0 * inv], st.2.dropLast)
  else
    (st.1 ++ [st.2.getLast?.getD 0 * inv],
      st.2.dropLast.take (st.2.dropLast.length - dr) ++
        List.zipWith (fun r d => r - st.2.getLast?.getD 0 * inv * d)
          (st.2.dropLast.drop (st.2.dropLast.length - dr)) (divisor.take dr))

/-- The `while` loop of `Polynomial::divide`, indexed by its iteration count
`i = 0, …, degree_lhs - degree_rhs`. -/
def divideIter (divisor : List F) (dr : ℕ) (inv : F) :
    ℕ → List F × List F → List F × List F
  | 0, st => st
  | n + 1, st => divideIter divisor dr inv n (divideStep divisor dr inv st)

/-- `Polynomial::divide` (polynomial.rs:961): long division, returning
`(quotient, remainder)`; `none` models the panic on division by the zero
polynomial. -/
def divide (a divisor : List F) : Option (List F × List F) :=
  if degreeRaw divisor < 0 then none
  else if isZero a then some ([], [])
  else
    some ((divideIter divisor (degreeRaw divisor).toNat
        (1 / divisor.getD (degreeRaw divisor).toNat 0)
        ((degreeRaw a - degreeRaw divisor) + 1).toNat ([], normalizePoly a)).1.reverse,
      (divideIter divisor (degreeRaw divisor).toNat
        (1 / divisor.getD (degreeRaw divisor).toNat 0)
        ((degreeRaw a - degreeRaw divisor) + 1).toNat ([], normalizePoly a)).2)

theorem divideStep_quot (divisor : List F) (dr : ℕ) (inv : F) (quot rem : List F) :
    (divideStep divisor dr inv (quot, rem)).1
      = quot ++ [rem.getD (rem.length - 1) 0 * inv] := by
  rw [divideStep, ← getLast_getD_eq]
  split <;> rfl

theorem divideStep_len (divisor : List F) (dr : ℕ) (inv : F) (quot rem : List F)
    (hdrlen : dr + 1 ≤ divisor.length) (hlen : dr + 1 ≤ rem.length) :
    (divideStep divisor dr inv (quot, rem)).2.length = rem.length - 1 := by
  rw [divideStep]
  split
  · simp
  · simp only [List.length_append, List.length_take, List.length_zipWith,
      List.length_drop, List.length_dropLast, List.length_take]
    omega

theorem divideStep_toPoly (divisor : List F) (dr : ℕ) (inv : F) (quot rem : List F)
    (hdrlen : dr + 1 ≤ divisor.length)
    (hdr : degreeRaw divisor = (dr : ℤ))
    (hinv : inv * divisor.getD dr 0 = 1)
    (hlen : dr + 1 ≤ rem.length) :
    toPoly (divideStep divisor dr inv (quot, rem)).2
      = toPoly rem - Polynomial.C (rem.getD (rem.length - 1) 0 * inv)
          * toPoly divisor * Polynomial.X ^ (rem.length - 1 - dr) := by
  have hinvne : inv ≠ 0 := left_ne_zero_of_mul_eq_one hinv
  rw [divideStep, ← getLast_getD_eq]
  set rlc := rem.getLast?.getD 0 with hrlc
  split
  · rename_i hq0
    have hrlc0 : rlc = 0 := by
      rcases mul_eq_zero.mp hq0 with h | h
      · exact h
      · exact absurd h hinvne
    rw [hq0]
    simp only [map_zero, zero_mul, sub_zero]
    apply Polynomial.ext
    intro n
    rw [toPoly_coeff, toPoly_coeff, List.getD_eq_getElem?_getD, List.getD_eq_getElem?_getD,
      List.getElem?_dropLast]
    split
    · rfl
    · rename_i hn
      rcases Nat.lt_or_ge n rem.length with h2 | h2
      · have hn2 : n = rem.length - 1 := by omega
        subst hn2
        rw [← List.getD_eq_getElem?_getD, ← getLast_getD_eq, ← hrlc, hrlc0]
        rfl
      · rw [List.getElem?_eq_none (show rem.length ≤ n by omega)]
  · rename_i hqne
    apply Polynomial.ext
    intro n
    dsimp only
    simp only [List.length_dropLast]
    have hdive : ∀ m : ℕ, (Polynomial.C (rlc * inv) * toPoly divisor).coeff m
        = rlc * inv * divisor.getD m 0 := by
      intro m
      rw [Polynomial.coeff_C_mul, toPoly_coeff]
    have hlt : (rem.dropLast.take (rem.length - 1 - dr)).length = rem.length - 1 - dr := by
      simp only [List.length_take, List.length_dropLast]
      omega
    rw [toPoly_coeff, Polynomial.coeff_sub, toPoly_coeff, Polynomial.coeff_mul_X_pow',
      List.getD_eq_getElem?_getD, List.getElem?_append, hlt]
    by_cases hn1 : n < rem.length - 1 - dr
    · rw [if_pos hn1, List.getElem?_take, if_pos hn1, List.getElem?_dropLast,
        if_pos (by omega), if_neg (by omega), sub_zero, List.getD_eq_getElem?_getD]
    · rw [if_neg hn1]
      by_cases hn2 : n < rem.length - 1
      · rw [List.getElem?_zipWith, List.getElem?_drop]
        have h3 : rem.length - 1 - dr + (n - (rem.length - 1 - dr)) = n := by omega
        rw [h3, List.getElem?_dropLast, if_pos hn2, List.getElem?_take,
          if_pos (show n - (rem.length - 1 - dr) < dr by omega)]
        rw [List.getElem?_eq_getElem (show n < rem.length by omega)]
        rcases hdq : divisor[n - (rem.length - 1 - dr)]? with _ | d
        · exfalso
          rw [List.getElem?_eq_none_iff] at hdq
          omega
        · simp only [Option.getD_some]
          rw [if_pos (by omega), hdive, List.getD_eq_getElem?_getD rem,
            List.getElem?_eq_getElem (show n < rem.length by omega),
            List.getD_eq_getElem?_getD divisor, hdq]
          simp only [Option.getD_some]
      · have hzlen : (List.zipWith (fun r d => r - rlc * inv * d)
            (rem.dropLast.drop (rem.length - 1 - dr)) (divisor.take dr)).length = dr := by
          simp only [List.length_zipWith, List.length_drop, List.length_dropLast,
            List.length_take]
          omega
        rw [List.getElem?_eq_none (by rw [hzlen]; omega)]
        simp only [Option.getD_none]
        by_cases hn3 : n = rem.length - 1
        · rw [if_pos (by omega), hdive]
          have h4 : n - (rem.length - 1 - dr) = dr := by omega
          rw [h4]
          rw [List.getD_eq_getElem?_getD rem, hn3, ← List.getD_eq_getElem?_getD,
            ← getLast_getD_eq, ← hrlc]
          have h5 : rlc * inv * divisor.getD dr 0 = rlc * (inv * divisor.getD dr 0) := by
            ring
          rw [h5, hinv, mul_one, sub_self]
        · rw [List.getD_eq_getElem?_getD rem, List.getElem?_eq_none (show rem.length ≤ n by omega)]
          simp only [Option.getD_none]
          split
          · rename_i hkn
            have hdz : divisor.getD (n - (rem.length - 1 - dr)) 0 = 0 := by
              apply getD_eq_zero_of_degreeRaw_lt
              rw [hdr]
              have h6 : dr < n - (rem.length - 1 - dr) := by omega
              exact_mod_cast h6
            rw [hdive, hdz, mul_zero, zero_sub, neg_zero]
          · rw [zero_sub, neg_zero]

theorem degreeRaw_lt_length (l : List F) : degreeRaw l < (l.length : ℤ) := by
  rw [degreeRaw_eq_length]
  have := normalizePoly_length_le l
  omega

theorem degreeRaw_nil : degreeRaw ([] : List F) = -1 := rfl

theorem divideIter_spec (divisor : List F) (dr : ℕ) (inv : F)
    (hdrlen : dr + 1 ≤ divisor.length)
    (hdr : degreeRaw divisor = (dr : ℤ))
    (hinv : inv * divisor.getD dr 0 = 1) :
    ∀ (n : ℕ) (quot rem : List F), dr + n ≤ rem.length →
      (divideIter divisor dr inv n (quot, rem)).2.length = rem.length - n ∧
      toPoly (divideIter divisor dr inv n (quot, rem)).2
          + toPoly (divideIter divisor dr inv n (quot, rem)).1.reverse
            * toPoly divisor * Polynomial.X ^ (rem.length - n - dr)
        = toPoly rem + toPoly quot.reverse * toPoly divisor
            * Polynomial.X ^ (rem.length - dr) := by
  intro n
  induction n with
  | zero =>
      intro quot rem h
      exact ⟨rfl, rfl⟩
  | succ m ih =>
      intro quot rem h
      have hlen1 : dr + 1 ≤ rem.length := by omega
      have hstep_len := divideStep_len divisor dr inv quot rem hdrlen hlen1
      have hstep_quot := divideStep_quot divisor dr inv quot rem
      have hstep_poly := divideStep_toPoly divisor dr inv quot rem hdrlen hdr hinv hlen1
      rcases hst : divideStep divisor dr inv (quot, rem) with ⟨q1, r1⟩
      rw [hst] at hstep_len hstep_quot hstep_poly
      simp only at hstep_len hstep_quot hstep_poly
      rw [divideIter, hst]
      obtain ⟨hl, hp⟩ := ih q1 r1 (by omega)
      refine ⟨by rw [hl]; omega, ?_⟩
      have he1 : r1.length - m - dr = rem.length - (m + 1) - dr := by omega
      have he2 : r1.length - dr = rem.length - 1 - dr := by omega
      rw [he1, he2] at hp
      rw [hp, hstep_poly, hstep_quot]
      simp only [List.reverse_append, List.reverse_cons, List.reverse_nil, List.nil_append,
        List.singleton_append]
      rw [toPoly_cons]
      have he3 : rem.length - dr = (rem.length - 1 - dr) + 1 := by omega
      rw [he3]
      ring

theorem divide_normalizePoly_arg (a b : List F) :
    divide a b = divide (normalizePoly a) (normalizePoly b) := by
  by_cases hz : degreeRaw b < 0
  · have hz2 : degreeRaw (normalizePoly b) < 0 := by
      rw [degreeRaw_normalizePoly]; exact hz
    rw [divide, divide, if_pos hz, if_pos hz2]
  · have hz2 : ¬ degreeRaw (normalizePoly b) < 0 := by
      rw [degreeRaw_normalizePoly]; exact hz
    rw [divide, divide, if_neg hz, if_neg hz2]
    by_cases ha : isZero a
    · have ha2 : isZero (normalizePoly a) = true := by
        rw [isZero_normalizePoly]; exact ha
      rw [if_pos ha, if_pos ha2]
    · have ha2 : ¬ isZero (normalizePoly a) = true := by
        rw [isZero_normalizePoly]; exact ha
      rw [if_neg ha, if_neg ha2]
      have hdr0 : 0 ≤ degreeRaw b := by omega
      have hlen : (degreeRaw b).toNat + 1 = (normalizePoly b).length := by
        have := degreeRaw_eq_length b
        omega
      have hget : b.getD (degreeRaw b).toNat 0
          = (normalizePoly b).getD (degreeRaw b).toNat 0 := getD_eq_of_normalizePoly b _
      have htake : (normalizePoly b).take (degreeRaw b).toNat
          = b.take (degreeRaw b).toNat := by
        have hsplit := normalizePoly_append_replicate b
        calc (normalizePoly b).take (degreeRaw b).toNat
            = (normalizePoly b
                ++ List.replicate (b.length - (normalizePoly b).length) 0).take
                (degreeRaw b).toNat := by
              rw [List.take_append_of_le_length (by omega)]
        _ = b.take (degreeRaw b).toNat := by rw [← hsplit]
      have hstep : divideStep (F := F) b (degreeRaw b).toNat
          = divideStep (normalizePoly b) (degreeRaw b).toNat := by
        funext inv st
        rw [divideStep, divideStep, htake]
      have hiter : ∀ (n : ℕ) (inv : F) (st : List F × List F),
          divideIter b (degreeRaw b).toNat inv n st
            = divideIter (normalizePoly b) (degreeRaw b).toNat inv n st := by
        intro n
        induction n with
        | zero => intro inv st; rfl
        | succ m ihm =>
            intro inv st
            rw [divideIter, divideIter, hstep, ihm]
      rw [degreeRaw_normalizePoly, degreeRaw_normalizePoly, normalizePoly_idem, ← hget, hiter]

/-- Euclidean division property of `Polynomial::divide` (the shared helper
behind the per-claim statements). -/
theorem divide_euclid (a b : List F) (hb : isZero b = false) :
    ∃ q r, divide a b = some (q, r) ∧
      toPoly a = toPoly q * toPoly b + toPoly r ∧
      degreeRaw r < degreeRaw b ∧
      divide a b = divide (normalizePoly a) (normalizePoly b) := by
  have hdge : 0 ≤ degreeRaw b := isZero_false_degreeRaw b hb
  have hdr : degreeRaw b = ((degreeRaw b).toNat : ℤ) := (Int.toNat_of_nonneg hdge).symm
  have hnormne : normalizePoly b ≠ [] := by
    intro hcon
    rw [← isZero_iff_normalizePoly_nil] at hcon
    rw [hcon] at hb
    cases hb
  have hlenb : (degreeRaw b).toNat + 1 = (normalizePoly b).length := by
    have := degreeRaw_eq_length b
    omega
  have hdrlen : (degreeRaw b).toNat + 1 ≤ b.length := by
    have := normalizePoly_length_le b
    omega
  have hdlc : b.getD (degreeRaw b).toNat 0 ≠ 0 := by
    rw [getD_eq_of_normalizePoly]
    have := normalizePoly_getLast_ne_zero b hnormne
    have heq : (normalizePoly b).length - 1 = (degreeRaw b).toNat := by omega
    rw [heq] at this
    exact this
  have hinv : (1 / b.getD (degreeRaw b).toNat 0) * b.getD (degreeRaw b).toNat 0 = 1 := by
    rw [one_div]
    exact inv_mul_cancel₀ hdlc
  by_cases ha : isZero a
  · refine ⟨[], [], ?_, ?_, ?_, divide_normalizePoly_arg a b⟩
    · rw [divide, if_neg (by omega), if_pos ha]
    · rw [toPoly_eq_zero_of_isZero a ha, toPoly_nil]
      ring
    · rw [degreeRaw_nil]
      omega
  · have hane : isZero a = false := by
      rcases h : isZero a with _ | _
      · rfl
      · exact absurd h ha
    have hda : 0 ≤ degreeRaw a := isZero_false_degreeRaw a hane
    have hlena : (degreeRaw a).toNat + 1 = (normalizePoly a).length := by
      have := degreeRaw_eq_length a
      omega
    refine ⟨(divideIter b (degreeRaw b).toNat (1 / b.getD (degreeRaw b).toNat 0)
        ((degreeRaw a - degreeRaw b) + 1).toNat ([], normalizePoly a)).1.reverse,
      (divideIter b (degreeRaw b).toNat (1 / b.getD (degreeRaw b).toNat 0)
        ((degreeRaw a - degreeRaw b) + 1).toNat ([], normalizePoly a)).2,
      ?_, ?_, ?_, divide_normalizePoly_arg a b⟩
    · rw [divide, if_neg (by omega), if_neg ha]
    · by_cases hcmp : degreeRaw b ≤ degreeRaw a
      · obtain ⟨hl, hp⟩ := divideIter_spec b (degreeRaw b).toNat _ hdrlen hdr hinv
          (((degreeRaw a - degreeRaw b) + 1).toNat) [] (normalizePoly a)
          (by rw [← hlena]; omega)
        have hexp : (normalizePoly a).length - ((degreeRaw a - degreeRaw b) + 1).toNat
            - (degreeRaw b).toNat = 0 := by omega
        rw [hexp, pow_zero, mul_one] at hp
        rw [List.reverse_nil, toPoly_nil, zero_mul, zero_mul, add_zero,
          toPoly_normalizePoly] at hp
        rw [← hp]
        ring
      · have hn : ((degreeRaw a - degreeRaw b) + 1).toNat = 0 := by omega
        rw [hn]
        rw [divideIter]
        simp only [List.reverse_nil]
        rw [toPoly_nil, toPoly_normalizePoly]
        ring
    · by_cases hcmp : degreeRaw b ≤ degreeRaw a
      · have hlt := degreeRaw_lt_length
          ((divideIter b (degreeRaw b).toNat (1 / b.getD (degreeRaw b).toNat 0)
            ((degreeRaw a - degreeRaw b) + 1).toNat ([], normalizePoly a)).2)
        obtain ⟨hl, _⟩ := divideIter_spec b (degreeRaw b).toNat _ hdrlen hdr hinv
          (((degreeRaw a - degreeRaw b) + 1).toNat) [] (normalizePoly a)
          (by rw [← hlena]; omega)
        rw [hl] at hlt
        have hfin : (normalizePoly a).length - ((degreeRaw a - degreeRaw b) + 1).toNat
            = (degreeRaw b).toNat := by omega
        rw [hfin] at hlt
        omega
      · have hn : ((degreeRaw a - degreeRaw b) + 1).toNat = 0 := by omega
        rw [hn, divideIter]
        rw [degreeRaw_normalizePoly]
        omega

/-- C5: `Polynomial::divide` satisfies the Euclidean division identity: for
`b ≠ 0` (in any coefficient representation) it returns `(q, r)` with
`a = q·b + r` and `deg r < deg b`, and the result is unchanged when either
operand carries trailing zero coefficients. -/
theorem C5_polynomial_divide (a b : List F) (hb : isZero b = false) :
    ∃ q r, divide a b = some (q, r) ∧
      toPoly a = toPoly q * toPoly b + toPoly r ∧
      degreeRaw r < degreeRaw b ∧
      divide a b = divide (normalizePoly a) (normalizePoly b) :=
  divide_euclid a b hb

/-- C5, witness: dividing `1 + x^2` by `1 + x` over the Goldilocks field. -/
theorem C5_witness :
    isZero ([1, 1] : List Fp) = false ∧
    (∃ q r, divide ([1, 0, 1] : List Fp) [1, 1] = some (q, r) ∧
      toPoly ([1, 0, 1] : List Fp) = toPoly q * toPoly [1, 1] + toPoly r ∧
      degreeRaw r < degreeRaw ([1, 1] : List Fp) ∧
      divide ([1, 0, 1] : List Fp) [1, 1]
        = divide (normalizePoly [1, 0, 1]) (normalizePoly [1, 1])) :=
  ⟨by decide, C5_polynomial_divide [1, 0, 1] [1, 1] (by decide)⟩

/-! ## `Polynomial::are_colinear` (polynomial.rs:387-425) -/

/-- Modelled from the spec: `has_unique_elements` (`utils.rs`, not among the
sources) reports whether a sequence is pairwise distinct; the spec's contract
for `are_colinear` is that "x-coordinates must be distinct". -/
def hasUniqueElements {α : Type} [DecidableEq α] (l : List α) : Bool :=
  decide l.Nodup

/-- `Polynomial::are_colinear` (polynomial.rs:387): `false` for fewer than three
points or repeated x-coordinates (the `println!` diagnostics are I/O noise and
are dropped); otherwise fit a line through the first two points and check the
remaining points against it.  The field division `one / x_diff` would panic for
`x_diff = 0` and is modelled with `Option`; that branch is unreachable because
the uniqueness check runs first. -/
def areColinear (points : List (F × F)) : Option Bool :=
  if points.length < 3 then some false
  else if ¬ hasUniqueElements (points.map Prod.fst) then some false
  else if (points.getD 0 (0, 0)).1 - (points.getD 1 (0, 0)).1 = 0 then none
  else
    some ((points.drop 2).all fun p =>
      decide (p.2 = ((points.getD 0 (0, 0)).2 - (points.getD 1 (0, 0)).2)
          * (1 / ((points.getD 0 (0, 0)).1 - (points.getD 1 (0, 0)).1)) * p.1
        + ((points.getD 0 (0, 0)).2
          - ((points.getD 0 (0, 0)).2 - (points.getD 1 (0, 0)).2)
            * (1 / ((points.getD 0 (0, 0)).1 - (points.getD 1 (0, 0)).1))
            * (points.getD 0 (0, 0)).1)))

/-- C10: `are_colinear` degrades gracefully: on fewer than three points, or on
any list with a repeated x-coordinate, it returns `false` (and does not reach
the division, so it cannot panic). -/
theorem C10_are_colinear_degrades (points : List (F × F))
    (h : points.length < 3 ∨ ¬ (points.map Prod.fst).Nodup) :
    areColinear points = some false := by
  rcases h with h | h
  · rw [areColinear, if_pos h]
  · by_cases hlen : points.length < 3
    · rw [areColinear, if_pos hlen]
    · rw [areColinear, if_neg hlen, if_pos (by simpa [hasUniqueElements] using h)]

/-- C10, witness: a two-point list and a three-point list with a repeated
abscissa both yield `some false`. -/
theorem C10_witness :
    (([((1 : Fp), 2), (2, 3)] : List (Fp × Fp)).length < 3 ∨
      ¬ (([((1 : Fp), 2), (2, 3)] : List (Fp × Fp)).map Prod.fst).Nodup) ∧
    areColinear ([((1 : Fp), 2), (2, 3)] : List (Fp × Fp)) = some false ∧
    (([((1 : Fp), 2), (1, 3), (2, 5)] : List (Fp × Fp)).length < 3 ∨
      ¬ (([((1 : Fp), 2), (1, 3), (2, 5)] : List (Fp × Fp)).map Prod.fst).Nodup) ∧
    areColinear ([((1 : Fp), 2), (1, 3), (2, 5)] : List (Fp × Fp)) = some false :=
  ⟨Or.inl (by decide),
   C10_are_colinear_degrades _ (Or.inl (by decide)),
   Or.inr (by decide),
   C10_are_colinear_degrades _ (Or.inr (by decide))⟩

/-! ## `Tip5::hash_varlen` padding (tip5.rs:1198-1224) -/

/-- The padding `while` loop of `Tip5::hash_varlen` (tip5.rs:1204-1206): push
zero elements until the length is a multiple of `RATE = 10`. -/
def padLoop (l : List Fp) : List Fp :=
  if l.length % 10 = 0 then l else padLoop (l ++ [0])
termination_by (10 - l.length % 10) % 10
decreasing_by
  simp only [List.length_append, List.length_cons, List.length_nil]
  omega

/-- The full padding stage of `Tip5::hash_varlen` (tip5.rs:1202-1206): append a
single `1` and then the zero-padding loop; the result is what the sponge
absorbs block by block. -/
def hashVarlenPaddedInput (input : List Fp) : List Fp :=
  padLoop (input ++ [1])

theorem padLoop_eq : ∀ (n : ℕ) (l : List Fp), (10 - l.length % 10) % 10 = n →
    padLoop l = l ++ List.replicate n 0 := by
  intro n
  induction n using Nat.strong_induction_on with
  | _ n ih =>
      intro l hl
      by_cases h : l.length % 10 = 0
      · rw [padLoop, if_pos h]
        have hn : n = 0 := by omega
        subst hn
        simp
      · rw [padLoop, if_neg h]
        have hn1 : 1 ≤ n := by omega
        have hm : (10 - (l ++ [0]).length % 10) % 10 = n - 1 := by
          simp only [List.length_append, List.length_cons, List.length_nil]
          omega
        rw [ih (n - 1) (by omega) (l ++ [0]) hm, List.append_assoc]
        congr 1
        have hn2 : n = (n - 1) + 1 := by omega
        rw [hn2, List.replicate_succ]
        rfl

/-- C8: `hash_varlen` absorbs the input extended by exactly one `1` followed by
the fewest zeros reaching a multiple of `RATE = 10`: the padded length is the
least multiple of 10 that is at least `len + 1`; in particular at least one
element is always appended, and an input whose length is a multiple of 10 grows
by a full block of 10. -/
theorem C8_hash_varlen_padding (input : List Fp) :
    hashVarlenPaddedInput input
        = input ++ 1 :: List.replicate ((10 - (input.length + 1) % 10) % 10) 0 ∧
    (hashVarlenPaddedInput input).length % 10 = 0 ∧
    input.length + 1 ≤ (hashVarlenPaddedInput input).length ∧
    (∀ m, input.length + 1 ≤ m → m % 10 = 0 → (hashVarlenPaddedInput input).length ≤ m) ∧
    (input.length % 10 = 0 → (hashVarlenPaddedInput input).length = input.length + 10) := by
  have hpad := padLoop_eq ((10 - (input ++ [1]).length % 10) % 10) (input ++ [1]) rfl
  have hlen1 : (input ++ [1]).length = input.length + 1 := by
    simp
  have heq : hashVarlenPaddedInput input
      = input ++ 1 :: List.replicate ((10 - (input.length + 1) % 10) % 10) 0 := by
    rw [hashVarlenPaddedInput, hpad, hlen1, List.append_assoc]
    rfl
  have hlen : (hashVarlenPaddedInput input).length
      = input.length + 1 + (10 - (input.length + 1) % 10) % 10 := by
    rw [heq]
    simp only [List.length_append, List.length_cons, List.length_replicate]
    omega
  refine ⟨heq, ?_, ?_, ?_, ?_⟩
  · rw [hlen]; omega
  · rw [hlen]; omega
  · intro m h1 h2
    rw [hlen]; omega
  · intro h
    rw [hlen]; omega

/-! ## The MMR successor proof (`mmr_successor_proof.rs`)

Digests and `Tip5::hash_pair` are abstracted as parameters: the hashing crate
is outside the embedded sources and the verifier's control flow does not
depend on hash values. -/

/-- An MMR accumulator.  Modelled from the spec (§3): the pair
`(peaks, num_leaves)` (`MmrAccumulator` lives in `mmr_accumulator.rs`, not
among the sources); `num_leafs` is a `u64`. -/
structure MmrAccumulator (D : Type) where
  peaks : List D
  numLeafs : ℕ

/-- Modelled from the spec (§3, §4.F): the peak heights of an MMR with `n`
leaves (a `u64`) are the positions of the set bits of `n`, highest first
(`get_peak_heights`, `shared_advanced.rs`, not among the sources). -/
def peakHeights (n : ℕ) : List ℕ :=
  ((List.range 64).filter fun h => n.testBit h).reverse

/-- Helper for `leafIndexToMtIndexAndPeakIndex`: walk the peaks from the
highest until the peak containing the leaf is found. -/
def leafIndexWalk : List ℕ → ℕ → ℕ → ℕ × ℕ
  | [], _, peakIdx => (0, peakIdx)
  | h :: rest, li, peakIdx =>
      if li < 2 ^ h then (2 ^ h + li, peakIdx)
      else leafIndexWalk rest (li - 2 ^ h) (peakIdx + 1)

/-- Modelled from the spec (§4.F): `leaf_index_to_mt_index_and_peak_index`
(`shared_basic.rs`, not among the sources) returns the local Merkle-tree index
of a leaf within its peak (`2^h + offset`, 1-indexed) and the index of that
peak. -/
def leafIndexToMtIndexAndPeakIndex (leafIndex numLeafs : ℕ) : ℕ × ℕ :=
  leafIndexWalk (peakHeights numLeafs) leafIndex 0

/-- `MmrSuccessorProof` (mmr_successor_proof.rs:22): one sibling path per old
peak. -/
structure MmrSuccessorProof (D : Type) where
  paths : List (List D)

/-- The per-old-peak loop of `MmrSuccessorProof::verify`
(mmr_successor_proof.rs:126-167): climb from each old peak along the recorded
siblings and look for the result among the new peaks.  The state is the list
of `(old peak, height)` pairs still to process, the running leaf count and the
peak counter; `paths.get?` models the (unreachable) index panic. -/
def verifyPeaksLoop {D : Type} [DecidableEq D] (hashPair : D → D → D)
    (paths : List (List D)) (newPeaks : List D) (newPeakHeights : List ℕ)
    (newNumLeafs : ℕ) :
    List (D × ℕ) → ℕ → ℕ → Option Bool
  | [], _, _ => some true
  | (oldPeak, oldHeight) :: rest, runningLeafCount, startingPeakIdx =>
      if newNumLeafs < runningLeafCount + 2 ^ oldHeight then some false
      else
        match paths.get? startingPeakIdx with
        | none => none
        | some path =>
            if ((newPeaks.zip newPeakHeights).enum.any fun pe =>
                decide (pe.2.1 = (path.foldl
                    (fun (acc : D × ℕ × ℕ) sibling =>
                      (if acc.2.1 % 2 = 0 then hashPair acc.1 sibling
                        else hashPair sibling acc.1,
                        acc.2.1 / 2, acc.2.2 + 1))
                    (oldPeak,
                      (leafIndexToMtIndexAndPeakIndex
                        (runningLeafCount + 2 ^ oldHeight - 1) newNumLeafs).1
                        >>> oldHeight,
                      oldHeight)).1)
                  && decide (pe.2.2 = (path.foldl
                    (fun (acc : D × ℕ × ℕ) sibling =>
                      (if acc.2.1 % 2 = 0 then hashPair acc.1 sibling
                        else hashPair sibling acc.1,
                        acc.2.1 / 2, acc.2.2 + 1))
                    (oldPeak,
                      (leafIndexToMtIndexAndPeakIndex
                        (runningLeafCount + 2 ^ oldHeight - 1) newNumLeafs).1
                        >>> oldHeight,
                      oldHeight)).2.2)
                  && decide (pe.1 ≤ startingPeakIdx)) then
              verifyPeaksLoop hashPair paths newPeaks newPeakHeights newNumLeafs rest
                (runningLeafCount + 2 ^ oldHeight) (startingPeakIdx + 1)
            else some false

/-- `MmrSuccessorProof::verify` (mmr_successor_proof.rs:113-169). -/
def MmrSuccessorProof.verify {D : Type} [DecidableEq D] (hashPair : D → D → D)
    (proof : MmrSuccessorProof D) (oldMmra newMmra : MmrAccumulator D) :
    Option Bool :=
  if oldMmra.numLeafs = 0 then some true
  else if (peakHeights oldMmra.numLeafs).length ≠ proof.paths.length then some false
  else
    verifyPeaksLoop hashPair proof.paths newMmra.peaks (peakHeights newMmra.numLeafs)
      newMmra.numLeafs (oldMmra.peaks.zip (peakHeights oldMmra.numLeafs)) 0 0

/-- C9: an empty old MMR is accepted as a predecessor of every new MMR: for
every successor proof (with arbitrary path contents), `verify` returns `true`
immediately when the old accumulator has zero leaves. -/
theorem C9_verify_empty_old {D : Type} [DecidableEq D] (hashPair : D → D → D)
    (proof : MmrSuccessorProof D) (oldMmra newMmra : MmrAccumulator D)
    (h : oldMmra.numLeafs = 0) :
    proof.verify hashPair oldMmra newMmra = some true := by
  rw [MmrSuccessorProof.verify, if_pos h]

/-- C9, witness: the trivial proof relates the empty accumulator to a
one-leaf accumulator. -/
theorem C9_witness :
    (MmrAccumulator.mk ([] : List ℕ) 0).numLeafs = 0 ∧
    (MmrSuccessorProof.mk ([] : List (List ℕ))).verify (fun a b => a + b)
      (MmrAccumulator.mk [] 0) (MmrAccumulator.mk [5] 1) = some true :=
  ⟨rfl, C9_verify_empty_old (fun a b => a + b) ⟨[]⟩ ⟨[], 0⟩ ⟨[5], 1⟩ rfl⟩

theorem verifyPeaksLoop_isSome {D : Type} [DecidableEq D] (hashPair : D → D → D)
    (paths : List (List D)) (newPeaks : List D) (newPeakHeights : List ℕ)
    (newNumLeafs : ℕ) :
    ∀ (l : List (D × ℕ)) (rc idx : ℕ), idx + l.length ≤ paths.length →
      (verifyPeaksLoop hashPair paths newPeaks newPeakHeights newNumLeafs
        l rc idx).isSome := by
  intro l
  induction l with
  | nil =>
      intro rc idx h
      rw [verifyPeaksLoop]
      rfl
  | cons hd tl ih =>
      intro rc idx h
      rcases hd with ⟨oldPeak, oldHeight⟩
      rw [verifyPeaksLoop]
      split
      · rfl
      · rcases hget : paths.get? idx with _ | path
        · exfalso
          rw [List.get?_eq_getElem?, List.getElem?_eq_none_iff] at hget
          simp only [List.length_cons] at h
          omega
        · simp only
          split
          · exact ih _ _ (by simp only [List.length_cons] at h; omega)
          · rfl

theorem mmrVerify_isSome {D : Type} [DecidableEq D] (hashPair : D → D → D)
    (proof : MmrSuccessorProof D) (oldMmra newMmra : MmrAccumulator D) :
    (proof.verify hashPair oldMmra newMmra).isSome := by
  rw [MmrSuccessorProof.verify]
  split
  · rfl
  · split
    · rfl
    · rename_i hlen
      apply verifyPeaksLoop_isSome
      have hzip : (oldMmra.peaks.zip (peakHeights oldMmra.numLeafs)).length
          ≤ (peakHeights oldMmra.numLeafs).length := by
        rw [List.length_zip]
        omega
      omega

/-! ## The Merkle tree verifiers (`merkle_tree.rs`)

`Blake3Hash` and the `bincode` leaf serialization come from external crates;
the hash type `H`, the two-hash concatenation-hash and the leaf-hash function
are parameters of the embedding.  `u64`/`u32` arithmetic wraps (release
semantics), hence the explicit `% 2^64` / `% 2^32`; out-of-bounds indexing and
`unwrap` of `None` are the panics, modelled by `none`. -/

/-- `Node<T>` (merkle_tree.rs:12): an optional value and a hash. -/
structure MNode (T H : Type) where
  value : Option T
  hash : H

/-- `MerkleTree::verify_proof` (merkle_tree.rs:48-73).  The accesses `proof[0]`
and `proof[0].value.unwrap()` panic (`none`) on an empty proof or a value-less
first node (the unwrap fires after the loop in the source; the loop itself
cannot panic, so panic-equivalence is preserved). -/
def merkleVerifyProof {T H : Type} [DecidableEq H] (hashConcat : H → H → H)
    (leafHash : T → H) (rootHash : H) (index : ℕ) (proof : List (MNode T H)) :
    Option Bool :=
  match proof with
  | [] => none
  | first :: rest =>
      match first.value with
      | none => none
      | some v =>
          some (decide ((rest.foldl
              (fun (acc : H × ℕ) node =>
                (if acc.2 % 2 = 0 then hashConcat acc.1 node.hash
                  else hashConcat node.hash acc.1, acc.2 / 2))
              (first.hash, (index + 2 ^ proof.length % 2 ^ 64) % 2 ^ 64)).1 = rootHash)
            && decide (leafHash v = first.hash))

/-- `PartialAuthenticationPath<T>` (merkle_tree.rs:25): one optional node per
proof level (`MultiPath` here, for brevity). -/
structure MultiPath (T H : Type) where
  path : List (Option (MNode T H))

/-- `HashMap::insert` on the sparse node map (key replaces an existing
binding). -/
def treeInsert {T H : Type} (m : List (ℕ × MNode T H)) (k : ℕ) (v : MNode T H) :
    List (ℕ × MNode T H) :=
  (k, v) :: m.filter fun kv => decide (kv.1 ≠ k)

/-- `HashMap` lookup on the sparse node map. -/
def treeGet {T H : Type} (m : List (ℕ × MNode T H)) (k : ℕ) : Option (MNode T H) :=
  (m.find? fun kv => decide (kv.1 = k)).map Prod.snd

/-- First loop of `verify_multi_proof` (merkle_tree.rs:263-272), one path:
insert the leaf node (panic if the path is empty or its first entry pruned),
then insert every present sibling while halving the index. -/
def mpFirstPassPath {T H : Type} (halfTreeSize i : ℕ) (b : MultiPath T H)
    (m : List (ℕ × MNode T H)) : Option (List (ℕ × MNode T H)) :=
  match b.path with
  | [] => none
  | none :: _ => none
  | some nd :: rest =>
      some (rest.foldl
        (fun (acc : List (ℕ × MNode T H) × ℕ) elem =>
          (match elem with
            | some nd2 => treeInsert acc.1 (acc.2 ^^^ 1) nd2
            | none => acc.1,
           acc.2 / 2))
        (treeInsert m ((halfTreeSize + i) % 2 ^ 64) nd,
          (halfTreeSize + i) % 2 ^ 64)).1

/-- First loop of `verify_multi_proof` over all `(index, path)` pairs. -/
def mpFirstPass {T H : Type} (halfTreeSize : ℕ) :
    List (ℕ × MultiPath T H) → List (ℕ × MNode T H) →
    Option (List (ℕ × MNode T H))
  | [], m => some m
  | (i, b) :: rest, m =>
      match mpFirstPassPath halfTreeSize i b m with
      | none => none
      | some m1 => mpFirstPass halfTreeSize rest m1

/-- One pass of the reconstruction fixpoint (merkle_tree.rs:276-299): walk the
snapshot of halved keys, largest first, hashing every completable pair of
children into their parent; the Boolean records whether the pass changed
nothing (`complete`). -/
def mpFillPass {T H : Type} (hashConcat : H → H → H) (keys : List ℕ)
    (m : List (ℕ × MNode T H)) : List (ℕ × MNode T H) × Bool :=
  keys.foldl
    (fun (acc : List (ℕ × MNode T H) × Bool) key =>
      match treeGet acc.1 (key * 2 % 2 ^ 64), treeGet acc.1 ((key * 2 + 1) % 2 ^ 64),
          treeGet acc.1 key with
      | some ln, some rn, none =>
          (treeInsert acc.1 key (MNode.mk none (hashConcat ln.hash rn.hash)), false)
      | _, _, _ => acc)
    (m, true)

/-- The `while !complete` reconstruction loop (merkle_tree.rs:276).  Each
incomplete pass strictly enlarges the map and every key stays below `2^64`, so
the fuel passed at the call site bounds the iteration count; `none` on fuel
exhaustion is unreachable. -/
def mpFixpoint {T H : Type} (hashConcat : H → H → H) :
    ℕ → List (ℕ × MNode T H) → Option (List (ℕ × MNode T H))
  | 0, _ => none
  | fuel + 1, m =>
      match mpFillPass hashConcat
        ((m.map fun kv => kv.1 / 2).mergeSort fun a b => decide (b ≤ a)) m with
      | (m1, true) => some m1
      | (m1, false) => mpFixpoint hashConcat fuel m1

/-- Second loop of `verify_multi_proof` (merkle_tree.rs:301-317), one path:
replace every pruned entry by the reconstructed node, returning `none` (for
`return false` in the source) when a needed node is absent; the map is updated
alongside.  No panic is possible here: entries are unwrapped only once
present. -/
def mpSecondPassPath {T H : Type} (halfTreeSize i : ℕ) (b : MultiPath T H)
    (m : List (ℕ × MNode T H)) :
    Option (List (ℕ × MNode T H) × MultiPath T H) :=
  match b.path with
  | [] => some (m, b)
  | first :: rest =>
      match rest.foldl
        (fun (acc : Option (List (ℕ × MNode T H) × List (Option (MNode T H)) × ℕ)) elem =>
          match acc with
          | none => none
          | some (m0, built, idx) =>
              match elem with
              | none =>
                  match treeGet m0 (idx ^^^ 1) with
                  | none => none
                  | some nd =>
                      some (treeInsert m0 (idx ^^^ 1) nd,
                        built ++ [some nd], idx / 2)
              | some nd =>
                  some (treeInsert m0 (idx ^^^ 1) nd, built ++ [some nd], idx / 2))
        (some (m, [], (halfTreeSize + i) % 2 ^ 64)) with
      | none => none
      | some (m1, built, _) => some (m1, MultiPath.mk (first :: built))

/-- Second loop of `verify_multi_proof` over all `(index, path)` pairs. -/
def mpSecondPass {T H : Type} (halfTreeSize : ℕ) :
    List (ℕ × MultiPath T H) → List (ℕ × MNode T H) → List (MultiPath T H) →
    Option (List (ℕ × MNode T H) × List (MultiPath T H))
  | [], m, builtPaths => some (m, builtPaths)
  | (i, b) :: rest, m, builtPaths =>
      match mpSecondPassPath halfTreeSize i b m with
      | none => none
      | some (m1, b1) => mpSecondPass halfTreeSize rest m1 (builtPaths ++ [b1])

/-- Collect a list of options, `none` if any entry is missing (the final
`unwrap` of merkle_tree.rs:324). -/
def optionAll {A : Type} : List (Option A) → Option (List A)
  | [] => some []
  | none :: _ => none
  | some a :: rest =>
      match optionAll rest with
      | none => none
      | some as0 => some (a :: as0)

/-- Final loop of `verify_multi_proof` (merkle_tree.rs:319-332): unwrap each
reconstructed path and check it with `verify_proof` against the root. -/
def mpThirdPass {T H : Type} [DecidableEq H] (hashConcat : H → H → H)
    (leafHash : T → H) (rootHash : H) :
    List (ℕ × MultiPath T H) → Option Bool
  | [] => some true
  | (i, b) :: rest =>
      match optionAll b.path with
      | none => none
      | some nodes =>
          match merkleVerifyProof hashConcat leafHash rootHash i nodes with
          | none => none
          | some false => some false
          | some true => mpThirdPass hashConcat leafHash rootHash rest

/-- `MerkleTree::verify_multi_proof` (merkle_tree.rs:245-333).  Mismatched
index/proof lengths yield `false`; with both lists empty, `proof_clone[0]`
panics (`none`); `2u64.pow(len as u32 - 1)` wraps through `u32` for an empty
first path. -/
def merkleVerifyMultiProof {T H : Type} [DecidableEq H] (hashConcat : H → H → H)
    (leafHash : T → H) (rootHash : H) (indices : List ℕ)
    (proof : List (MultiPath T H)) : Option Bool :=
  if indices.length ≠ proof.length then some false
  else
    match proof with
    | [] => none
    | p0 :: _ =>
        match mpFirstPass (2 ^ ((p0.path.length + (2 ^ 32 - 1)) % 2 ^ 32) % 2 ^ 64)
            (indices.zip proof) [] with
        | none => none
        | some m0 =>
            match mpFixpoint hashConcat (2 ^ 64 + 2) m0 with
            | none => none
            | some m1 =>
                match mpSecondPass
                    (2 ^ ((p0.path.length + (2 ^ 32 - 1)) % 2 ^ 32) % 2 ^ 64)
                    (indices.zip proof) m1 [] with
                | none => some false
                | some (_, newPaths) =>
                    mpThirdPass hashConcat leafHash rootHash (indices.zip newPaths)

theorem merkleVerifyProof_isSome {T H : Type} [DecidableEq H]
    (hashConcat : H → H → H) (leafHash : T → H) (rootHash : H) (index : ℕ)
    (first : MNode T H) (rest : List (MNode T H)) (hv : first.value.isSome) :
    (merkleVerifyProof hashConcat leafHash rootHash index (first :: rest)).isSome := by
  rw [merkleVerifyProof.eq_def]
  rcases h : first.value with _ | v
  · rw [h] at hv
    cases hv
  · dsimp only
    rw [h]
    rfl

theorem merkleVerifyMultiProof_mismatch {T H : Type} [DecidableEq H]
    (hashConcat : H → H → H) (leafHash : T → H) (rootHash : H)
    (indices : List ℕ) (proof : List (MultiPath T H))
    (h : indices.length ≠ proof.length) :
    merkleVerifyMultiProof hashConcat leafHash rootHash indices proof = some false := by
  rw [merkleVerifyMultiProof.eq_def, if_pos h]

/-- C3, counterexample: `verify_multi_proof` with an empty index list and an
empty proof list passes the length check and then panics at `proof_clone[0]`
(merkle_tree.rs:262), and `verify_proof` with an empty proof panics at
`proof[0]` (merkle_tree.rs:50) — neither returns a boolean. -/
theorem C3_counterexample :
    merkleVerifyMultiProof (fun a b : ℕ => a + b) (fun v : ℕ => v) 0 []
      ([] : List (MultiPath ℕ ℕ)) = none ∧
    merkleVerifyProof (fun a b : ℕ => a + b) (fun v : ℕ => v) 0 0
      ([] : List (MNode ℕ ℕ)) = none := by
  constructor
  · rw [merkleVerifyMultiProof.eq_def, if_neg (by simp)]
  · rw [merkleVerifyProof.eq_def]

/-- C3, amended: `MmrSuccessorProof::verify` is total (returns a boolean on
every input, however inconsistent); `MerkleTree::verify_proof` returns a
boolean whenever the proof list is non-empty and its first node carries a
value (it panics on an empty proof or a value-less first node);
`MerkleTree::verify_multi_proof` returns `false` whenever the index and proof
lists have different lengths (but panics when both lists are empty, or when a
path is empty or starts with a pruned entry). -/
theorem C3_verifier_totality :
    (∀ (D : Type) [DecidableEq D] (hashPair : D → D → D)
        (proof : MmrSuccessorProof D) (oldMmra newMmra : MmrAccumulator D),
        (proof.verify hashPair oldMmra newMmra).isSome) ∧
    (∀ (T H : Type) [DecidableEq H] (hashConcat : H → H → H) (leafHash : T → H)
        (rootHash : H) (index : ℕ) (first : MNode T H) (rest : List (MNode T H)),
        first.value.isSome →
        (merkleVerifyProof hashConcat leafHash rootHash index
          (first :: rest)).isSome) ∧
    (∀ (T H : Type) [DecidableEq H] (hashConcat : H → H → H) (leafHash : T → H)
        (rootHash : H) (indices : List ℕ) (proof : List (MultiPath T H)),
        indices.length ≠ proof.length →
        merkleVerifyMultiProof hashConcat leafHash rootHash indices proof
          = some false) :=
  ⟨fun D _ hashPair proof o n => mmrVerify_isSome hashPair proof o n,
   fun T H _ hc lh r i first rest hv => merkleVerifyProof_isSome hc lh r i first rest hv,
   fun T H _ hc lh r indices proof h => merkleVerifyMultiProof_mismatch hc lh r indices proof h⟩

/-! ## The NTT kernel (spec-modelled) and the coset round trip
(`polynomial.rs:763-789`) -/

/-- Modelled from the spec (§4.B): the external `ntt` kernel (`ntt.rs`, not
among the sources) computes the standard natural-order transform
`out[k] = Σ_j buf[j]·ω^(j·k)`; the `log_2` size parameter of the Rust
signature is determined by the buffer length and omitted here. -/
def nttSpec (ω : F) (l : List F) : List F :=
  (List.range l.length).map fun k =>
    ((List.range l.length).map fun j => l.getD j 0 * ω ^ (j * k)).sum

/-- Modelled from the spec (§4.B): `intt` applies `ntt` with `ω⁻¹` and scales
by `1 / 2^log_n`, the inverse of the length. -/
def inttSpec (ω : F) (l : List F) : List F :=
  (nttSpec ω⁻¹ l).map fun c => c * (l.length : F)⁻¹

theorem sum_map_range (n : ℕ) (f : ℕ → F) :
    ((List.range n).map f).sum = ∑ i ∈ Finset.range n, f i := by
  induction n with
  | zero => simp
  | succ m ih =>
      rw [List.range_succ, List.map_append, List.sum_append, Finset.sum_range_succ, ih]
      simp

theorem nttSpec_length (ω : F) (l : List F) : (nttSpec ω l).length = l.length := by
  simp [nttSpec]

theorem nttSpec_getD (ω : F) (l : List F) (k : ℕ) (hk : k < l.length) :
    (nttSpec ω l).getD k 0 = ∑ j ∈ Finset.range l.length, l.getD j 0 * ω ^ (j * k) := by
  rw [nttSpec, List.getD_eq_getElem?_getD,
    List.getElem?_eq_getElem (by simpa using hk)]
  simp only [Option.getD_some, List.getElem_map, List.getElem_range]
  exact sum_map_range _ _

theorem pow_ne_zero_of_pow_eq_one (ω : F) (n : ℕ) (hn : 0 < n) (h1 : ω ^ n = 1) :
    ω ≠ 0 := by
  intro h0
  rw [h0, zero_pow (by omega)] at h1
  exact zero_ne_one h1

/-- Geometric-sum orthogonality: for `r` with `r^n = 1` and `r ≠ 1` the sum of
the powers of `r` below `n` vanishes. -/
theorem geom_sum_root (r : F) (n : ℕ) (hr : r ^ n = 1) (hne : r ≠ 1) :
    ∑ k ∈ Finset.range n, r ^ k = 0 := by
  rw [geom_sum_eq hne, hr, sub_self, zero_div]

/-- Distinct powers of a primitive root below its order are distinct. -/
theorem pow_inj_of_primitive (ω : F) (n : ℕ) (hn : 0 < n) (h1 : ω ^ n = 1)
    (hprim : ∀ d, 0 < d → d < n → ω ^ d ≠ 1) (i j : ℕ) (hi : i < n) (hj : j < n)
    (h : ω ^ i = ω ^ j) : i = j := by
  have hω0 : ω ≠ 0 := pow_ne_zero_of_pow_eq_one ω n hn h1
  by_contra hne
  rcases Nat.lt_or_ge i j with hlt | hge
  · have hd : ω ^ (j - i) * ω ^ i = ω ^ i := by
      rw [← pow_add]
      have : j - i + i = j := by omega
      rw [this, h]
    have := mul_right_cancel₀ (pow_ne_zero i hω0) (hd.trans (one_mul (ω ^ i)).symm)
    exact hprim (j - i) (by omega) (by omega) this
  · have hlt2 : j < i := by omega
    have hd : ω ^ (i - j) * ω ^ j = ω ^ j := by
      rw [← pow_add]
      have : i - j + j = i := by omega
      rw [this, h]
    have := mul_right_cancel₀ (pow_ne_zero j hω0) (hd.trans (one_mul (ω ^ j)).symm)
    exact hprim (i - j) (by omega) (by omega) this

/-- The inverse transform undoes the forward transform up to the factor `n`
(two forward passes, the second with `ω⁻¹`, multiply each entry by `n`). -/
theorem dft_dft_getD (ω : F) (n : ℕ) (hn : 0 < n) (h1 : ω ^ n = 1)
    (hprim : ∀ d, 0 < d → d < n → ω ^ d ≠ 1) (l : List F) (hl : l.length = n)
    (i : ℕ) (hi : i < n) :
    (nttSpec ω⁻¹ (nttSpec ω l)).getD i 0 = (n : F) * l.getD i 0 := by
  have hω0 : ω ≠ 0 := pow_ne_zero_of_pow_eq_one ω n hn h1
  have hlen : (nttSpec ω l).length = n := by rw [nttSpec_length, hl]
  rw [nttSpec_getD _ _ i (by omega), hlen]
  have hterm : ∀ k ∈ Finset.range n,
      (nttSpec ω l).getD k 0 * (ω⁻¹) ^ (k * i)
        = ∑ j ∈ Finset.range n, l.getD j 0 * (ω ^ j * (ω ^ i)⁻¹) ^ k := by
    intro k hk
    rw [Finset.mem_range] at hk
    rw [nttSpec_getD ω l k (by omega), hl, Finset.sum_mul]
    apply Finset.sum_congr rfl
    intro j _
    have hswap : (ω⁻¹) ^ (k * i) = ((ω ^ i)⁻¹) ^ k := by
      rw [inv_pow, inv_pow, ← pow_mul, Nat.mul_comm]
    rw [mul_assoc, hswap, mul_pow, ← pow_mul]
  rw [Finset.sum_congr rfl hterm, Finset.sum_comm]
  have hinner : ∀ j ∈ Finset.range n,
      ∑ k ∈ Finset.range n, l.getD j 0 * (ω ^ j * (ω ^ i)⁻¹) ^ k
        = if j = i then (n : F) * l.getD j 0 else 0 := by
    intro j hj
    rw [Finset.mem_range] at hj
    rw [← Finset.mul_sum]
    by_cases hji : j = i
    · subst hji
      rw [mul_inv_cancel₀ (pow_ne_zero j hω0)]
      simp [mul_comm]
    · have hrn : (ω ^ j * (ω ^ i)⁻¹) ^ n = 1 := by
        have hj1 : (ω ^ j) ^ n = 1 := by
          rw [← pow_mul, Nat.mul_comm, pow_mul, h1, one_pow]
        have hi1 : ((ω ^ i)⁻¹) ^ n = 1 := by
          rw [inv_pow, ← pow_mul, Nat.mul_comm, pow_mul, h1, one_pow, inv_one]
        rw [mul_pow, hj1, hi1, mul_one]
      have hrne : ω ^ j * (ω ^ i)⁻¹ ≠ 1 := by
        intro hcon
        rw [mul_inv_eq_one₀ (pow_ne_zero i hω0)] at hcon
        exact hji (pow_inj_of_primitive ω n hn h1 hprim j i hj hi hcon)
      rw [geom_sum_root _ n hrn hrne, mul_zero, if_neg hji]
  rw [Finset.sum_congr rfl hinner, Finset.sum_ite_eq' (Finset.range n) i]
  rw [if_pos (Finset.mem_range.mpr hi)]

/-- `intt ∘ ntt` is the identity on length-`n` buffers for a primitive `n`-th
root, provided `n ≠ 0` in the field. -/
theorem inttSpec_nttSpec (ω : F) (n : ℕ) (hn : 0 < n) (h1 : ω ^ n = 1)
    (hprim : ∀ d, 0 < d → d < n → ω ^ d ≠ 1) (hchar : (n : F) ≠ 0)
    (l : List F) (hl : l.length = n) :
    inttSpec ω (nttSpec ω l) = l := by
  have hlen1 : (nttSpec ω l).length = n := by rw [nttSpec_length, hl]
  have hlen2 : (nttSpec ω⁻¹ (nttSpec ω l)).length = n := by
    rw [nttSpec_length, hlen1]
  apply List.ext_getElem
  · simp only [inttSpec, List.length_map]
    omega
  · intro m hm1 hm2
    have hmn : m < n := by
      simp only [inttSpec, List.length_map] at hm1
      omega
    have hgd := dft_dft_getD ω n hn h1 hprim l hl m hmn
    rw [List.getD_eq_getElem?_getD, List.getElem?_eq_getElem (by omega),
      Option.getD_some] at hgd
    simp only [inttSpec, List.getElem_map, hlen1]
    rw [hgd]
    rw [mul_comm, inv_mul_cancel_left₀ hchar]
    rw [List.getD_eq_getElem?_getD, List.getElem?_eq_getElem hm2, Option.getD_some]

/-- `Polynomial::scale` (polynomial.rs:187): multiply coefficient `i` by
`α^i` (the Rust loop keeps the running power in an accumulator). -/
def polyScale (α : F) (l : List F) : List F :=
  l.mapIdx fun i c => c * α ^ i

theorem polyScale_length (α : F) (l : List F) : (polyScale α l).length = l.length :=
  List.length_mapIdx

/-- `Polynomial::fast_coset_evaluate` (polynomial.rs:764-775): scale by the
offset, right-pad with zeros to the order, apply the NTT.  The padding
`vec![zero; order - len]` underflows when the coefficient vector is longer
than the order (and the resulting allocation aborts); `none` models that. -/
def fastCosetEvaluate (l : List F) (offset generator : F) (order : ℕ) :
    Option (List F) :=
  if (polyScale offset l).length ≤ order then
    some (nttSpec generator
      (polyScale offset l ++ List.replicate (order - (polyScale offset l).length) 0))
  else none

/-- `Polynomial::fast_coset_interpolate` (polynomial.rs:778-789): inverse NTT,
then scale by the inverse offset (`offset.inverse()` panics at zero in Rust;
the claims assume a nonzero offset). -/
def fastCosetInterpolate (offset generator : F) (values : List F) : List F :=
  polyScale offset⁻¹ (inttSpec generator values)

/-- A primitive `2^k`-th root of unity forces `2^k ≠ 0` in the field. -/
theorem two_pow_cast_ne_zero (ω : F) (k : ℕ) (h1 : ω ^ (2 ^ k) = 1)
    (hprim : ∀ d, 0 < d → d < 2 ^ k → ω ^ d ≠ 1) : ((2 ^ k : ℕ) : F) ≠ 0 := by
  cases k with
  | zero => simp
  | succ m =>
      have hx2 : (ω ^ (2 ^ m)) ^ 2 = 1 := by
        rw [← pow_mul]
        have : 2 ^ m * 2 = 2 ^ (m + 1) := by ring
        rw [this, h1]
      have hx1 : ω ^ (2 ^ m) ≠ 1 :=
        hprim (2 ^ m) (by positivity) (by
          have : 2 ^ m < 2 ^ (m + 1) := by
            apply Nat.pow_lt_pow_right (by omega) (by omega)
          exact this)
      have hneg : ω ^ (2 ^ m) = -1 := by
        have hfact : (ω ^ (2 ^ m) - 1) * (ω ^ (2 ^ m) + 1) = 0 := by
          linear_combination hx2
        rcases mul_eq_zero.mp hfact with h | h
        · exact absurd (by linear_combination h) hx1
        · linear_combination h
      have h2ne : (2 : F) ≠ 0 := by
        intro hcon
        apply hx1
        rw [hneg]
        have : (1 : F) + 1 = 0 := by linear_combination hcon
        linear_combination -this
      push_cast
      exact pow_ne_zero _ h2ne

theorem polyScale_getD (α : F) (l : List F) (i : ℕ) :
    (polyScale α l).getD i 0 = l.getD i 0 * α ^ i := by
  rcases Nat.lt_or_ge i l.length with h | h
  · rw [List.getD_eq_getElem?_getD,
      List.getElem?_eq_getElem (by rw [polyScale_length]; exact h), Option.getD_some]
    simp only [polyScale]
    rw [List.getElem_mapIdx, List.getD_eq_getElem?_getD, List.getElem?_eq_getElem h,
      Option.getD_some]
  · rw [getD_eq_zero_of_length_le _ _ (by rw [polyScale_length]; exact h),
      getD_eq_zero_of_length_le _ _ h, zero_mul]

theorem list_ext_getD (l1 l2 : List F) (hlen : l1.length = l2.length)
    (h : ∀ n, l1.getD n 0 = l2.getD n 0) : l1 = l2 := by
  apply List.ext_getElem hlen
  intro n h1 h2
  have := h n
  rw [List.getD_eq_getElem?_getD, List.getD_eq_getElem?_getD,
    List.getElem?_eq_getElem h1, List.getElem?_eq_getElem h2] at this
  exact this

theorem getD_append_zero (a b : List F) (n : ℕ) :
    (a ++ b).getD n 0 = if n < a.length then a.getD n 0 else b.getD (n - a.length) 0 := by
  rw [List.getD_eq_getElem?_getD, List.getElem?_append]
  split
  · rw [List.getD_eq_getElem?_getD]
  · rw [List.getD_eq_getElem?_getD]

theorem getD_replicate_zero (k n : ℕ) :
    (List.replicate k (0 : F)).getD n 0 = 0 := by
  rw [List.getD_eq_getElem?_getD, List.getElem?_replicate]
  split <;> rfl

/-- C7: for `deg P < n` (coefficient vector of length at most `n`), a nonzero
coset offset and a primitive `n`-th root of unity with `n = 2^k`, coset
interpolation inverts coset evaluation: the round trip reproduces `P`
(identically, up to the zero-padding to length `n`). -/
theorem C7_coset_round_trip (l : List F) (offset g : F) (n k : ℕ)
    (hn : n = 2 ^ k) (hg1 : g ^ n = 1) (hgprim : ∀ d, 0 < d → d < n → g ^ d ≠ 1)
    (hoff : offset ≠ 0) (hlen : l.length ≤ n) :
    ∃ ys, fastCosetEvaluate l offset g n = some ys ∧
      fastCosetInterpolate offset g ys = l ++ List.replicate (n - l.length) 0 ∧
      toPoly (fastCosetInterpolate offset g ys) = toPoly l := by
  have hslen : (polyScale offset l).length = l.length := polyScale_length offset l
  have hpadlen : (polyScale offset l
      ++ List.replicate (n - (polyScale offset l).length) 0).length = n := by
    simp only [List.length_append, List.length_replicate, hslen]
    omega
  have hn0 : 0 < n := by rw [hn]; positivity
  have hchar : ((n : ℕ) : F) ≠ 0 := by
    rw [hn]
    exact two_pow_cast_ne_zero g k (by rw [← hn]; exact hg1) (by rw [← hn]; exact hgprim)
  have hinv := inttSpec_nttSpec g n hn0 hg1 hgprim hchar
    (polyScale offset l ++ List.replicate (n - (polyScale offset l).length) 0) hpadlen
  have hkey : fastCosetInterpolate offset g (nttSpec g (polyScale offset l
      ++ List.replicate (n - (polyScale offset l).length) 0))
      = l ++ List.replicate (n - l.length) 0 := by
    rw [fastCosetInterpolate, hinv]
    apply list_ext_getD
    · simp only [polyScale_length, List.length_append, List.length_replicate, hslen]
    · intro m
      rw [polyScale_getD, getD_append_zero, getD_append_zero, hslen,
        getD_replicate_zero, polyScale_getD]
      by_cases hml : m < l.length
      · rw [if_pos hml, if_pos hml, mul_assoc, ← mul_pow, mul_inv_cancel₀ hoff,
          one_pow, mul_one]
      · rw [if_neg hml, if_neg hml, zero_mul]
  refine ⟨_, by rw [fastCosetEvaluate, if_pos (by omega)], hkey, ?_⟩
  rw [hkey]
  apply toPoly_eq_of_getD
  intro m
  rw [getD_append_zero, getD_replicate_zero]
  split
  · rfl
  · rename_i hm
    rw [getD_eq_zero_of_length_le _ _ (by omega)]

/-- C7, witness: the polynomial `x^5 + x^3`, the 8th root of unity `2^24` of
the Goldilocks field and the offset `7`. -/
theorem C7_witness :
    ((8 : ℕ) = 2 ^ 3 ∧ (16777216 : Fp) ^ 8 = 1 ∧ (7 : Fp) ≠ 0 ∧
      ([0, 0, 0, 1, 0, 1] : List Fp).length ≤ 8) ∧
    (∃ ys, fastCosetEvaluate ([0, 0, 0, 1, 0, 1] : List Fp) 7 16777216 8 = some ys ∧
      fastCosetInterpolate (7 : Fp) 16777216 ys
        = [0, 0, 0, 1, 0, 1]
          ++ List.replicate (8 - ([0, 0, 0, 1, 0, 1] : List Fp).length) 0 ∧
      toPoly (fastCosetInterpolate (7 : Fp) 16777216 ys)
        = toPoly ([0, 0, 0, 1, 0, 1] : List Fp)) :=
  ⟨⟨by norm_num, by decide, by decide, by decide⟩,
   C7_coset_round_trip [0, 0, 0, 1, 0, 1] 7 16777216 8 3 (by norm_num) (by decide)
     (by intro d h1 h2; interval_cases d <;> decide) (by decide) (by decide)⟩

/-! ## Tip5's MDS layer (tip5.rs:1087-1142) and its three implementations -/

/-- `Polynomial::multiply` (polynomial.rs:869): zero if either factor has
degree `-1`, otherwise the double loop accumulating `a_i·b_j` into slot
`i + j` of a zero-initialised vector of length `deg a + deg b + 1`.  The
loops run only up to the degrees, so trailing zero coefficients of the
inputs are ignored. -/
def multiply (a b : List F) : List F :=
  if degreeRaw a < 0 ∨ degreeRaw b < 0 then []
  else
    (List.range ((degreeRaw a).toNat + 1)).foldl
      (fun arr i =>
        (List.range ((degreeRaw b).toNat + 1)).foldl
          (fun arr2 j => arr2.set (i + j) (arr2.getD (i + j) 0 + a.getD i 0 * b.getD j 0))
          arr)
      (List.replicate ((degreeRaw a).toNat + (degreeRaw b).toNat + 1) 0)

/-- `Polynomial::slow_square` (polynomial.rs:357): zero if the input is zero,
otherwise accumulate `c_i²` at `2i` and `2·c_i·c_j` at `i + j` (for `j > i`)
into a zero vector of length `2·deg + 1`.  (The Rust loops run over the full
coefficient vector; in `mod_pow`'s call sites the vector never carries
trailing zeros, so every write is in bounds, matching `List.set`'s dropping
of out-of-range writes.) -/
def slowSquare (a : List F) : List F :=
  if degreeRaw a < 0 then []
  else
    (List.range a.length).foldl
      (fun arr i =>
        ((List.range a.length).drop (i + 1)).foldl
          (fun arr2 j =>
            arr2.set (i + j) (arr2.getD (i + j) 0 + (1 + 1) * a.getD i 0 * a.getD j 0))
          (arr.set (2 * i) (arr.getD (2 * i) 0 + a.getD i 0 * a.getD i 0)))
      (List.replicate (2 * (degreeRaw a).toNat + 1) 0)

/-- `BigInt::bits` (number of binary digits, `0` for `0`), written with a
fuel argument so that it is structurally recursive: `fuel = n` always
suffices since `n` has at most `n` binary digits. -/
def bitLenAux : ℕ → ℕ → ℕ
  | 0, _ => 0
  | fuel + 1, n => if n = 0 then 0 else bitLenAux fuel (n / 2) + 1

/-- `BigInt::bits`. -/
def bitLen (n : ℕ) : ℕ :=
  bitLenAux n n

/-- `Polynomial::mod_pow` (polynomial.rs:901) with the `one` argument equal to
the field's one: square-and-multiply over the bits of `pow`, most significant
first (`BigInt::bits` of them). -/
def modPow (a : List F) (pow : ℕ) : List F :=
  if pow = 0 then [1]
  else if isZero a then []
  else
    (List.range (bitLen pow)).foldl
      (fun acc i =>
        if (pow >>> (bitLen pow - 1 - i)) % 2 = 1 then multiply (slowSquare acc) a
        else slowSquare acc)
      [1]

/-- `Sub for Polynomial` (polynomial.rs:1093): pointwise difference via
`zip_longest` (a missing left entry contributes `0 - r`, a missing right
entry leaves `l`). -/
def polySub (a b : List F) : List F :=
  (List.range (max a.length b.length)).map fun i =>
    if i < a.length then
      (if i < b.length then a.getD i 0 - b.getD i 0 else a.getD i 0)
    else 0 - b.getD i 0

/-- `Tip5::new` (tip5.rs:737): first column of the circulant MDS matrix. -/
def mds : List Fp :=
  [256, 8192, 2, 1024, 1, 268436456, 1, 4194304, 524288, 16, 8, 128,
    16777216, 2048, 1073741824, 2]

/-- `Tip5::bitreverse` (tip5.rs:832): reverse the low `log2n` bits of `t`
(`r = (r << 1) | (t & 1); t >>= 1` per iteration). -/
def bitreverse (t log2n : ℕ) : ℕ :=
  ((List.range log2n).foldl (fun rt _ => (2 * rt.1 + rt.2 % 2, rt.2 / 2)) (0, t)).1

/-- `<[T]>::swap` on index-addressed lists (out-of-range positions are
untouched; all call sites here use in-range indices). -/
def listSwap (l : List F) (i j : ℕ) : List F :=
  (l.set i (l.getD j 0)).set j (l.getD i 0)

/-- `Tip5::bitreverse_order` (tip5.rs:870): swap each slot `k < 16` with its
4-bit reversal `rk` whenever `k < rk`. -/
def bitreverseOrder (x : List F) : List F :=
  (List.range 16).foldl
    (fun arr k => if k < bitreverse k 4 then listSwap arr k (bitreverse k 4) else arr) x

/-- One pass (fixed `m`) of the butterfly loop of `Tip5::ntt_withswap`
(tip5.rs:850-864), written as a map: slot `k+j` becomes
`x[k+j] + x[k+j+m]·w_m^j` and slot `k+j+m` becomes `x[k+j] - x[k+j+m]·w_m^j`
(the right operand is read before either slot is written; the loop bound is
`STATE_SIZE = 16` as in the source). -/
def butterflyStage (wm : F) (m : ℕ) (x : List F) : List F :=
  (List.range 16).map fun idx =>
    if idx % (2 * m) < m then
      x.getD idx 0 + x.getD (idx + m) 0 * wm ^ (idx % (2 * m))
    else
      x.getD (idx - m) 0 - x.getD idx 0 * wm ^ (idx % (2 * m) - m)

/-- `Tip5::ntt_withswap` (tip5.rs:842): bit-reversal permutation followed by
`log2n` butterfly passes with `m = 2^i` and `w_m = ω^(STATE_SIZE/(2m))`
(`STATE_SIZE = 16` is hard-coded in the source; the `println!` is I/O
noise and is dropped). -/
def nttWithswap (ω : F) (log2n : ℕ) (x : List F) : List F :=
  (List.range log2n).foldl
    (fun arr i => butterflyStage (ω ^ (16 / (2 * 2 ^ i))) (2 ^ i) arr)
    (bitreverseOrder x)

/-- `Tip5::mul_state` (tip5.rs:1087): multiply every entry by `arg`. -/
def mulState (state : List Fp) (arg : Fp) : List Fp :=
  state.map fun s => s * arg

/-- `Tip5::mds_ntt` (tip5.rs:1092): forward `ntt` (the external kernel,
spec-modelled as `nttSpec`), pointwise multiplication by the precomputed
`self.mds_ntt = ntt_withswap(mds, ω, 4)` (tip5.rs:767), then `ntt` with
`ω⁻¹`; `ω = primitive_root_of_unity(16)` is spec-modelled as a parameter. -/
def mdsNtt (ω : Fp) (state : List Fp) : List Fp :=
  nttSpec ω⁻¹ (List.zipWith (fun a b => a * b) (nttSpec ω state) (nttWithswap ω 4 mds))

/-- The `array` accumulation loop of `Tip5::mds_schoolbook` (tip5.rs:1121):
`array[i + j] += state[i]·mds[j]` over a zero vector of length 32. -/
def mdsArray (state : List Fp) : List Fp :=
  (List.range 16).foldl
    (fun arr i =>
      (List.range 16).foldl
        (fun arr2 j =>
          arr2.set (i + j) (arr2.getD (i + j) 0 + state.getD i 0 * mds.getD j 0))
        arr)
    (List.replicate 32 0)

/-- `Tip5::mds_schoolbook` (tip5.rs:1120): fold the linear convolution back
(`state[i] = array[i] + array[16 + i]`), then scale by 16. -/
def mdsSchoolbook (state : List Fp) : List Fp :=
  mulState
    ((List.range 16).map fun i =>
      (mdsArray state).getD i 0 + (mdsArray state).getD (16 + i) 0)
    16

/-- `Tip5::mds_polynomial` (tip5.rs:1133): remainder of `state·mds` modulo
`x^16 - 1` (built as `mod_pow` of `x` minus one), first 16 coefficients,
scaled by 16.  `none` models the panic of the slice `&coeffs[..16]` when the
remainder has fewer than 16 coefficients. -/
def mdsPolynomial (state : List Fp) : Option (List Fp) :=
  (divide (multiply state mds) (polySub (modPow [0, 1] 16) [1])).bind fun qr =>
    if 16 ≤ qr.2.length then some (mulState (qr.2.take 16) 16) else none

theorem getD_set_self (l : List F) (i : ℕ) (v : F) (h : i < l.length) :
    (l.set i v).getD i 0 = v := by
  rw [List.getD_eq_getElem?_getD, List.getElem?_set, if_pos rfl, if_pos h, Option.getD_some]

theorem getD_set_other (l : List F) (i j : ℕ) (v : F) (h : i ≠ j) :
    (l.set i v).getD j 0 = l.getD j 0 := by
  rw [List.getD_eq_getElem?_getD, List.getElem?_set, if_neg h, ← List.getD_eq_getElem?_getD]

/-- A fold of read-add-write updates keeps the length. -/
theorem addFold_length (idxs : List ℕ) (pos : ℕ → ℕ) (g : ℕ → F) (arr : List F) :
    (idxs.foldl (fun a2 j => a2.set (pos j) (a2.getD (pos j) 0 + g j)) arr).length
      = arr.length := by
  induction idxs generalizing arr with
  | nil => rfl
  | cons j rest ih => rw [List.foldl_cons, ih, List.length_set]

/-- A fold of read-add-write updates adds, at each in-range slot `t`, the sum
of the contributions aimed at `t`. -/
theorem addFold_getD (idxs : List ℕ) (pos : ℕ → ℕ) (g : ℕ → F) (arr : List F) (t : ℕ)
    (ht : t < arr.length) :
    (idxs.foldl (fun a2 j => a2.set (pos j) (a2.getD (pos j) 0 + g j)) arr).getD t 0
      = arr.getD t 0 + ((idxs.filter fun j => pos j == t).map g).sum := by
  induction idxs generalizing arr with
  | nil => simp
  | cons j rest ih =>
      rw [List.foldl_cons, ih _ (by rw [List.length_set]; exact ht)]
      by_cases hj : pos j = t
      · rw [List.filter_cons_of_pos (by simp [hj]), List.map_cons, List.sum_cons, ← hj,
          getD_set_self _ _ _ (by rw [hj]; exact ht)]
        ring
      · rw [List.filter_cons_of_neg (by simp [hj]), getD_set_other _ _ _ _ hj]

theorem filter_range_shift (cols i t : ℕ) :
    (List.range cols).filter (fun j => i + j == t)
      = if i ≤ t ∧ t - i < cols then [t - i] else [] := by
  induction cols with
  | zero => simp
  | succ m ih =>
      rw [List.range_succ, List.filter_append, ih]
      by_cases hm : i + m = t
      · have h1 : ¬(i ≤ t ∧ t - i < m) := by omega
        rw [if_neg h1, List.nil_append, List.filter_cons, if_pos (by simp [hm]),
          List.filter_nil, if_pos (by omega)]
        have h2 : t - i = m := by omega
        rw [h2]
      · have hmf : ¬((i + m == t) = true) := by simp [hm]
        rw [List.filter_cons, if_neg hmf, List.filter_nil, List.append_nil]
        by_cases hc : i ≤ t ∧ t - i < m
        · rw [if_pos hc, if_pos (by omega)]
        · rw [if_neg hc, if_neg (by omega)]

/-- The double accumulation loop shared by `Polynomial::multiply` and
`Tip5::mds_schoolbook` keeps the length of the accumulator. -/
theorem doubleFold_length (f g : ℕ → F) (rows cols len : ℕ) :
    ((List.range rows).foldl
      (fun arr i => (List.range cols).foldl
        (fun a2 j => a2.set (i + j) (a2.getD (i + j) 0 + f i * g j)) arr)
      (List.replicate len (0 : F))).length = len := by
  induction rows with
  | zero => simp
  | succ m ih =>
      rw [List.range_succ, List.foldl_append, List.foldl_cons, List.foldl_nil]
      exact (addFold_length (List.range cols) (fun j => m + j) (fun j => f m * g j) _).trans ih

/-- The double accumulation loop shared by `Polynomial::multiply` and
`Tip5::mds_schoolbook`: slot `t` of the result is the convolution sum
`Σ_{i ≤ t, t - i < cols} f i · g (t - i)`. -/
theorem doubleFold_getD (f g : ℕ → F) (rows cols len t : ℕ) (ht : t < len) :
    ((List.range rows).foldl
      (fun arr i => (List.range cols).foldl
        (fun a2 j => a2.set (i + j) (a2.getD (i + j) 0 + f i * g j)) arr)
      (List.replicate len (0 : F))).getD t 0
      = ∑ i ∈ Finset.range rows, if i ≤ t ∧ t - i < cols then f i * g (t - i) else 0 := by
  induction rows with
  | zero =>
      rw [List.range_zero, List.foldl_nil, Finset.range_zero, Finset.sum_empty,
        getD_replicate_zero]
  | succ m ih =>
      rw [List.range_succ, List.foldl_append, List.foldl_cons, List.foldl_nil]
      refine Eq.trans (addFold_getD (List.range cols) (fun j => m + j) (fun j => f m * g j)
        _ t (by rw [doubleFold_length f g m cols len]; exact ht)) ?_
      simp only []
      rw [ih, filter_range_shift, Finset.sum_range_succ]
      by_cases hc : m ≤ t ∧ t - m < cols
      · rw [if_pos hc, if_pos hc, List.map_cons, List.map_nil, List.sum_cons, List.sum_nil,
          add_zero]
      · rw [if_neg hc, if_neg hc, List.map_nil, List.sum_nil]

theorem getD_map_range (f : ℕ → F) (k n : ℕ) :
    ((List.range k).map f).getD n 0 = if n < k then f n else 0 := by
  rw [List.getD_eq_getElem?_getD]
  by_cases h : n < k
  · rw [List.getElem?_eq_getElem (by simpa using h), if_pos h]
    simp
  · rw [List.getElem?_eq_none (by simpa using h), if_neg h, Option.getD_none]

theorem multiply_length (a b : List F) (ha : isZero a = false) (hb : isZero b = false) :
    (multiply a b).length = (degreeRaw a).toNat + (degreeRaw b).toNat + 1 := by
  have hda := isZero_false_degreeRaw a ha
  have hdb := isZero_false_degreeRaw b hb
  rw [multiply, if_neg (by omega)]
  exact doubleFold_length (fun i => a.getD i 0) (fun j => b.getD j 0) _ _ _

theorem multiply_getD (a b : List F) (ha : isZero a = false) (hb : isZero b = false)
    (t : ℕ) (ht : t < (degreeRaw a).toNat + (degreeRaw b).toNat + 1) :
    (multiply a b).getD t 0
      = ∑ i ∈ Finset.range ((degreeRaw a).toNat + 1),
          if i ≤ t ∧ t - i < (degreeRaw b).toNat + 1 then a.getD i 0 * b.getD (t - i) 0
          else 0 := by
  have hda := isZero_false_degreeRaw a ha
  have hdb := isZero_false_degreeRaw b hb
  rw [multiply, if_neg (by omega)]
  exact doubleFold_getD (fun i => a.getD i 0) (fun j => b.getD j 0) _ _ _ t ht

theorem multiply_last (a b : List F) (ha : isZero a = false) (hb : isZero b = false) :
    (multiply a b).getD ((degreeRaw a).toNat + (degreeRaw b).toNat) 0
      = a.getD (degreeRaw a).toNat 0 * b.getD (degreeRaw b).toNat 0 := by
  rw [multiply_getD a b ha hb _ (by omega)]
  have hcong : ∀ i ∈ Finset.range ((degreeRaw a).toNat + 1),
      (if i ≤ (degreeRaw a).toNat + (degreeRaw b).toNat ∧
            (degreeRaw a).toNat + (degreeRaw b).toNat - i < (degreeRaw b).toNat + 1 then
          a.getD i 0 * b.getD ((degreeRaw a).toNat + (degreeRaw b).toNat - i) 0
        else 0)
        = if i = (degreeRaw a).toNat then
            a.getD (degreeRaw a).toNat 0 * b.getD (degreeRaw b).toNat 0 else 0 := by
    intro i hi
    rw [Finset.mem_range] at hi
    by_cases hida : i = (degreeRaw a).toNat
    · subst hida
      rw [if_pos (by omega), if_pos rfl]
      have he : (degreeRaw a).toNat + (degreeRaw b).toNat - (degreeRaw a).toNat
          = (degreeRaw b).toNat := by omega
      rw [he]
    · rw [if_neg (by omega), if_neg hida]
  rw [Finset.sum_congr rfl hcong,
    Finset.sum_ite_eq' (Finset.range ((degreeRaw a).toNat + 1)) (degreeRaw a).toNat,
    if_pos (Finset.mem_range.mpr (by omega))]

/-- The coefficient at the degree index of a nonzero polynomial is nonzero. -/
theorem getD_degreeRaw_ne_zero (l : List F) (h : isZero l = false) :
    l.getD (degreeRaw l).toNat 0 ≠ 0 := by
  have hd := isZero_false_degreeRaw l h
  have hnorm : normalizePoly l ≠ [] := by
    intro hcon
    rw [(isZero_iff_normalizePoly_nil l).mpr hcon] at h
    cases h
  have hlen : (degreeRaw l).toNat + 1 = (normalizePoly l).length := by
    have := degreeRaw_eq_length l
    omega
  rw [getD_eq_of_normalizePoly]
  have hne := normalizePoly_getLast_ne_zero l hnorm
  have heq : (normalizePoly l).length - 1 = (degreeRaw l).toNat := by omega
  rw [heq] at hne
  exact hne

/-- A coefficient vector whose final entry is nonzero is already
normalized. -/
theorem normalizePoly_eq_self (l : List F) (hne : l ≠ [])
    (h : l.getD (l.length - 1) 0 ≠ 0) : normalizePoly l = l := by
  rw [← getLast_getD_eq] at h
  rw [normalizePoly]
  rcases hrev : l.reverse with _ | ⟨x, xs⟩
  · exact absurd (by simpa using congrArg List.reverse hrev) hne
  · have hx : l.getLast? = some x := by
      rw [← List.head?_reverse, hrev]
      rfl
    rw [hx] at h
    simp only [Option.getD_some] at h
    rw [List.dropWhile_cons, if_neg (by simp [h]), ← hrev, List.reverse_reverse]

theorem degreeRaw_multiply (a b : List F) (ha : isZero a = false) (hb : isZero b = false) :
    degreeRaw (multiply a b) = degreeRaw a + degreeRaw b := by
  have hlen := multiply_length a b ha hb
  have hlast := multiply_last a b ha hb
  have hane := getD_degreeRaw_ne_zero a ha
  have hbne := getD_degreeRaw_ne_zero b hb
  have hda := isZero_false_degreeRaw a ha
  have hdb := isZero_false_degreeRaw b hb
  have hne : multiply a b ≠ [] := by
    intro hcon
    rw [hcon] at hlen
    simp at hlen
  have hidx : (multiply a b).length - 1 = (degreeRaw a).toNat + (degreeRaw b).toNat := by
    omega
  have hnz : (multiply a b).getD ((multiply a b).length - 1) 0 ≠ 0 := by
    rw [hidx, hlast]
    exact mul_ne_zero hane hbne
  have hnorm := normalizePoly_eq_self (multiply a b) hne hnz
  have hh := degreeRaw_eq_length (multiply a b)
  rw [hnorm, hlen] at hh
  omega

theorem isZero_multiply_false (a b : List F) (ha : isZero a = false)
    (hb : isZero b = false) : isZero (multiply a b) = false := by
  rcases hiz : isZero (multiply a b) with _ | _
  · rfl
  · exfalso
    have h1 := getD_eq_of_normalizePoly (multiply a b)
      ((degreeRaw a).toNat + (degreeRaw b).toNat)
    rw [(isZero_iff_normalizePoly_nil _).mp hiz] at h1
    rw [multiply_last a b ha hb] at h1
    exact mul_ne_zero (getD_degreeRaw_ne_zero a ha) (getD_degreeRaw_ne_zero b hb)
      (by simpa using h1)

/-- Euclidean uniqueness of the remainder for the divisor `x^16 - 1`, stated
on coefficient vectors. -/
theorem rem_unique (q r q2 r2 : List F)
    (hr : degreeRaw r < 16) (hr2 : degreeRaw r2 < 16)
    (h : toPoly q * (Polynomial.X ^ 16 - 1) + toPoly r
       = toPoly q2 * (Polynomial.X ^ 16 - 1) + toPoly r2) :
    toPoly r = toPoly r2 := by
  set P := toPoly q - toPoly q2 with hP
  have hD : P * (Polynomial.X ^ 16 - 1) = toPoly r2 - toPoly r := by
    rw [hP]
    linear_combination h
  have hDhigh : ∀ m : ℕ, 16 ≤ m → (toPoly r2 - toPoly r).coeff m = 0 := by
    intro m hm
    rw [Polynomial.coeff_sub, toPoly_coeff, toPoly_coeff,
      getD_eq_zero_of_degreeRaw_lt r2 m (by omega),
      getD_eq_zero_of_degreeRaw_lt r m (by omega), sub_zero]
  have hshift : ∀ n, P.coeff n = P.coeff (n + 16) := by
    intro n
    have h1 : (P * Polynomial.X ^ 16).coeff (n + 16) = P.coeff n :=
      Polynomial.coeff_mul_X_pow P 16 n
    have h2 : P * Polynomial.X ^ 16 = toPoly r2 - toPoly r + P := by
      linear_combination hD
    rw [h2, Polynomial.coeff_add, hDhigh (n + 16) (by omega), zero_add] at h1
    exact h1.symm
  have hP0 : P = 0 := by
    apply Polynomial.ext
    intro n
    have hcoeff : ∀ k, P.coeff n = P.coeff (n + 16 * k) := by
      intro k
      induction k with
      | zero => rfl
      | succ j ihj =>
          have he : n + 16 * (j + 1) = n + 16 * j + 16 := by ring
          rw [he, ihj, hshift (n + 16 * j)]
    rw [hcoeff (P.natDegree + 1),
      Polynomial.coeff_eq_zero_of_natDegree_lt (by omega), Polynomial.coeff_zero]
  have hz : toPoly r2 - toPoly r = 0 := by
    rw [← hD, hP0, zero_mul]
  linear_combination -hz

/-- The modulus built by `mds_polynomial` is `x^16 - 1`. -/
theorem toPoly_mPoly :
    toPoly (polySub (modPow ([0, 1] : List Fp) 16) [1]) = Polynomial.X ^ 16 - 1 := by
  have hm : polySub (modPow ([0, 1] : List Fp) 16) [1]
      = (-1 : Fp) :: (List.replicate 15 0 ++ [1]) := by decide
  rw [hm]
  apply Polynomial.ext
  intro n
  rw [toPoly_coeff, Polynomial.coeff_sub, Polynomial.coeff_X_pow, Polynomial.coeff_one]
  by_cases h17 : n < 17
  · interval_cases n <;> decide
  · rw [getD_eq_zero_of_length_le _ n (by simp; omega), if_neg (by omega),
      if_neg (by omega), sub_zero]

/-- Splitting a coefficient vector of length at most 31 along `x^16 - 1`:
the explicit quotient collects coefficients 16-30, the explicit remainder
folds them back onto coefficients 0-15. -/
theorem conv_split (ab : List F) (hlen : ab.length ≤ 31) :
    toPoly ab
      = toPoly ((List.range 15).map fun i => ab.getD (16 + i) 0)
          * (Polynomial.X ^ 16 - 1)
        + toPoly ((List.range 16).map fun i => ab.getD i 0 + ab.getD (16 + i) 0) := by
  apply Polynomial.ext
  intro n
  simp only [Polynomial.coeff_add, mul_sub, mul_one, Polynomial.coeff_sub,
    Polynomial.coeff_mul_X_pow', toPoly_coeff, getD_map_range]
  by_cases h16 : 16 ≤ n
  · by_cases h31 : n < 31
    · rw [if_pos h16, if_pos (by omega), if_neg (by omega), if_neg (by omega)]
      have he : 16 + (n - 16) = n := by omega
      rw [he]
      ring
    · rw [if_pos h16, if_neg (by omega), if_neg (by omega), if_neg (by omega),
        getD_eq_zero_of_length_le ab n (by omega)]
      ring
  · by_cases h15 : n < 15
    · rw [if_neg h16, if_pos h15, if_pos (by omega)]
      ring
    · have hn : n = 15 := by omega
      subst hn
      rw [if_neg h16, if_neg (by omega), if_pos (by omega),
        getD_eq_zero_of_length_le ab (16 + 15) (by omega)]
      ring

/-- On a 16-element state, `mds_schoolbook`'s accumulator array agrees with
`Polynomial::multiply` of the state by the MDS column. -/
theorem mdsArray_getD_eq (state : List Fp) (hlen : state.length = 16)
    (hnz : isZero state = false) (t : ℕ) (ht : t < 32) :
    (mdsArray state).getD t 0 = (multiply state mds).getD t 0 := by
  have hds0 := isZero_false_degreeRaw state hnz
  have hdslt : degreeRaw state < 16 := by
    have := degreeRaw_lt_length state
    rw [hlen] at this
    exact_mod_cast this
  have hmds15 : (degreeRaw (mds)).toNat = 15 := by decide
  have hdst : ((degreeRaw state).toNat : ℤ) = degreeRaw state := Int.toNat_of_nonneg hds0
  refine Eq.trans (doubleFold_getD (fun i => state.getD i 0) (fun j => mds.getD j 0)
    16 16 32 t ht) ?_
  simp only []
  by_cases htlen : t < (degreeRaw state).toNat + 16
  · rw [multiply_getD state mds hnz (by decide) t (by omega), hmds15]
    have h1516 : (15 : ℕ) + 1 = 16 := by norm_num
    rw [h1516]
    symm
    apply Finset.sum_subset (Finset.range_subset.mpr (by omega))
    intro i hi hni
    rw [Finset.mem_range] at hi
    rw [Finset.mem_range] at hni
    rw [getD_eq_zero_of_degreeRaw_lt state i (by omega)]
    split
    · rw [zero_mul]
    · rfl
  · have hmlen := multiply_length state mds hnz (by decide)
    rw [hmds15] at hmlen
    rw [getD_eq_zero_of_length_le (multiply state mds) t (by omega)]
    apply Finset.sum_eq_zero
    intro i hi
    rw [Finset.mem_range] at hi
    by_cases his : i ≤ (degreeRaw state).toNat
    · rw [if_neg (by omega)]
    · rw [getD_eq_zero_of_degreeRaw_lt state i (by omega), zero_mul]
      split
      · rfl
      · rfl

/-- On a nonzero 16-element state, `mds_polynomial` succeeds and returns the
`mds_schoolbook` result. -/
theorem mdsPolynomial_some (state : List Fp) (hlen : state.length = 16)
    (hnz : isZero state = false) :
    mdsPolynomial state = some (mdsSchoolbook state) := by
  have hds0 := isZero_false_degreeRaw state hnz
  have hdslt : degreeRaw state < 16 := by
    have := degreeRaw_lt_length state
    rw [hlen] at this
    exact_mod_cast this
  have hmds15 : (degreeRaw (mds)).toNat = 15 := by decide
  have hmdsdeg : degreeRaw (mds) = 15 := by decide
  have hmdsz : isZero (mds) = false := by decide
  have hdm : degreeRaw (polySub (modPow ([0, 1] : List Fp) 16) [1]) = 16 := by decide
  have hmlen17 : (polySub (modPow ([0, 1] : List Fp) 16) [1]).length = 17 := by decide
  have hmget : (polySub (modPow ([0, 1] : List Fp) 16) [1]).getD 16 0 = 1 := by decide
  set mP := polySub (modPow ([0, 1] : List Fp) 16) [1] with hmP
  have htoP_mP : toPoly mP = Polynomial.X ^ 16 - 1 := by
    rw [hmP]
    exact toPoly_mPoly
  have habz := isZero_multiply_false state mds hnz hmdsz
  have hablen := multiply_length state mds hnz hmdsz
  rw [hmds15] at hablen
  have habdeg := degreeRaw_multiply state mds hnz hmdsz
  rw [hmdsdeg] at habdeg
  have hdst : ((degreeRaw state).toNat : ℤ) = degreeRaw state := Int.toNat_of_nonneg hds0
  set ds := (degreeRaw state).toNat with hds_def
  set ab := multiply state mds with hab
  have habne : ab ≠ [] := by
    intro hcon
    rw [hcon] at hablen
    simp at hablen
  have habnz : ab.getD (ab.length - 1) 0 ≠ 0 := by
    have hidx : ab.length - 1 = ds + 15 := by omega
    rw [hidx, hab]
    have hml := multiply_last state mds hnz hmdsz
    rw [hmds15] at hml
    rw [hml]
    exact mul_ne_zero (getD_degreeRaw_ne_zero state hnz)
      (getD_degreeRaw_ne_zero (mds) hmdsz)
  have habnorm := normalizePoly_eq_self ab habne habnz
  have hcount : ((degreeRaw ab - degreeRaw mP) + 1).toNat = ds := by
    rw [habdeg, hdm]
    omega
  have hinv : (1 / mP.getD 16 0) * mP.getD 16 0 = 1 := by
    rw [hmget]
    norm_num
  obtain ⟨hlrem, hprem⟩ := divideIter_spec mP 16 (1 / mP.getD 16 0)
    (by omega) (by omega) hinv ds [] (normalizePoly ab)
    (by rw [habnorm]; omega)
  rw [habnorm] at hlrem hprem
  set r1 := (divideIter mP 16 (1 / mP.getD 16 0) ds ([], ab)).2 with hr1
  set q1 := (divideIter mP 16 (1 / mP.getD 16 0) ds ([], ab)).1 with hq1
  have hr1len : r1.length = 16 := by omega
  have hexp : ab.length - ds - 16 = 0 := by omega
  rw [hexp, pow_zero, mul_one, List.reverse_nil, toPoly_nil, zero_mul, zero_mul,
    add_zero] at hprem
  have hident : toPoly ab = toPoly q1.reverse * (Polynomial.X ^ 16 - 1) + toPoly r1 := by
    rw [← htoP_mP, ← hprem]
    ring
  have hsplit := conv_split ab (by omega)
  have hrr : toPoly r1
      = toPoly ((List.range 16).map fun i => ab.getD i 0 + ab.getD (16 + i) 0) := by
    apply rem_unique q1.reverse r1 ((List.range 15).map fun i => ab.getD (16 + i) 0)
    · have := degreeRaw_lt_length r1
      rw [hr1len] at this
      exact_mod_cast this
    · have := degreeRaw_lt_length
        ((List.range 16).map fun i => (ab.getD i 0 + ab.getD (16 + i) 0 : Fp))
      rw [List.length_map, List.length_range] at this
      exact_mod_cast this
    · rw [← hident, ← hsplit]
  have hr1eq : r1 = (List.range 16).map fun i => ab.getD i 0 + ab.getD (16 + i) 0 := by
    apply list_ext_getD
    · rw [hr1len, List.length_map, List.length_range]
    · intro n
      rw [← toPoly_coeff, ← toPoly_coeff, hrr]
  have hr1eq2 : r1 = (List.range 16).map fun i =>
      (mdsArray state).getD i 0 + (mdsArray state).getD (16 + i) 0 := by
    rw [hr1eq]
    apply List.map_congr_left
    intro i hi
    rw [List.mem_range] at hi
    rw [mdsArray_getD_eq state hlen hnz i (by omega),
      mdsArray_getD_eq state hlen hnz (16 + i) (by omega), hab]
  rw [mdsPolynomial, ← hmP, ← hab, divide, if_neg (by omega),
    if_neg (by rw [habz]; simp), hcount, habnorm]
  rw [Option.bind]
  show (if 16 ≤ r1.length then some (mulState (r1.take 16) 16) else none)
    = some (mdsSchoolbook state)
  rw [if_pos (by omega), List.take_of_length_le (by omega), hr1eq2, mdsSchoolbook]

/-- On the zero state, `mds_polynomial` panics: the product polynomial is
zero, division yields the empty remainder, and the 16-wide slice fails. -/
theorem mdsPolynomial_none (state : List Fp) (hz : isZero state = true) :
    mdsPolynomial state = none := by
  have hdz : degreeRaw state < 0 := by
    have h1 := degreeRaw_eq_length state
    rw [(isZero_iff_normalizePoly_nil state).mp hz] at h1
    simp at h1
    omega
  rw [mdsPolynomial, multiply, if_pos (Or.inl hdz)]
  decide

theorem pow_mod16 (ω : F) (h16 : ω ^ 16 = 1) (m : ℕ) : ω ^ m = ω ^ (m % 16) := by
  conv_lhs => rw [← Nat.div_add_mod m 16]
  rw [pow_add, pow_mul, h16, one_pow, one_mul]

/-- A 16-th root of unity whose 8-th power is not 1 is a primitive 16-th
root. -/
theorem pow_sixteen_primitive (ω : F) (h16 : ω ^ 16 = 1) (h8 : ω ^ 8 ≠ 1) :
    ∀ d, 0 < d → d < 16 → ω ^ d ≠ 1 := by
  intro d hd0 hd16 hcon
  have hdvd : orderOf ω ∣ 2 ^ 4 := by
    have := orderOf_dvd_of_pow_eq_one h16
    norm_num at this ⊢
    exact this
  obtain ⟨k, hk4, hke⟩ := (Nat.dvd_prime_pow Nat.prime_two).mp hdvd
  by_cases hk3 : k ≤ 3
  · apply h8
    have ho := pow_orderOf_eq_one ω
    rw [hke] at ho
    have h2 : 2 ^ k * 2 ^ (3 - k) = 8 := by
      interval_cases k <;> norm_num
    calc ω ^ 8 = (ω ^ 2 ^ k) ^ 2 ^ (3 - k) := by rw [← pow_mul, h2]
    _ = 1 := by rw [ho, one_pow]
  · have hk4e : k = 4 := by omega
    rw [hk4e] at hke
    have ho16 : orderOf ω = 16 := by rw [hke]; norm_num
    have h16d : 16 ∣ d := by
      rw [← ho16]
      exact orderOf_dvd_of_pow_eq_one hcon
    omega

theorem pow_eight_neg_one (ω : F) (h16 : ω ^ 16 = 1) (h8 : ω ^ 8 ≠ 1) :
    ω ^ 8 = -1 := by
  have hsq : ω ^ 8 * ω ^ 8 = 1 := by
    rw [← pow_add]
    norm_num
    exact h16
  rcases mul_self_eq_one_iff.mp hsq with h | h
  · exact absurd h h8
  · exact h

/-- The convolution theorem for the order-16 transform: the pointwise product
of two transforms is the transform of the cyclic convolution. -/
theorem dft16_mul (ω : F) (h16 : ω ^ 16 = 1) (a b : List F)
    (ha : a.length = 16) (hb : b.length = 16) :
    List.zipWith (fun x y => x * y) (nttSpec ω a) (nttSpec ω b)
      = nttSpec ω ((List.range 16).map fun r =>
          ∑ i ∈ Finset.range 16, a.getD i 0 * b.getD ((16 + r - i) % 16) 0) := by
  have hlen1 : (nttSpec ω a).length = 16 := by rw [nttSpec_length, ha]
  have hlen2 : (nttSpec ω b).length = 16 := by rw [nttSpec_length, hb]
  have hclen : ((List.range 16).map fun r =>
      (∑ i ∈ Finset.range 16, a.getD i 0 * b.getD ((16 + r - i) % 16) 0 : F)).length
      = 16 := by
    rw [List.length_map, List.length_range]
  apply list_ext_getD
  · rw [List.length_zipWith, hlen1, hlen2, nttSpec_length, hclen, min_self]
  · intro k
    by_cases hk : k < 16
    · have hkz : k < (List.zipWith (fun x y : F => x * y)
          (nttSpec ω a) (nttSpec ω b)).length := by
        rw [List.length_zipWith, hlen1, hlen2, min_self]
        omega
      have hzip : (List.zipWith (fun x y : F => x * y)
            (nttSpec ω a) (nttSpec ω b)).getD k 0
          = (nttSpec ω a).getD k 0 * (nttSpec ω b).getD k 0 := by
        rw [List.getD_eq_getElem?_getD, List.getElem?_eq_getElem hkz, Option.getD_some,
          List.getElem_zipWith, List.getD_eq_getElem?_getD,
          List.getElem?_eq_getElem (show k < (nttSpec ω a).length by omega),
          List.getD_eq_getElem?_getD,
          List.getElem?_eq_getElem (show k < (nttSpec ω b).length by omega),
          Option.getD_some, Option.getD_some]
      rw [hzip, nttSpec_getD ω a k (by omega), nttSpec_getD ω b k (by omega), ha, hb,
        nttSpec_getD ω _ k (by rw [hclen]; omega), hclen, Finset.sum_mul_sum]
      have hrhs : ∀ r ∈ Finset.range 16,
          ((List.range 16).map fun r =>
              (∑ i ∈ Finset.range 16, a.getD i 0 * b.getD ((16 + r - i) % 16) 0 : F)).getD
            r 0 * ω ^ (r * k)
          = ∑ i ∈ Finset.range 16,
              a.getD i 0 * b.getD ((16 + r - i) % 16) 0 * ω ^ (r * k) := by
        intro r hr
        rw [Finset.mem_range] at hr
        rw [getD_map_range, if_pos hr, Finset.sum_mul]
      rw [Finset.sum_congr rfl hrhs]
      have hcomm : ∑ r ∈ Finset.range 16, ∑ i ∈ Finset.range 16,
            a.getD i 0 * b.getD ((16 + r - i) % 16) 0 * ω ^ (r * k)
          = ∑ i ∈ Finset.range 16, ∑ r ∈ Finset.range 16,
            a.getD i 0 * b.getD ((16 + r - i) % 16) 0 * ω ^ (r * k) := Finset.sum_comm
      rw [hcomm]
      apply Finset.sum_congr rfl
      intro i hi
      rw [Finset.mem_range] at hi
      apply Finset.sum_nbij' (fun j => (i + j) % 16) (fun r => (16 + r - i) % 16)
      · intro j hj
        rw [Finset.mem_range] at hj ⊢
        omega
      · intro r hr
        rw [Finset.mem_range] at hr ⊢
        omega
      · intro j hj
        rw [Finset.mem_range] at hj
        omega
      · intro r hr
        rw [Finset.mem_range] at hr
        omega
      · intro j hj
        rw [Finset.mem_range] at hj
        have hidx : (16 + (i + j) % 16 - i) % 16 = j := by omega
        have hpow : ω ^ (i * k) * ω ^ (j * k) = ω ^ ((i + j) % 16 * k) := by
          rw [← pow_add]
          have he : i * k + j * k = (i + j) * k := by ring
          rw [he]
          simp only [pow_mul]
          rw [pow_mod16 ω h16 (i + j)]
        rw [hidx, ← hpow]
        ring
    · rw [getD_eq_zero_of_length_le _ k
          (by rw [List.length_zipWith, hlen1, hlen2, min_self]; omega),
        getD_eq_zero_of_length_le _ k (by rw [nttSpec_length, hclen]; omega)]

/-- The cyclic-convolution sum equals the folded schoolbook accumulator. -/
theorem conv_eq_mdsArray (state : List Fp) (hlen : state.length = 16)
    (r : ℕ) (hr : r < 16) :
    ∑ i ∈ Finset.range 16, state.getD i 0 * mds.getD ((16 + r - i) % 16) 0
      = (mdsArray state).getD r 0 + (mdsArray state).getD (16 + r) 0 := by
  have h1 : (mdsArray state).getD r 0
      = ∑ i ∈ Finset.range 16,
          if i ≤ r ∧ r - i < 16 then state.getD i 0 * mds.getD (r - i) 0 else 0 :=
    doubleFold_getD (fun i => state.getD i 0) (fun j => mds.getD j 0) 16 16 32 r (by omega)
  have h2 : (mdsArray state).getD (16 + r) 0
      = ∑ i ∈ Finset.range 16,
          if i ≤ 16 + r ∧ 16 + r - i < 16 then
            state.getD i 0 * mds.getD (16 + r - i) 0 else 0 :=
    doubleFold_getD (fun i => state.getD i 0) (fun j => mds.getD j 0) 16 16 32 (16 + r)
      (by omega)
  rw [h1, h2, ← Finset.sum_add_distrib]
  apply Finset.sum_congr rfl
  intro i hi
  rw [Finset.mem_range] at hi
  by_cases hir : i ≤ r
  · rw [if_pos (by omega), if_neg (by omega)]
    have he : (16 + r - i) % 16 = r - i := by omega
    rw [he, add_zero]
  · rw [if_neg (by omega), if_pos (by omega)]
    have he : (16 + r - i) % 16 = 16 + r - i := by omega
    rw [he, zero_add]
set_option maxHeartbeats 3200000 in
/-- The bit-reversal permutation followed by the four butterfly passes of
`ntt_withswap` computes the order-16 DFT whenever `ω ^ 8 = -1`: each output
coordinate differs from the transform coordinate by an explicit multiple of
`ω ^ 8 + 1`. -/
theorem nttWithswap_eq_dft (ω x0 x1 x2 x3 x4 x5 x6 x7 x8 x9 x10 x11 x12 x13 x14 x15 : F) (hneg : ω ^ 8 + 1 = 0) :
    nttWithswap ω 4 [x0, x1, x2, x3, x4, x5, x6, x7, x8, x9, x10, x11, x12, x13, x14, x15]
      = nttSpec ω [x0, x1, x2, x3, x4, x5, x6, x7, x8, x9, x10, x11, x12, x13, x14, x15] := by
  have hlen16 : ([x0, x1, x2, x3, x4, x5, x6, x7, x8, x9, x10, x11, x12, x13, x14, x15] : List F).length = 16 := rfl
  have h0 : bitreverseOrder [x0, x1, x2, x3, x4, x5, x6, x7, x8, x9, x10, x11, x12, x13, x14, x15] = [x0, x8, x4, x12, x2, x10, x6, x14, x1, x9, x5, x13, x3, x11, x7, x15] := rfl
  have hs1 : ∀ w y0 y1 y2 y3 y4 y5 y6 y7 y8 y9 y10 y11 y12 y13 y14 y15 : F, butterflyStage w (2 ^ 0)
      [y0, y1, y2, y3, y4, y5, y6, y7, y8, y9, y10, y11, y12, y13, y14, y15]
      = [(y0 + (y1 * w ^ 0)),
        (y0 - (y1 * w ^ 0)),
        (y2 + (y3 * w ^ 0)),
        (y2 - (y3 * w ^ 0)),
        (y4 + (y5 * w ^ 0)),
        (y4 - (y5 * w ^ 0)),
        (y6 + (y7 * w ^ 0)),
        (y6 - (y7 * w ^ 0)),
        (y8 + (y9 * w ^ 0)),
        (y8 - (y9 * w ^ 0)),
        (y10 + (y11 * w ^ 0)),
        (y10 - (y11 * w ^ 0)),
        (y12 + (y13 * w ^ 0)),
        (y12 - (y13 * w ^ 0)),
        (y14 + (y15 * w ^ 0)),
        (y14 - (y15 * w ^ 0))] := by
    intro w y0 y1 y2 y3 y4 y5 y6 y7 y8 y9 y10 y11 y12 y13 y14 y15
    rfl
  have hs2 : ∀ w y0 y1 y2 y3 y4 y5 y6 y7 y8 y9 y10 y11 y12 y13 y14 y15 : F, butterflyStage w (2 ^ 1)
      [y0, y1, y2, y3, y4, y5, y6, y7, y8, y9, y10, y11, y12, y13, y14, y15]
      = [(y0 + (y2 * w ^ 0)),
        (y1 + (y3 * w ^ 1)),
        (y0 - (y2 * w ^ 0)),
        (y1 - (y3 * w ^ 1)),
        (y4 + (y6 * w ^ 0)),
        (y5 + (y7 * w ^ 1)),
        (y4 - (y6 * w ^ 0)),
        (y5 - (y7 * w ^ 1)),
        (y8 + (y10 * w ^ 0)),
        (y9 + (y11 * w ^ 1)),
        (y8 - (y10 * w ^ 0)),
        (y9 - (y11 * w ^ 1)),
        (y12 + (y14 * w ^ 0)),
        (y13 + (y15 * w ^ 1)),
        (y12 - (y14 * w ^ 0)),
        (y13 - (y15 * w ^ 1))] := by
    intro w y0 y1 y2 y3 y4 y5 y6 y7 y8 y9 y10 y11 y12 y13 y14 y15
    rfl
  have hs3 : ∀ w y0 y1 y2 y3 y4 y5 y6 y7 y8 y9 y10 y11 y12 y13 y14 y15 : F, butterflyStage w (2 ^ 2)
      [y0, y1, y2, y3, y4, y5, y6, y7, y8, y9, y10, y11, y12, y13, y14, y15]
      = [(y0 + (y4 * w ^ 0)),
        (y1 + (y5 * w ^ 1)),
        (y2 + (y6 * w ^ 2)),
        (y3 + (y7 * w ^ 3)),
        (y0 - (y4 * w ^ 0)),
        (y1 - (y5 * w ^ 1)),
        (y2 - (y6 * w ^ 2)),
        (y3 - (y7 * w ^ 3)),
        (y8 + (y12 * w ^ 0)),
        (y9 + (y13 * w ^ 1)),
        (y10 + (y14 * w ^ 2)),
        (y11 + (y15 * w ^ 3)),
        (y8 - (y12 * w ^ 0)),
        (y9 - (y13 * w ^ 1)),
        (y10 - (y14 * w ^ 2)),
        (y11 - (y15 * w ^ 3))] := by
    intro w y0 y1 y2 y3 y4 y5 y6 y7 y8 y9 y10 y11 y12 y13 y14 y15
    rfl
  have hs4 : ∀ w y0 y1 y2 y3 y4 y5 y6 y7 y8 y9 y10 y11 y12 y13 y14 y15 : F, butterflyStage w (2 ^ 3)
      [y0, y1, y2, y3, y4, y5, y6, y7, y8, y9, y10, y11, y12, y13, y14, y15]
      = [(y0 + (y8 * w ^ 0)),
        (y1 + (y9 * w ^ 1)),
        (y2 + (y10 * w ^ 2)),
        (y3 + (y11 * w ^ 3)),
        (y4 + (y12 * w ^ 4)),
        (y5 + (y13 * w ^ 5)),
        (y6 + (y14 * w ^ 6)),
        (y7 + (y15 * w ^ 7)),
        (y0 - (y8 * w ^ 0)),
        (y1 - (y9 * w ^ 1)),
        (y2 - (y10 * w ^ 2)),
        (y3 - (y11 * w ^ 3)),
        (y4 - (y12 * w ^ 4)),
        (y5 - (y13 * w ^ 5)),
        (y6 - (y14 * w ^ 6)),
        (y7 - (y15 * w ^ 7))] := by
    intro w y0 y1 y2 y3 y4 y5 y6 y7 y8 y9 y10 y11 y12 y13 y14 y15
    rfl
  have e0 : ((((x0 + (x8 * (ω ^ 8) ^ 0)) + ((x4 + (x12 * (ω ^ 8) ^ 0)) * (ω ^ 4) ^ 0)) + (((x2 + (x10 * (ω ^ 8) ^ 0)) + ((x6 + (x14 * (ω ^ 8) ^ 0)) * (ω ^ 4) ^ 0)) * (ω ^ 2) ^ 0)) + ((((x1 + (x9 * (ω ^ 8) ^ 0)) + ((x5 + (x13 * (ω ^ 8) ^ 0)) * (ω ^ 4) ^ 0)) + (((x3 + (x11 * (ω ^ 8) ^ 0)) + ((x7 + (x15 * (ω ^ 8) ^ 0)) * (ω ^ 4) ^ 0)) * (ω ^ 2) ^ 0)) * (ω ^ 1) ^ 0))
      = (x0 * ω ^ 0 + (x1 * ω ^ 0 + (x2 * ω ^ 0 + (x3 * ω ^ 0 + (x4 * ω ^ 0 + (x5 * ω ^ 0 + (x6 * ω ^ 0 + (x7 * ω ^ 0 + (x8 * ω ^ 0 + (x9 * ω ^ 0 + (x10 * ω ^ 0 + (x11 * ω ^ 0 + (x12 * ω ^ 0 + (x13 * ω ^ 0 + (x14 * ω ^ 0 + (x15 * ω ^ 0 + 0)))))))))))))))) := by
    linear_combination (0 : F) * hneg
  have e1 : ((((x0 - (x8 * (ω ^ 8) ^ 0)) + ((x4 - (x12 * (ω ^ 8) ^ 0)) * (ω ^ 4) ^ 1)) + (((x2 - (x10 * (ω ^ 8) ^ 0)) + ((x6 - (x14 * (ω ^ 8) ^ 0)) * (ω ^ 4) ^ 1)) * (ω ^ 2) ^ 1)) + ((((x1 - (x9 * (ω ^ 8) ^ 0)) + ((x5 - (x13 * (ω ^ 8) ^ 0)) * (ω ^ 4) ^ 1)) + (((x3 - (x11 * (ω ^ 8) ^ 0)) + ((x7 - (x15 * (ω ^ 8) ^ 0)) * (ω ^ 4) ^ 1)) * (ω ^ 2) ^ 1)) * (ω ^ 1) ^ 1))
      = (x0 * ω ^ 0 + (x1 * ω ^ 1 + (x2 * ω ^ 2 + (x3 * ω ^ 3 + (x4 * ω ^ 4 + (x5 * ω ^ 5 + (x6 * ω ^ 6 + (x7 * ω ^ 7 + (x8 * ω ^ 8 + (x9 * ω ^ 9 + (x10 * ω ^ 10 + (x11 * ω ^ 11 + (x12 * ω ^ 12 + (x13 * ω ^ 13 + (x14 * ω ^ 14 + (x15 * ω ^ 15 + 0)))))))))))))))) := by
    linear_combination ((-1) * x8 + (-ω) * x9 + (-ω ^ 2) * x10 + (-ω ^ 3) * x11 + (-ω ^ 4) * x12 + (-ω ^ 5) * x13 + (-ω ^ 6) * x14 + (-ω ^ 7) * x15) * hneg
  have e2 : ((((x0 + (x8 * (ω ^ 8) ^ 0)) - ((x4 + (x12 * (ω ^ 8) ^ 0)) * (ω ^ 4) ^ 0)) + (((x2 + (x10 * (ω ^ 8) ^ 0)) - ((x6 + (x14 * (ω ^ 8) ^ 0)) * (ω ^ 4) ^ 0)) * (ω ^ 2) ^ 2)) + ((((x1 + (x9 * (ω ^ 8) ^ 0)) - ((x5 + (x13 * (ω ^ 8) ^ 0)) * (ω ^ 4) ^ 0)) + (((x3 + (x11 * (ω ^ 8) ^ 0)) - ((x7 + (x15 * (ω ^ 8) ^ 0)) * (ω ^ 4) ^ 0)) * (ω ^ 2) ^ 2)) * (ω ^ 1) ^ 2))
      = (x0 * ω ^ 0 + (x1 * ω ^ 2 + (x2 * ω ^ 4 + (x3 * ω ^ 6 + (x4 * ω ^ 8 + (x5 * ω ^ 10 + (x6 * ω ^ 12 + (x7 * ω ^ 14 + (x8 * ω ^ 16 + (x9 * ω ^ 18 + (x10 * ω ^ 20 + (x11 * ω ^ 22 + (x12 * ω ^ 24 + (x13 * ω ^ 26 + (x14 * ω ^ 28 + (x15 * ω ^ 30 + 0)))))))))))))))) := by
    linear_combination ((-1) * x4 + (-ω ^ 2) * x5 + (-ω ^ 4) * x6 + (-ω ^ 6) * x7 + (-ω ^ 8 + 1) * x8 + (-ω ^ 10 + ω ^ 2) * x9 + (-ω ^ 12 + ω ^ 4) * x10 + (-ω ^ 14 + ω ^ 6) * x11 + (-ω ^ 16 + ω ^ 8 - 1) * x12 + (-ω ^ 18 + ω ^ 10 - ω ^ 2) * x13 + (-ω ^ 20 + ω ^ 12 - ω ^ 4) * x14 + (-ω ^ 22 + ω ^ 14 - ω ^ 6) * x15) * hneg
  have e3 : ((((x0 - (x8 * (ω ^ 8) ^ 0)) - ((x4 - (x12 * (ω ^ 8) ^ 0)) * (ω ^ 4) ^ 1)) + (((x2 - (x10 * (ω ^ 8) ^ 0)) - ((x6 - (x14 * (ω ^ 8) ^ 0)) * (ω ^ 4) ^ 1)) * (ω ^ 2) ^ 3)) + ((((x1 - (x9 * (ω ^ 8) ^ 0)) - ((x5 - (x13 * (ω ^ 8) ^ 0)) * (ω ^ 4) ^ 1)) + (((x3 - (x11 * (ω ^ 8) ^ 0)) - ((x7 - (x15 * (ω ^ 8) ^ 0)) * (ω ^ 4) ^ 1)) * (ω ^ 2) ^ 3)) * (ω ^ 1) ^ 3))
      = (x0 * ω ^ 0 + (x1 * ω ^ 3 + (x2 * ω ^ 6 + (x3 * ω ^ 9 + (x4 * ω ^ 12 + (x5 * ω ^ 15 + (x6 * ω ^ 18 + (x7 * ω ^ 21 + (x8 * ω ^ 24 + (x9 * ω ^ 27 + (x10 * ω ^ 30 + (x11 * ω ^ 33 + (x12 * ω ^ 36 + (x13 * ω ^ 39 + (x14 * ω ^ 42 + (x15 * ω ^ 45 + 0)))))))))))))))) := by
    linear_combination ((-ω ^ 4) * x4 + (-ω ^ 7) * x5 + (-ω ^ 10) * x6 + (-ω ^ 13) * x7 + (-ω ^ 16 + ω ^ 8 - 1) * x8 + (-ω ^ 19 + ω ^ 11 - ω ^ 3) * x9 + (-ω ^ 22 + ω ^ 14 - ω ^ 6) * x10 + (-ω ^ 25 + ω ^ 17 - ω ^ 9) * x11 + (-ω ^ 28 + ω ^ 20 - ω ^ 12 + ω ^ 4) * x12 + (-ω ^ 31 + ω ^ 23 - ω ^ 15 + ω ^ 7) * x13 + (-ω ^ 34 + ω ^ 26 - ω ^ 18 + ω ^ 10) * x14 + (-ω ^ 37 + ω ^ 29 - ω ^ 21 + ω ^ 13) * x15) * hneg
  have e4 : ((((x0 + (x8 * (ω ^ 8) ^ 0)) + ((x4 + (x12 * (ω ^ 8) ^ 0)) * (ω ^ 4) ^ 0)) - (((x2 + (x10 * (ω ^ 8) ^ 0)) + ((x6 + (x14 * (ω ^ 8) ^ 0)) * (ω ^ 4) ^ 0)) * (ω ^ 2) ^ 0)) + ((((x1 + (x9 * (ω ^ 8) ^ 0)) + ((x5 + (x13 * (ω ^ 8) ^ 0)) * (ω ^ 4) ^ 0)) - (((x3 + (x11 * (ω ^ 8) ^ 0)) + ((x7 + (x15 * (ω ^ 8) ^ 0)) * (ω ^ 4) ^ 0)) * (ω ^ 2) ^ 0)) * (ω ^ 1) ^ 4))
      = (x0 * ω ^ 0 + (x1 * ω ^ 4 + (x2 * ω ^ 8 + (x3 * ω ^ 12 + (x4 * ω ^ 16 + (x5 * ω ^ 20 + (x6 * ω ^ 24 + (x7 * ω ^ 28 + (x8 * ω ^ 32 + (x9 * ω ^ 36 + (x10 * ω ^ 40 + (x11 * ω ^ 44 + (x12 * ω ^ 48 + (x13 * ω ^ 52 + (x14 * ω ^ 56 + (x15 * ω ^ 60 + 0)))))))))))))))) := by
    linear_combination ((-1) * x2 + (-ω ^ 4) * x3 + (-ω ^ 8 + 1) * x4 + (-ω ^ 12 + ω ^ 4) * x5 + (-ω ^ 16 + ω ^ 8 - 1) * x6 + (-ω ^ 20 + ω ^ 12 - ω ^ 4) * x7 + (-ω ^ 24 + ω ^ 16 - ω ^ 8 + 1) * x8 + (-ω ^ 28 + ω ^ 20 - ω ^ 12 + ω ^ 4) * x9 + (-ω ^ 32 + ω ^ 24 - ω ^ 16 + ω ^ 8 - 1) * x10 + (-ω ^ 36 + ω ^ 28 - ω ^ 20 + ω ^ 12 - ω ^ 4) * x11 + (-ω ^ 40 + ω ^ 32 - ω ^ 24 + ω ^ 16 - ω ^ 8 + 1) * x12 + (-ω ^ 44 + ω ^ 36 - ω ^ 28 + ω ^ 20 - ω ^ 12 + ω ^ 4) * x13 + (-ω ^ 48 + ω ^ 40 - ω ^ 32 + ω ^ 24 - ω ^ 16 + ω ^ 8 - 1) * x14 + (-ω ^ 52 + ω ^ 44 - ω ^ 36 + ω ^ 28 - ω ^ 20 + ω ^ 12 - ω ^ 4) * x15) * hneg
  have e5 : ((((x0 - (x8 * (ω ^ 8) ^ 0)) + ((x4 - (x12 * (ω ^ 8) ^ 0)) * (ω ^ 4) ^ 1)) - (((x2 - (x10 * (ω ^ 8) ^ 0)) + ((x6 - (x14 * (ω ^ 8) ^ 0)) * (ω ^ 4) ^ 1)) * (ω ^ 2) ^ 1)) + ((((x1 - (x9 * (ω ^ 8) ^ 0)) + ((x5 - (x13 * (ω ^ 8) ^ 0)) * (ω ^ 4) ^ 1)) - (((x3 - (x11 * (ω ^ 8) ^ 0)) + ((x7 - (x15 * (ω ^ 8) ^ 0)) * (ω ^ 4) ^ 1)) * (ω ^ 2) ^ 1)) * (ω ^ 1) ^ 5))
      = (x0 * ω ^ 0 + (x1 * ω ^ 5 + (x2 * ω ^ 10 + (x3 * ω ^ 15 + (x4 * ω ^ 20 + (x5 * ω ^ 25 + (x6 * ω ^ 30 + (x7 * ω ^ 35 + (x8 * ω ^ 40 + (x9 * ω ^ 45 + (x10 * ω ^ 50 + (x11 * ω ^ 55 + (x12 * ω ^ 60 + (x13 * ω ^ 65 + (x14 * ω ^ 70 + (x15 * ω ^ 75 + 0)))))))))))))))) := by
    linear_combination ((-ω ^ 2) * x2 + (-ω ^ 7) * x3 + (-ω ^ 12 + ω ^ 4) * x4 + (-ω ^ 17 + ω ^ 9) * x5 + (-ω ^ 22 + ω ^ 14 - ω ^ 6) * x6 + (-ω ^ 27 + ω ^ 19 - ω ^ 11) * x7 + (-ω ^ 32 + ω ^ 24 - ω ^ 16 + ω ^ 8 - 1) * x8 + (-ω ^ 37 + ω ^ 29 - ω ^ 21 + ω ^ 13 - ω ^ 5) * x9 + (-ω ^ 42 + ω ^ 34 - ω ^ 26 + ω ^ 18 - ω ^ 10 + ω ^ 2) * x10 + (-ω ^ 47 + ω ^ 39 - ω ^ 31 + ω ^ 23 - ω ^ 15 + ω ^ 7) * x11 + (-ω ^ 52 + ω ^ 44 - ω ^ 36 + ω ^ 28 - ω ^ 20 + ω ^ 12 - ω ^ 4) * x12 + (-ω ^ 57 + ω ^ 49 - ω ^ 41 + ω ^ 33 - ω ^ 25 + ω ^ 17 - ω ^ 9) * x13 + (-ω ^ 62 + ω ^ 54 - ω ^ 46 + ω ^ 38 - ω ^ 30 + ω ^ 22 - ω ^ 14 + ω ^ 6) * x14 + (-ω ^ 67 + ω ^ 59 - ω ^ 51 + ω ^ 43 - ω ^ 35 + ω ^ 27 - ω ^ 19 + ω ^ 11) * x15) * hneg
  have e6 : ((((x0 + (x8 * (ω ^ 8) ^ 0)) - ((x4 + (x12 * (ω ^ 8) ^ 0)) * (ω ^ 4) ^ 0)) - (((x2 + (x10 * (ω ^ 8) ^ 0)) - ((x6 + (x14 * (ω ^ 8) ^ 0)) * (ω ^ 4) ^ 0)) * (ω ^ 2) ^ 2)) + ((((x1 + (x9 * (ω ^ 8) ^ 0)) - ((x5 + (x13 * (ω ^ 8) ^ 0)) * (ω ^ 4) ^ 0)) - (((x3 + (x11 * (ω ^ 8) ^ 0)) - ((x7 + (x15 * (ω ^ 8) ^ 0)) * (ω ^ 4) ^ 0)) * (ω ^ 2) ^ 2)) * (ω ^ 1) ^ 6))
      = (x0 * ω ^ 0 + (x1 * ω ^ 6 + (x2 * ω ^ 12 + (x3 * ω ^ 18 + (x4 * ω ^ 24 + (x5 * ω ^ 30 + (x6 * ω ^ 36 + (x7 * ω ^ 42 + (x8 * ω ^ 48 + (x9 * ω ^ 54 + (x10 * ω ^ 60 + (x11 * ω ^ 66 + (x12 * ω ^ 72 + (x13 * ω ^ 78 + (x14 * ω ^ 84 + (x15 * ω ^ 90 + 0)))))))))))))))) := by
    linear_combination ((-ω ^ 4) * x2 + (-ω ^ 10) * x3 + (-ω ^ 16 + ω ^ 8 - 1) * x4 + (-ω ^ 22 + ω ^ 14 - ω ^ 6) * x5 + (-ω ^ 28 + ω ^ 20 - ω ^ 12 + ω ^ 4) * x6 + (-ω ^ 34 + ω ^ 26 - ω ^ 18 + ω ^ 10) * x7 + (-ω ^ 40 + ω ^ 32 - ω ^ 24 + ω ^ 16 - ω ^ 8 + 1) * x8 + (-ω ^ 46 + ω ^ 38 - ω ^ 30 + ω ^ 22 - ω ^ 14 + ω ^ 6) * x9 + (-ω ^ 52 + ω ^ 44 - ω ^ 36 + ω ^ 28 - ω ^ 20 + ω ^ 12 - ω ^ 4) * x10 + (-ω ^ 58 + ω ^ 50 - ω ^ 42 + ω ^ 34 - ω ^ 26 + ω ^ 18 - ω ^ 10) * x11 + (-ω ^ 64 + ω ^ 56 - ω ^ 48 + ω ^ 40 - ω ^ 32 + ω ^ 24 - ω ^ 16 + ω ^ 8 - 1) * x12 + (-ω ^ 70 + ω ^ 62 - ω ^ 54 + ω ^ 46 - ω ^ 38 + ω ^ 30 - ω ^ 22 + ω ^ 14 - ω ^ 6) * x13 + (-ω ^ 76 + ω ^ 68 - ω ^ 60 + ω ^ 52 - ω ^ 44 + ω ^ 36 - ω ^ 28 + ω ^ 20 - ω ^ 12 + ω ^ 4) * x14 + (-ω ^ 82 + ω ^ 74 - ω ^ 66 + ω ^ 58 - ω ^ 50 + ω ^ 42 - ω ^ 34 + ω ^ 26 - ω ^ 18 + ω ^ 10) * x15) * hneg
  have e7 : ((((x0 - (x8 * (ω ^ 8) ^ 0)) - ((x4 - (x12 * (ω ^ 8) ^ 0)) * (ω ^ 4) ^ 1)) - (((x2 - (x10 * (ω ^ 8) ^ 0)) - ((x6 - (x14 * (ω ^ 8) ^ 0)) * (ω ^ 4) ^ 1)) * (ω ^ 2) ^ 3)) + ((((x1 - (x9 * (ω ^ 8) ^ 0)) - ((x5 - (x13 * (ω ^ 8) ^ 0)) * (ω ^ 4) ^ 1)) - (((x3 - (x11 * (ω ^ 8) ^ 0)) - ((x7 - (x15 * (ω ^ 8) ^ 0)) * (ω ^ 4) ^ 1)) * (ω ^ 2) ^ 3)) * (ω ^ 1) ^ 7))
      = (x0 * ω ^ 0 + (x1 * ω ^ 7 + (x2 * ω ^ 14 + (x3 * ω ^ 21 + (x4 * ω ^ 28 + (x5 * ω ^ 35 + (x6 * ω ^ 42 + (x7 * ω ^ 49 + (x8 * ω ^ 56 + (x9 * ω ^ 63 + (x10 * ω ^ 70 + (x11 * ω ^ 77 + (x12 * ω ^ 84 + (x13 * ω ^ 91 + (x14 * ω ^ 98 + (x15 * ω ^ 105 + 0)))))))))))))))) := by
    linear_combination ((-ω ^ 6) * x2 + (-ω ^ 13) * x3 + (-ω ^ 20 + ω ^ 12 - ω ^ 4) * x4 + (-ω ^ 27 + ω ^ 19 - ω ^ 11) * x5 + (-ω ^ 34 + ω ^ 26 - ω ^ 18 + ω ^ 10) * x6 + (-ω ^ 41 + ω ^ 33 - ω ^ 25 + ω ^ 17) * x7 + (-ω ^ 48 + ω ^ 40 - ω ^ 32 + ω ^ 24 - ω ^ 16 + ω ^ 8 - 1) * x8 + (-ω ^ 55 + ω ^ 47 - ω ^ 39 + ω ^ 31 - ω ^ 23 + ω ^ 15 - ω ^ 7) * x9 + (-ω ^ 62 + ω ^ 54 - ω ^ 46 + ω ^ 38 - ω ^ 30 + ω ^ 22 - ω ^ 14 + ω ^ 6) * x10 + (-ω ^ 69 + ω ^ 61 - ω ^ 53 + ω ^ 45 - ω ^ 37 + ω ^ 29 - ω ^ 21 + ω ^ 13) * x11 + (-ω ^ 76 + ω ^ 68 - ω ^ 60 + ω ^ 52 - ω ^ 44 + ω ^ 36 - ω ^ 28 + ω ^ 20 - ω ^ 12 + ω ^ 4) * x12 + (-ω ^ 83 + ω ^ 75 - ω ^ 67 + ω ^ 59 - ω ^ 51 + ω ^ 43 - ω ^ 35 + ω ^ 27 - ω ^ 19 + ω ^ 11) * x13 + (-ω ^ 90 + ω ^ 82 - ω ^ 74 + ω ^ 66 - ω ^ 58 + ω ^ 50 - ω ^ 42 + ω ^ 34 - ω ^ 26 + ω ^ 18 - ω ^ 10) * x14 + (-ω ^ 97 + ω ^ 89 - ω ^ 81 + ω ^ 73 - ω ^ 65 + ω ^ 57 - ω ^ 49 + ω ^ 41 - ω ^ 33 + ω ^ 25 - ω ^ 17) * x15) * hneg
  have e8 : ((((x0 + (x8 * (ω ^ 8) ^ 0)) + ((x4 + (x12 * (ω ^ 8) ^ 0)) * (ω ^ 4) ^ 0)) + (((x2 + (x10 * (ω ^ 8) ^ 0)) + ((x6 + (x14 * (ω ^ 8) ^ 0)) * (ω ^ 4) ^ 0)) * (ω ^ 2) ^ 0)) - ((((x1 + (x9 * (ω ^ 8) ^ 0)) + ((x5 + (x13 * (ω ^ 8) ^ 0)) * (ω ^ 4) ^ 0)) + (((x3 + (x11 * (ω ^ 8) ^ 0)) + ((x7 + (x15 * (ω ^ 8) ^ 0)) * (ω ^ 4) ^ 0)) * (ω ^ 2) ^ 0)) * (ω ^ 1) ^ 0))
      = (x0 * ω ^ 0 + (x1 * ω ^ 8 + (x2 * ω ^ 16 + (x3 * ω ^ 24 + (x4 * ω ^ 32 + (x5 * ω ^ 40 + (x6 * ω ^ 48 + (x7 * ω ^ 56 + (x8 * ω ^ 64 + (x9 * ω ^ 72 + (x10 * ω ^ 80 + (x11 * ω ^ 88 + (x12 * ω ^ 96 + (x13 * ω ^ 104 + (x14 * ω ^ 112 + (x15 * ω ^ 120 + 0)))))))))))))))) := by
    linear_combination ((-1) * x1 + (-ω ^ 8 + 1) * x2 + (-ω ^ 16 + ω ^ 8 - 1) * x3 + (-ω ^ 24 + ω ^ 16 - ω ^ 8 + 1) * x4 + (-ω ^ 32 + ω ^ 24 - ω ^ 16 + ω ^ 8 - 1) * x5 + (-ω ^ 40 + ω ^ 32 - ω ^ 24 + ω ^ 16 - ω ^ 8 + 1) * x6 + (-ω ^ 48 + ω ^ 40 - ω ^ 32 + ω ^ 24 - ω ^ 16 + ω ^ 8 - 1) * x7 + (-ω ^ 56 + ω ^ 48 - ω ^ 40 + ω ^ 32 - ω ^ 24 + ω ^ 16 - ω ^ 8 + 1) * x8 + (-ω ^ 64 + ω ^ 56 - ω ^ 48 + ω ^ 40 - ω ^ 32 + ω ^ 24 - ω ^ 16 + ω ^ 8 - 1) * x9 + (-ω ^ 72 + ω ^ 64 - ω ^ 56 + ω ^ 48 - ω ^ 40 + ω ^ 32 - ω ^ 24 + ω ^ 16 - ω ^ 8 + 1) * x10 + (-ω ^ 80 + ω ^ 72 - ω ^ 64 + ω ^ 56 - ω ^ 48 + ω ^ 40 - ω ^ 32 + ω ^ 24 - ω ^ 16 + ω ^ 8 - 1) * x11 + (-ω ^ 88 + ω ^ 80 - ω ^ 72 + ω ^ 64 - ω ^ 56 + ω ^ 48 - ω ^ 40 + ω ^ 32 - ω ^ 24 + ω ^ 16 - ω ^ 8 + 1) * x12 + (-ω ^ 96 + ω ^ 88 - ω ^ 80 + ω ^ 72 - ω ^ 64 + ω ^ 56 - ω ^ 48 + ω ^ 40 - ω ^ 32 + ω ^ 24 - ω ^ 16 + ω ^ 8 - 1) * x13 + (-ω ^ 104 + ω ^ 96 - ω ^ 88 + ω ^ 80 - ω ^ 72 + ω ^ 64 - ω ^ 56 + ω ^ 48 - ω ^ 40 + ω ^ 32 - ω ^ 24 + ω ^ 16 - ω ^ 8 + 1) * x14 + (-ω ^ 112 + ω ^ 104 - ω ^ 96 + ω ^ 88 - ω ^ 80 + ω ^ 72 - ω ^ 64 + ω ^ 56 - ω ^ 48 + ω ^ 40 - ω ^ 32 + ω ^ 24 - ω ^ 16 + ω ^ 8 - 1) * x15) * hneg
  have e9 : ((((x0 - (x8 * (ω ^ 8) ^ 0)) + ((x4 - (x12 * (ω ^ 8) ^ 0)) * (ω ^ 4) ^ 1)) + (((x2 - (x10 * (ω ^ 8) ^ 0)) + ((x6 - (x14 * (ω ^ 8) ^ 0)) * (ω ^ 4) ^ 1)) * (ω ^ 2) ^ 1)) - ((((x1 - (x9 * (ω ^ 8) ^ 0)) + ((x5 - (x13 * (ω ^ 8) ^ 0)) * (ω ^ 4) ^ 1)) + (((x3 - (x11 * (ω ^ 8) ^ 0)) + ((x7 - (x15 * (ω ^ 8) ^ 0)) * (ω ^ 4) ^ 1)) * (ω ^ 2) ^ 1)) * (ω ^ 1) ^ 1))
      = (x0 * ω ^ 0 + (x1 * ω ^ 9 + (x2 * ω ^ 18 + (x3 * ω ^ 27 + (x4 * ω ^ 36 + (x5 * ω ^ 45 + (x6 * ω ^ 54 + (x7 * ω ^ 63 + (x8 * ω ^ 72 + (x9 * ω ^ 81 + (x10 * ω ^ 90 + (x11 * ω ^ 99 + (x12 * ω ^ 108 + (x13 * ω ^ 117 + (x14 * ω ^ 126 + (x15 * ω ^ 135 + 0)))))))))))))))) := by
    linear_combination ((-ω) * x1 + (-ω ^ 10 + ω ^ 2) * x2 + (-ω ^ 19 + ω ^ 11 - ω ^ 3) * x3 + (-ω ^ 28 + ω ^ 20 - ω ^ 12 + ω ^ 4) * x4 + (-ω ^ 37 + ω ^ 29 - ω ^ 21 + ω ^ 13 - ω ^ 5) * x5 + (-ω ^ 46 + ω ^ 38 - ω ^ 30 + ω ^ 22 - ω ^ 14 + ω ^ 6) * x6 + (-ω ^ 55 + ω ^ 47 - ω ^ 39 + ω ^ 31 - ω ^ 23 + ω ^ 15 - ω ^ 7) * x7 + (-ω ^ 64 + ω ^ 56 - ω ^ 48 + ω ^ 40 - ω ^ 32 + ω ^ 24 - ω ^ 16 + ω ^ 8 - 1) * x8 + (-ω ^ 73 + ω ^ 65 - ω ^ 57 + ω ^ 49 - ω ^ 41 + ω ^ 33 - ω ^ 25 + ω ^ 17 - ω ^ 9 + ω) * x9 + (-ω ^ 82 + ω ^ 74 - ω ^ 66 + ω ^ 58 - ω ^ 50 + ω ^ 42 - ω ^ 34 + ω ^ 26 - ω ^ 18 + ω ^ 10 - ω ^ 2) * x10 + (-ω ^ 91 + ω ^ 83 - ω ^ 75 + ω ^ 67 - ω ^ 59 + ω ^ 51 - ω ^ 43 + ω ^ 35 - ω ^ 27 + ω ^ 19 - ω ^ 11 + ω ^ 3) * x11 + (-ω ^ 100 + ω ^ 92 - ω ^ 84 + ω ^ 76 - ω ^ 68 + ω ^ 60 - ω ^ 52 + ω ^ 44 - ω ^ 36 + ω ^ 28 - ω ^ 20 + ω ^ 12 - ω ^ 4) * x12 + (-ω ^ 109 + ω ^ 101 - ω ^ 93 + ω ^ 85 - ω ^ 77 + ω ^ 69 - ω ^ 61 + ω ^ 53 - ω ^ 45 + ω ^ 37 - ω ^ 29 + ω ^ 21 - ω ^ 13 + ω ^ 5) * x13 + (-ω ^ 118 + ω ^ 110 - ω ^ 102 + ω ^ 94 - ω ^ 86 + ω ^ 78 - ω ^ 70 + ω ^ 62 - ω ^ 54 + ω ^ 46 - ω ^ 38 + ω ^ 30 - ω ^ 22 + ω ^ 14 - ω ^ 6) * x14 + (-ω ^ 127 + ω ^ 119 - ω ^ 111 + ω ^ 103 - ω ^ 95 + ω ^ 87 - ω ^ 79 + ω ^ 71 - ω ^ 63 + ω ^ 55 - ω ^ 47 + ω ^ 39 - ω ^ 31 + ω ^ 23 - ω ^ 15 + ω ^ 7) * x15) * hneg
  have e10 : ((((x0 + (x8 * (ω ^ 8) ^ 0)) - ((x4 + (x12 * (ω ^ 8) ^ 0)) * (ω ^ 4) ^ 0)) + (((x2 + (x10 * (ω ^ 8) ^ 0)) - ((x6 + (x14 * (ω ^ 8) ^ 0)) * (ω ^ 4) ^ 0)) * (ω ^ 2) ^ 2)) - ((((x1 + (x9 * (ω ^ 8) ^ 0)) - ((x5 + (x13 * (ω ^ 8) ^ 0)) * (ω ^ 4) ^ 0)) + (((x3 + (x11 * (ω ^ 8) ^ 0)) - ((x7 + (x15 * (ω ^ 8) ^ 0)) * (ω ^ 4) ^ 0)) * (ω ^ 2) ^ 2)) * (ω ^ 1) ^ 2))
      = (x0 * ω ^ 0 + (x1 * ω ^ 10 + (x2 * ω ^ 20 + (x3 * ω ^ 30 + (x4 * ω ^ 40 + (x5 * ω ^ 50 + (x6 * ω ^ 60 + (x7 * ω ^ 70 + (x8 * ω ^ 80 + (x9 * ω ^ 90 + (x10 * ω ^ 100 + (x11 * ω ^ 110 + (x12 * ω ^ 120 + (x13 * ω ^ 130 + (x14 * ω ^ 140 + (x15 * ω ^ 150 + 0)))))))))))))))) := by
    linear_combination ((-ω ^ 2) * x1 + (-ω ^ 12 + ω ^ 4) * x2 + (-ω ^ 22 + ω ^ 14 - ω ^ 6) * x3 + (-ω ^ 32 + ω ^ 24 - ω ^ 16 + ω ^ 8 - 1) * x4 + (-ω ^ 42 + ω ^ 34 - ω ^ 26 + ω ^ 18 - ω ^ 10 + ω ^ 2) * x5 + (-ω ^ 52 + ω ^ 44 - ω ^ 36 + ω ^ 28 - ω ^ 20 + ω ^ 12 - ω ^ 4) * x6 + (-ω ^ 62 + ω ^ 54 - ω ^ 46 + ω ^ 38 - ω ^ 30 + ω ^ 22 - ω ^ 14 + ω ^ 6) * x7 + (-ω ^ 72 + ω ^ 64 - ω ^ 56 + ω ^ 48 - ω ^ 40 + ω ^ 32 - ω ^ 24 + ω ^ 16 - ω ^ 8 + 1) * x8 + (-ω ^ 82 + ω ^ 74 - ω ^ 66 + ω ^ 58 - ω ^ 50 + ω ^ 42 - ω ^ 34 + ω ^ 26 - ω ^ 18 + ω ^ 10 - ω ^ 2) * x9 + (-ω ^ 92 + ω ^ 84 - ω ^ 76 + ω ^ 68 - ω ^ 60 + ω ^ 52 - ω ^ 44 + ω ^ 36 - ω ^ 28 + ω ^ 20 - ω ^ 12 + ω ^ 4) * x10 + (-ω ^ 102 + ω ^ 94 - ω ^ 86 + ω ^ 78 - ω ^ 70 + ω ^ 62 - ω ^ 54 + ω ^ 46 - ω ^ 38 + ω ^ 30 - ω ^ 22 + ω ^ 14 - ω ^ 6) * x11 + (-ω ^ 112 + ω ^ 104 - ω ^ 96 + ω ^ 88 - ω ^ 80 + ω ^ 72 - ω ^ 64 + ω ^ 56 - ω ^ 48 + ω ^ 40 - ω ^ 32 + ω ^ 24 - ω ^ 16 + ω ^ 8 - 1) * x12 + (-ω ^ 122 + ω ^ 114 - ω ^ 106 + ω ^ 98 - ω ^ 90 + ω ^ 82 - ω ^ 74 + ω ^ 66 - ω ^ 58 + ω ^ 50 - ω ^ 42 + ω ^ 34 - ω ^ 26 + ω ^ 18 - ω ^ 10 + ω ^ 2) * x13 + (-ω ^ 132 + ω ^ 124 - ω ^ 116 + ω ^ 108 - ω ^ 100 + ω ^ 92 - ω ^ 84 + ω ^ 76 - ω ^ 68 + ω ^ 60 - ω ^ 52 + ω ^ 44 - ω ^ 36 + ω ^ 28 - ω ^ 20 + ω ^ 12 - ω ^ 4) * x14 + (-ω ^ 142 + ω ^ 134 - ω ^ 126 + ω ^ 118 - ω ^ 110 + ω ^ 102 - ω ^ 94 + ω ^ 86 - ω ^ 78 + ω ^ 70 - ω ^ 62 + ω ^ 54 - ω ^ 46 + ω ^ 38 - ω ^ 30 + ω ^ 22 - ω ^ 14 + ω ^ 6) * x15) * hneg
  have e11 : ((((x0 - (x8 * (ω ^ 8) ^ 0)) - ((x4 - (x12 * (ω ^ 8) ^ 0)) * (ω ^ 4) ^ 1)) + (((x2 - (x10 * (ω ^ 8) ^ 0)) - ((x6 - (x14 * (ω ^ 8) ^ 0)) * (ω ^ 4) ^ 1)) * (ω ^ 2) ^ 3)) - ((((x1 - (x9 * (ω ^ 8) ^ 0)) - ((x5 - (x13 * (ω ^ 8) ^ 0)) * (ω ^ 4) ^ 1)) + (((x3 - (x11 * (ω ^ 8) ^ 0)) - ((x7 - (x15 * (ω ^ 8) ^ 0)) * (ω ^ 4) ^ 1)) * (ω ^ 2) ^ 3)) * (ω ^ 1) ^ 3))
      = (x0 * ω ^ 0 + (x1 * ω ^ 11 + (x2 * ω ^ 22 + (x3 * ω ^ 33 + (x4 * ω ^ 44 + (x5 * ω ^ 55 + (x6 * ω ^ 66 + (x7 * ω ^ 77 + (x8 * ω ^ 88 + (x9 * ω ^ 99 + (x10 * ω ^ 110 + (x11 * ω ^ 121 + (x12 * ω ^ 132 + (x13 * ω ^ 143 + (x14 * ω ^ 154 + (x15 * ω ^ 165 + 0)))))))))))))))) := by
    linear_combination ((-ω ^ 3) * x1 + (-ω ^ 14 + ω ^ 6) * x2 + (-ω ^ 25 + ω ^ 17 - ω ^ 9) * x3 + (-ω ^ 36 + ω ^ 28 - ω ^ 20 + ω ^ 12 - ω ^ 4) * x4 + (-ω ^ 47 + ω ^ 39 - ω ^ 31 + ω ^ 23 - ω ^ 15 + ω ^ 7) * x5 + (-ω ^ 58 + ω ^ 50 - ω ^ 42 + ω ^ 34 - ω ^ 26 + ω ^ 18 - ω ^ 10) * x6 + (-ω ^ 69 + ω ^ 61 - ω ^ 53 + ω ^ 45 - ω ^ 37 + ω ^ 29 - ω ^ 21 + ω ^ 13) * x7 + (-ω ^ 80 + ω ^ 72 - ω ^ 64 + ω ^ 56 - ω ^ 48 + ω ^ 40 - ω ^ 32 + ω ^ 24 - ω ^ 16 + ω ^ 8 - 1) * x8 + (-ω ^ 91 + ω ^ 83 - ω ^ 75 + ω ^ 67 - ω ^ 59 + ω ^ 51 - ω ^ 43 + ω ^ 35 - ω ^ 27 + ω ^ 19 - ω ^ 11 + ω ^ 3) * x9 + (-ω ^ 102 + ω ^ 94 - ω ^ 86 + ω ^ 78 - ω ^ 70 + ω ^ 62 - ω ^ 54 + ω ^ 46 - ω ^ 38 + ω ^ 30 - ω ^ 22 + ω ^ 14 - ω ^ 6) * x10 + (-ω ^ 113 + ω ^ 105 - ω ^ 97 + ω ^ 89 - ω ^ 81 + ω ^ 73 - ω ^ 65 + ω ^ 57 - ω ^ 49 + ω ^ 41 - ω ^ 33 + ω ^ 25 - ω ^ 17 + ω ^ 9) * x11 + (-ω ^ 124 + ω ^ 116 - ω ^ 108 + ω ^ 100 - ω ^ 92 + ω ^ 84 - ω ^ 76 + ω ^ 68 - ω ^ 60 + ω ^ 52 - ω ^ 44 + ω ^ 36 - ω ^ 28 + ω ^ 20 - ω ^ 12 + ω ^ 4) * x12 + (-ω ^ 135 + ω ^ 127 - ω ^ 119 + ω ^ 111 - ω ^ 103 + ω ^ 95 - ω ^ 87 + ω ^ 79 - ω ^ 71 + ω ^ 63 - ω ^ 55 + ω ^ 47 - ω ^ 39 + ω ^ 31 - ω ^ 23 + ω ^ 15 - ω ^ 7) * x13 + (-ω ^ 146 + ω ^ 138 - ω ^ 130 + ω ^ 122 - ω ^ 114 + ω ^ 106 - ω ^ 98 + ω ^ 90 - ω ^ 82 + ω ^ 74 - ω ^ 66 + ω ^ 58 - ω ^ 50 + ω ^ 42 - ω ^ 34 + ω ^ 26 - ω ^ 18 + ω ^ 10) * x14 + (-ω ^ 157 + ω ^ 149 - ω ^ 141 + ω ^ 133 - ω ^ 125 + ω ^ 117 - ω ^ 109 + ω ^ 101 - ω ^ 93 + ω ^ 85 - ω ^ 77 + ω ^ 69 - ω ^ 61 + ω ^ 53 - ω ^ 45 + ω ^ 37 - ω ^ 29 + ω ^ 21 - ω ^ 13) * x15) * hneg
  have e12 : ((((x0 + (x8 * (ω ^ 8) ^ 0)) + ((x4 + (x12 * (ω ^ 8) ^ 0)) * (ω ^ 4) ^ 0)) - (((x2 + (x10 * (ω ^ 8) ^ 0)) + ((x6 + (x14 * (ω ^ 8) ^ 0)) * (ω ^ 4) ^ 0)) * (ω ^ 2) ^ 0)) - ((((x1 + (x9 * (ω ^ 8) ^ 0)) + ((x5 + (x13 * (ω ^ 8) ^ 0)) * (ω ^ 4) ^ 0)) - (((x3 + (x11 * (ω ^ 8) ^ 0)) + ((x7 + (x15 * (ω ^ 8) ^ 0)) * (ω ^ 4) ^ 0)) * (ω ^ 2) ^ 0)) * (ω ^ 1) ^ 4))
      = (x0 * ω ^ 0 + (x1 * ω ^ 12 + (x2 * ω ^ 24 + (x3 * ω ^ 36 + (x4 * ω ^ 48 + (x5 * ω ^ 60 + (x6 * ω ^ 72 + (x7 * ω ^ 84 + (x8 * ω ^ 96 + (x9 * ω ^ 108 + (x10 * ω ^ 120 + (x11 * ω ^ 132 + (x12 * ω ^ 144 + (x13 * ω ^ 156 + (x14 * ω ^ 168 + (x15 * ω ^ 180 + 0)))))))))))))))) := by
    linear_combination ((-ω ^ 4) * x1 + (-ω ^ 16 + ω ^ 8 - 1) * x2 + (-ω ^ 28 + ω ^ 20 - ω ^ 12 + ω ^ 4) * x3 + (-ω ^ 40 + ω ^ 32 - ω ^ 24 + ω ^ 16 - ω ^ 8 + 1) * x4 + (-ω ^ 52 + ω ^ 44 - ω ^ 36 + ω ^ 28 - ω ^ 20 + ω ^ 12 - ω ^ 4) * x5 + (-ω ^ 64 + ω ^ 56 - ω ^ 48 + ω ^ 40 - ω ^ 32 + ω ^ 24 - ω ^ 16 + ω ^ 8 - 1) * x6 + (-ω ^ 76 + ω ^ 68 - ω ^ 60 + ω ^ 52 - ω ^ 44 + ω ^ 36 - ω ^ 28 + ω ^ 20 - ω ^ 12 + ω ^ 4) * x7 + (-ω ^ 88 + ω ^ 80 - ω ^ 72 + ω ^ 64 - ω ^ 56 + ω ^ 48 - ω ^ 40 + ω ^ 32 - ω ^ 24 + ω ^ 16 - ω ^ 8 + 1) * x8 + (-ω ^ 100 + ω ^ 92 - ω ^ 84 + ω ^ 76 - ω ^ 68 + ω ^ 60 - ω ^ 52 + ω ^ 44 - ω ^ 36 + ω ^ 28 - ω ^ 20 + ω ^ 12 - ω ^ 4) * x9 + (-ω ^ 112 + ω ^ 104 - ω ^ 96 + ω ^ 88 - ω ^ 80 + ω ^ 72 - ω ^ 64 + ω ^ 56 - ω ^ 48 + ω ^ 40 - ω ^ 32 + ω ^ 24 - ω ^ 16 + ω ^ 8 - 1) * x10 + (-ω ^ 124 + ω ^ 116 - ω ^ 108 + ω ^ 100 - ω ^ 92 + ω ^ 84 - ω ^ 76 + ω ^ 68 - ω ^ 60 + ω ^ 52 - ω ^ 44 + ω ^ 36 - ω ^ 28 + ω ^ 20 - ω ^ 12 + ω ^ 4) * x11 + (-ω ^ 136 + ω ^ 128 - ω ^ 120 + ω ^ 112 - ω ^ 104 + ω ^ 96 - ω ^ 88 + ω ^ 80 - ω ^ 72 + ω ^ 64 - ω ^ 56 + ω ^ 48 - ω ^ 40 + ω ^ 32 - ω ^ 24 + ω ^ 16 - ω ^ 8 + 1) * x12 + (-ω ^ 148 + ω ^ 140 - ω ^ 132 + ω ^ 124 - ω ^ 116 + ω ^ 108 - ω ^ 100 + ω ^ 92 - ω ^ 84 + ω ^ 76 - ω ^ 68 + ω ^ 60 - ω ^ 52 + ω ^ 44 - ω ^ 36 + ω ^ 28 - ω ^ 20 + ω ^ 12 - ω ^ 4) * x13 + (-ω ^ 160 + ω ^ 152 - ω ^ 144 + ω ^ 136 - ω ^ 128 + ω ^ 120 - ω ^ 112 + ω ^ 104 - ω ^ 96 + ω ^ 88 - ω ^ 80 + ω ^ 72 - ω ^ 64 + ω ^ 56 - ω ^ 48 + ω ^ 40 - ω ^ 32 + ω ^ 24 - ω ^ 16 + ω ^ 8 - 1) * x14 + (-ω ^ 172 + ω ^ 164 - ω ^ 156 + ω ^ 148 - ω ^ 140 + ω ^ 132 - ω ^ 124 + ω ^ 116 - ω ^ 108 + ω ^ 100 - ω ^ 92 + ω ^ 84 - ω ^ 76 + ω ^ 68 - ω ^ 60 + ω ^ 52 - ω ^ 44 + ω ^ 36 - ω ^ 28 + ω ^ 20 - ω ^ 12 + ω ^ 4) * x15) * hneg
  have e13 : ((((x0 - (x8 * (ω ^ 8) ^ 0)) + ((x4 - (x12 * (ω ^ 8) ^ 0)) * (ω ^ 4) ^ 1)) - (((x2 - (x10 * (ω ^ 8) ^ 0)) + ((x6 - (x14 * (ω ^ 8) ^ 0)) * (ω ^ 4) ^ 1)) * (ω ^ 2) ^ 1)) - ((((x1 - (x9 * (ω ^ 8) ^ 0)) + ((x5 - (x13 * (ω ^ 8) ^ 0)) * (ω ^ 4) ^ 1)) - (((x3 - (x11 * (ω ^ 8) ^ 0)) + ((x7 - (x15 * (ω ^ 8) ^ 0)) * (ω ^ 4) ^ 1)) * (ω ^ 2) ^ 1)) * (ω ^ 1) ^ 5))
      = (x0 * ω ^ 0 + (x1 * ω ^ 13 + (x2 * ω ^ 26 + (x3 * ω ^ 39 + (x4 * ω ^ 52 + (x5 * ω ^ 65 + (x6 * ω ^ 78 + (x7 * ω ^ 91 + (x8 * ω ^ 104 + (x9 * ω ^ 117 + (x10 * ω ^ 130 + (x11 * ω ^ 143 + (x12 * ω ^ 156 + (x13 * ω ^ 169 + (x14 * ω ^ 182 + (x15 * ω ^ 195 + 0)))))))))))))))) := by
    linear_combination ((-ω ^ 5) * x1 + (-ω ^ 18 + ω ^ 10 - ω ^ 2) * x2 + (-ω ^ 31 + ω ^ 23 - ω ^ 15 + ω ^ 7) * x3 + (-ω ^ 44 + ω ^ 36 - ω ^ 28 + ω ^ 20 - ω ^ 12 + ω ^ 4) * x4 + (-ω ^ 57 + ω ^ 49 - ω ^ 41 + ω ^ 33 - ω ^ 25 + ω ^ 17 - ω ^ 9) * x5 + (-ω ^ 70 + ω ^ 62 - ω ^ 54 + ω ^ 46 - ω ^ 38 + ω ^ 30 - ω ^ 22 + ω ^ 14 - ω ^ 6) * x6 + (-ω ^ 83 + ω ^ 75 - ω ^ 67 + ω ^ 59 - ω ^ 51 + ω ^ 43 - ω ^ 35 + ω ^ 27 - ω ^ 19 + ω ^ 11) * x7 + (-ω ^ 96 + ω ^ 88 - ω ^ 80 + ω ^ 72 - ω ^ 64 + ω ^ 56 - ω ^ 48 + ω ^ 40 - ω ^ 32 + ω ^ 24 - ω ^ 16 + ω ^ 8 - 1) * x8 + (-ω ^ 109 + ω ^ 101 - ω ^ 93 + ω ^ 85 - ω ^ 77 + ω ^ 69 - ω ^ 61 + ω ^ 53 - ω ^ 45 + ω ^ 37 - ω ^ 29 + ω ^ 21 - ω ^ 13 + ω ^ 5) * x9 + (-ω ^ 122 + ω ^ 114 - ω ^ 106 + ω ^ 98 - ω ^ 90 + ω ^ 82 - ω ^ 74 + ω ^ 66 - ω ^ 58 + ω ^ 50 - ω ^ 42 + ω ^ 34 - ω ^ 26 + ω ^ 18 - ω ^ 10 + ω ^ 2) * x10 + (-ω ^ 135 + ω ^ 127 - ω ^ 119 + ω ^ 111 - ω ^ 103 + ω ^ 95 - ω ^ 87 + ω ^ 79 - ω ^ 71 + ω ^ 63 - ω ^ 55 + ω ^ 47 - ω ^ 39 + ω ^ 31 - ω ^ 23 + ω ^ 15 - ω ^ 7) * x11 + (-ω ^ 148 + ω ^ 140 - ω ^ 132 + ω ^ 124 - ω ^ 116 + ω ^ 108 - ω ^ 100 + ω ^ 92 - ω ^ 84 + ω ^ 76 - ω ^ 68 + ω ^ 60 - ω ^ 52 + ω ^ 44 - ω ^ 36 + ω ^ 28 - ω ^ 20 + ω ^ 12 - ω ^ 4) * x12 + (-ω ^ 161 + ω ^ 153 - ω ^ 145 + ω ^ 137 - ω ^ 129 + ω ^ 121 - ω ^ 113 + ω ^ 105 - ω ^ 97 + ω ^ 89 - ω ^ 81 + ω ^ 73 - ω ^ 65 + ω ^ 57 - ω ^ 49 + ω ^ 41 - ω ^ 33 + ω ^ 25 - ω ^ 17 + ω ^ 9) * x13 + (-ω ^ 174 + ω ^ 166 - ω ^ 158 + ω ^ 150 - ω ^ 142 + ω ^ 134 - ω ^ 126 + ω ^ 118 - ω ^ 110 + ω ^ 102 - ω ^ 94 + ω ^ 86 - ω ^ 78 + ω ^ 70 - ω ^ 62 + ω ^ 54 - ω ^ 46 + ω ^ 38 - ω ^ 30 + ω ^ 22 - ω ^ 14 + ω ^ 6) * x14 + (-ω ^ 187 + ω ^ 179 - ω ^ 171 + ω ^ 163 - ω ^ 155 + ω ^ 147 - ω ^ 139 + ω ^ 131 - ω ^ 123 + ω ^ 115 - ω ^ 107 + ω ^ 99 - ω ^ 91 + ω ^ 83 - ω ^ 75 + ω ^ 67 - ω ^ 59 + ω ^ 51 - ω ^ 43 + ω ^ 35 - ω ^ 27 + ω ^ 19 - ω ^ 11) * x15) * hneg
  have e14 : ((((x0 + (x8 * (ω ^ 8) ^ 0)) - ((x4 + (x12 * (ω ^ 8) ^ 0)) * (ω ^ 4) ^ 0)) - (((x2 + (x10 * (ω ^ 8) ^ 0)) - ((x6 + (x14 * (ω ^ 8) ^ 0)) * (ω ^ 4) ^ 0)) * (ω ^ 2) ^ 2)) - ((((x1 + (x9 * (ω ^ 8) ^ 0)) - ((x5 + (x13 * (ω ^ 8) ^ 0)) * (ω ^ 4) ^ 0)) - (((x3 + (x11 * (ω ^ 8) ^ 0)) - ((x7 + (x15 * (ω ^ 8) ^ 0)) * (ω ^ 4) ^ 0)) * (ω ^ 2) ^ 2)) * (ω ^ 1) ^ 6))
      = (x0 * ω ^ 0 + (x1 * ω ^ 14 + (x2 * ω ^ 28 + (x3 * ω ^ 42 + (x4 * ω ^ 56 + (x5 * ω ^ 70 + (x6 * ω ^ 84 + (x7 * ω ^ 98 + (x8 * ω ^ 112 + (x9 * ω ^ 126 + (x10 * ω ^ 140 + (x11 * ω ^ 154 + (x12 * ω ^ 168 + (x13 * ω ^ 182 + (x14 * ω ^ 196 + (x15 * ω ^ 210 + 0)))))))))))))))) := by
    linear_combination ((-ω ^ 6) * x1 + (-ω ^ 20 + ω ^ 12 - ω ^ 4) * x2 + (-ω ^ 34 + ω ^ 26 - ω ^ 18 + ω ^ 10) * x3 + (-ω ^ 48 + ω ^ 40 - ω ^ 32 + ω ^ 24 - ω ^ 16 + ω ^ 8 - 1) * x4 + (-ω ^ 62 + ω ^ 54 - ω ^ 46 + ω ^ 38 - ω ^ 30 + ω ^ 22 - ω ^ 14 + ω ^ 6) * x5 + (-ω ^ 76 + ω ^ 68 - ω ^ 60 + ω ^ 52 - ω ^ 44 + ω ^ 36 - ω ^ 28 + ω ^ 20 - ω ^ 12 + ω ^ 4) * x6 + (-ω ^ 90 + ω ^ 82 - ω ^ 74 + ω ^ 66 - ω ^ 58 + ω ^ 50 - ω ^ 42 + ω ^ 34 - ω ^ 26 + ω ^ 18 - ω ^ 10) * x7 + (-ω ^ 104 + ω ^ 96 - ω ^ 88 + ω ^ 80 - ω ^ 72 + ω ^ 64 - ω ^ 56 + ω ^ 48 - ω ^ 40 + ω ^ 32 - ω ^ 24 + ω ^ 16 - ω ^ 8 + 1) * x8 + (-ω ^ 118 + ω ^ 110 - ω ^ 102 + ω ^ 94 - ω ^ 86 + ω ^ 78 - ω ^ 70 + ω ^ 62 - ω ^ 54 + ω ^ 46 - ω ^ 38 + ω ^ 30 - ω ^ 22 + ω ^ 14 - ω ^ 6) * x9 + (-ω ^ 132 + ω ^ 124 - ω ^ 116 + ω ^ 108 - ω ^ 100 + ω ^ 92 - ω ^ 84 + ω ^ 76 - ω ^ 68 + ω ^ 60 - ω ^ 52 + ω ^ 44 - ω ^ 36 + ω ^ 28 - ω ^ 20 + ω ^ 12 - ω ^ 4) * x10 + (-ω ^ 146 + ω ^ 138 - ω ^ 130 + ω ^ 122 - ω ^ 114 + ω ^ 106 - ω ^ 98 + ω ^ 90 - ω ^ 82 + ω ^ 74 - ω ^ 66 + ω ^ 58 - ω ^ 50 + ω ^ 42 - ω ^ 34 + ω ^ 26 - ω ^ 18 + ω ^ 10) * x11 + (-ω ^ 160 + ω ^ 152 - ω ^ 144 + ω ^ 136 - ω ^ 128 + ω ^ 120 - ω ^ 112 + ω ^ 104 - ω ^ 96 + ω ^ 88 - ω ^ 80 + ω ^ 72 - ω ^ 64 + ω ^ 56 - ω ^ 48 + ω ^ 40 - ω ^ 32 + ω ^ 24 - ω ^ 16 + ω ^ 8 - 1) * x12 + (-ω ^ 174 + ω ^ 166 - ω ^ 158 + ω ^ 150 - ω ^ 142 + ω ^ 134 - ω ^ 126 + ω ^ 118 - ω ^ 110 + ω ^ 102 - ω ^ 94 + ω ^ 86 - ω ^ 78 + ω ^ 70 - ω ^ 62 + ω ^ 54 - ω ^ 46 + ω ^ 38 - ω ^ 30 + ω ^ 22 - ω ^ 14 + ω ^ 6) * x13 + (-ω ^ 188 + ω ^ 180 - ω ^ 172 + ω ^ 164 - ω ^ 156 + ω ^ 148 - ω ^ 140 + ω ^ 132 - ω ^ 124 + ω ^ 116 - ω ^ 108 + ω ^ 100 - ω ^ 92 + ω ^ 84 - ω ^ 76 + ω ^ 68 - ω ^ 60 + ω ^ 52 - ω ^ 44 + ω ^ 36 - ω ^ 28 + ω ^ 20 - ω ^ 12 + ω ^ 4) * x14 + (-ω ^ 202 + ω ^ 194 - ω ^ 186 + ω ^ 178 - ω ^ 170 + ω ^ 162 - ω ^ 154 + ω ^ 146 - ω ^ 138 + ω ^ 130 - ω ^ 122 + ω ^ 114 - ω ^ 106 + ω ^ 98 - ω ^ 90 + ω ^ 82 - ω ^ 74 + ω ^ 66 - ω ^ 58 + ω ^ 50 - ω ^ 42 + ω ^ 34 - ω ^ 26 + ω ^ 18 - ω ^ 10) * x15) * hneg
  have e15 : ((((x0 - (x8 * (ω ^ 8) ^ 0)) - ((x4 - (x12 * (ω ^ 8) ^ 0)) * (ω ^ 4) ^ 1)) - (((x2 - (x10 * (ω ^ 8) ^ 0)) - ((x6 - (x14 * (ω ^ 8) ^ 0)) * (ω ^ 4) ^ 1)) * (ω ^ 2) ^ 3)) - ((((x1 - (x9 * (ω ^ 8) ^ 0)) - ((x5 - (x13 * (ω ^ 8) ^ 0)) * (ω ^ 4) ^ 1)) - (((x3 - (x11 * (ω ^ 8) ^ 0)) - ((x7 - (x15 * (ω ^ 8) ^ 0)) * (ω ^ 4) ^ 1)) * (ω ^ 2) ^ 3)) * (ω ^ 1) ^ 7))
      = (x0 * ω ^ 0 + (x1 * ω ^ 15 + (x2 * ω ^ 30 + (x3 * ω ^ 45 + (x4 * ω ^ 60 + (x5 * ω ^ 75 + (x6 * ω ^ 90 + (x7 * ω ^ 105 + (x8 * ω ^ 120 + (x9 * ω ^ 135 + (x10 * ω ^ 150 + (x11 * ω ^ 165 + (x12 * ω ^ 180 + (x13 * ω ^ 195 + (x14 * ω ^ 210 + (x15 * ω ^ 225 + 0)))))))))))))))) := by
    linear_combination ((-ω ^ 7) * x1 + (-ω ^ 22 + ω ^ 14 - ω ^ 6) * x2 + (-ω ^ 37 + ω ^ 29 - ω ^ 21 + ω ^ 13) * x3 + (-ω ^ 52 + ω ^ 44 - ω ^ 36 + ω ^ 28 - ω ^ 20 + ω ^ 12 - ω ^ 4) * x4 + (-ω ^ 67 + ω ^ 59 - ω ^ 51 + ω ^ 43 - ω ^ 35 + ω ^ 27 - ω ^ 19 + ω ^ 11) * x5 + (-ω ^ 82 + ω ^ 74 - ω ^ 66 + ω ^ 58 - ω ^ 50 + ω ^ 42 - ω ^ 34 + ω ^ 26 - ω ^ 18 + ω ^ 10) * x6 + (-ω ^ 97 + ω ^ 89 - ω ^ 81 + ω ^ 73 - ω ^ 65 + ω ^ 57 - ω ^ 49 + ω ^ 41 - ω ^ 33 + ω ^ 25 - ω ^ 17) * x7 + (-ω ^ 112 + ω ^ 104 - ω ^ 96 + ω ^ 88 - ω ^ 80 + ω ^ 72 - ω ^ 64 + ω ^ 56 - ω ^ 48 + ω ^ 40 - ω ^ 32 + ω ^ 24 - ω ^ 16 + ω ^ 8 - 1) * x8 + (-ω ^ 127 + ω ^ 119 - ω ^ 111 + ω ^ 103 - ω ^ 95 + ω ^ 87 - ω ^ 79 + ω ^ 71 - ω ^ 63 + ω ^ 55 - ω ^ 47 + ω ^ 39 - ω ^ 31 + ω ^ 23 - ω ^ 15 + ω ^ 7) * x9 + (-ω ^ 142 + ω ^ 134 - ω ^ 126 + ω ^ 118 - ω ^ 110 + ω ^ 102 - ω ^ 94 + ω ^ 86 - ω ^ 78 + ω ^ 70 - ω ^ 62 + ω ^ 54 - ω ^ 46 + ω ^ 38 - ω ^ 30 + ω ^ 22 - ω ^ 14 + ω ^ 6) * x10 + (-ω ^ 157 + ω ^ 149 - ω ^ 141 + ω ^ 133 - ω ^ 125 + ω ^ 117 - ω ^ 109 + ω ^ 101 - ω ^ 93 + ω ^ 85 - ω ^ 77 + ω ^ 69 - ω ^ 61 + ω ^ 53 - ω ^ 45 + ω ^ 37 - ω ^ 29 + ω ^ 21 - ω ^ 13) * x11 + (-ω ^ 172 + ω ^ 164 - ω ^ 156 + ω ^ 148 - ω ^ 140 + ω ^ 132 - ω ^ 124 + ω ^ 116 - ω ^ 108 + ω ^ 100 - ω ^ 92 + ω ^ 84 - ω ^ 76 + ω ^ 68 - ω ^ 60 + ω ^ 52 - ω ^ 44 + ω ^ 36 - ω ^ 28 + ω ^ 20 - ω ^ 12 + ω ^ 4) * x12 + (-ω ^ 187 + ω ^ 179 - ω ^ 171 + ω ^ 163 - ω ^ 155 + ω ^ 147 - ω ^ 139 + ω ^ 131 - ω ^ 123 + ω ^ 115 - ω ^ 107 + ω ^ 99 - ω ^ 91 + ω ^ 83 - ω ^ 75 + ω ^ 67 - ω ^ 59 + ω ^ 51 - ω ^ 43 + ω ^ 35 - ω ^ 27 + ω ^ 19 - ω ^ 11) * x13 + (-ω ^ 202 + ω ^ 194 - ω ^ 186 + ω ^ 178 - ω ^ 170 + ω ^ 162 - ω ^ 154 + ω ^ 146 - ω ^ 138 + ω ^ 130 - ω ^ 122 + ω ^ 114 - ω ^ 106 + ω ^ 98 - ω ^ 90 + ω ^ 82 - ω ^ 74 + ω ^ 66 - ω ^ 58 + ω ^ 50 - ω ^ 42 + ω ^ 34 - ω ^ 26 + ω ^ 18 - ω ^ 10) * x14 + (-ω ^ 217 + ω ^ 209 - ω ^ 201 + ω ^ 193 - ω ^ 185 + ω ^ 177 - ω ^ 169 + ω ^ 161 - ω ^ 153 + ω ^ 145 - ω ^ 137 + ω ^ 129 - ω ^ 121 + ω ^ 113 - ω ^ 105 + ω ^ 97 - ω ^ 89 + ω ^ 81 - ω ^ 73 + ω ^ 65 - ω ^ 57 + ω ^ 49 - ω ^ 41 + ω ^ 33 - ω ^ 25 + ω ^ 17) * x15) * hneg
  have hD : nttSpec ω [x0, x1, x2, x3, x4, x5, x6, x7, x8, x9, x10, x11, x12, x13, x14, x15]
      = [(x0 * ω ^ 0 + (x1 * ω ^ 0 + (x2 * ω ^ 0 + (x3 * ω ^ 0 + (x4 * ω ^ 0 + (x5 * ω ^ 0 + (x6 * ω ^ 0 + (x7 * ω ^ 0 + (x8 * ω ^ 0 + (x9 * ω ^ 0 + (x10 * ω ^ 0 + (x11 * ω ^ 0 + (x12 * ω ^ 0 + (x13 * ω ^ 0 + (x14 * ω ^ 0 + (x15 * ω ^ 0 + 0)))))))))))))))),
      (x0 * ω ^ 0 + (x1 * ω ^ 1 + (x2 * ω ^ 2 + (x3 * ω ^ 3 + (x4 * ω ^ 4 + (x5 * ω ^ 5 + (x6 * ω ^ 6 + (x7 * ω ^ 7 + (x8 * ω ^ 8 + (x9 * ω ^ 9 + (x10 * ω ^ 10 + (x11 * ω ^ 11 + (x12 * ω ^ 12 + (x13 * ω ^ 13 + (x14 * ω ^ 14 + (x15 * ω ^ 15 + 0)))))))))))))))),
      (x0 * ω ^ 0 + (x1 * ω ^ 2 + (x2 * ω ^ 4 + (x3 * ω ^ 6 + (x4 * ω ^ 8 + (x5 * ω ^ 10 + (x6 * ω ^ 12 + (x7 * ω ^ 14 + (x8 * ω ^ 16 + (x9 * ω ^ 18 + (x10 * ω ^ 20 + (x11 * ω ^ 22 + (x12 * ω ^ 24 + (x13 * ω ^ 26 + (x14 * ω ^ 28 + (x15 * ω ^ 30 + 0)))))))))))))))),
      (x0 * ω ^ 0 + (x1 * ω ^ 3 + (x2 * ω ^ 6 + (x3 * ω ^ 9 + (x4 * ω ^ 12 + (x5 * ω ^ 15 + (x6 * ω ^ 18 + (x7 * ω ^ 21 + (x8 * ω ^ 24 + (x9 * ω ^ 27 + (x10 * ω ^ 30 + (x11 * ω ^ 33 + (x12 * ω ^ 36 + (x13 * ω ^ 39 + (x14 * ω ^ 42 + (x15 * ω ^ 45 + 0)))))))))))))))),
      (x0 * ω ^ 0 + (x1 * ω ^ 4 + (x2 * ω ^ 8 + (x3 * ω ^ 12 + (x4 * ω ^ 16 + (x5 * ω ^ 20 + (x6 * ω ^ 24 + (x7 * ω ^ 28 + (x8 * ω ^ 32 + (x9 * ω ^ 36 + (x10 * ω ^ 40 + (x11 * ω ^ 44 + (x12 * ω ^ 48 + (x13 * ω ^ 52 + (x14 * ω ^ 56 + (x15 * ω ^ 60 + 0)))))))))))))))),
      (x0 * ω ^ 0 + (x1 * ω ^ 5 + (x2 * ω ^ 10 + (x3 * ω ^ 15 + (x4 * ω ^ 20 + (x5 * ω ^ 25 + (x6 * ω ^ 30 + (x7 * ω ^ 35 + (x8 * ω ^ 40 + (x9 * ω ^ 45 + (x10 * ω ^ 50 + (x11 * ω ^ 55 + (x12 * ω ^ 60 + (x13 * ω ^ 65 + (x14 * ω ^ 70 + (x15 * ω ^ 75 + 0)))))))))))))))),
      (x0 * ω ^ 0 + (x1 * ω ^ 6 + (x2 * ω ^ 12 + (x3 * ω ^ 18 + (x4 * ω ^ 24 + (x5 * ω ^ 30 + (x6 * ω ^ 36 + (x7 * ω ^ 42 + (x8 * ω ^ 48 + (x9 * ω ^ 54 + (x10 * ω ^ 60 + (x11 * ω ^ 66 + (x12 * ω ^ 72 + (x13 * ω ^ 78 + (x14 * ω ^ 84 + (x15 * ω ^ 90 + 0)))))))))))))))),
      (x0 * ω ^ 0 + (x1 * ω ^ 7 + (x2 * ω ^ 14 + (x3 * ω ^ 21 + (x4 * ω ^ 28 + (x5 * ω ^ 35 + (x6 * ω ^ 42 + (x7 * ω ^ 49 + (x8 * ω ^ 56 + (x9 * ω ^ 63 + (x10 * ω ^ 70 + (x11 * ω ^ 77 + (x12 * ω ^ 84 + (x13 * ω ^ 91 + (x14 * ω ^ 98 + (x15 * ω ^ 105 + 0)))))))))))))))),
      (x0 * ω ^ 0 + (x1 * ω ^ 8 + (x2 * ω ^ 16 + (x3 * ω ^ 24 + (x4 * ω ^ 32 + (x5 * ω ^ 40 + (x6 * ω ^ 48 + (x7 * ω ^ 56 + (x8 * ω ^ 64 + (x9 * ω ^ 72 + (x10 * ω ^ 80 + (x11 * ω ^ 88 + (x12 * ω ^ 96 + (x13 * ω ^ 104 + (x14 * ω ^ 112 + (x15 * ω ^ 120 + 0)))))))))))))))),
      (x0 * ω ^ 0 + (x1 * ω ^ 9 + (x2 * ω ^ 18 + (x3 * ω ^ 27 + (x4 * ω ^ 36 + (x5 * ω ^ 45 + (x6 * ω ^ 54 + (x7 * ω ^ 63 + (x8 * ω ^ 72 + (x9 * ω ^ 81 + (x10 * ω ^ 90 + (x11 * ω ^ 99 + (x12 * ω ^ 108 + (x13 * ω ^ 117 + (x14 * ω ^ 126 + (x15 * ω ^ 135 + 0)))))))))))))))),
      (x0 * ω ^ 0 + (x1 * ω ^ 10 + (x2 * ω ^ 20 + (x3 * ω ^ 30 + (x4 * ω ^ 40 + (x5 * ω ^ 50 + (x6 * ω ^ 60 + (x7 * ω ^ 70 + (x8 * ω ^ 80 + (x9 * ω ^ 90 + (x10 * ω ^ 100 + (x11 * ω ^ 110 + (x12 * ω ^ 120 + (x13 * ω ^ 130 + (x14 * ω ^ 140 + (x15 * ω ^ 150 + 0)))))))))))))))),
      (x0 * ω ^ 0 + (x1 * ω ^ 11 + (x2 * ω ^ 22 + (x3 * ω ^ 33 + (x4 * ω ^ 44 + (x5 * ω ^ 55 + (x6 * ω ^ 66 + (x7 * ω ^ 77 + (x8 * ω ^ 88 + (x9 * ω ^ 99 + (x10 * ω ^ 110 + (x11 * ω ^ 121 + (x12 * ω ^ 132 + (x13 * ω ^ 143 + (x14 * ω ^ 154 + (x15 * ω ^ 165 + 0)))))))))))))))),
      (x0 * ω ^ 0 + (x1 * ω ^ 12 + (x2 * ω ^ 24 + (x3 * ω ^ 36 + (x4 * ω ^ 48 + (x5 * ω ^ 60 + (x6 * ω ^ 72 + (x7 * ω ^ 84 + (x8 * ω ^ 96 + (x9 * ω ^ 108 + (x10 * ω ^ 120 + (x11 * ω ^ 132 + (x12 * ω ^ 144 + (x13 * ω ^ 156 + (x14 * ω ^ 168 + (x15 * ω ^ 180 + 0)))))))))))))))),
      (x0 * ω ^ 0 + (x1 * ω ^ 13 + (x2 * ω ^ 26 + (x3 * ω ^ 39 + (x4 * ω ^ 52 + (x5 * ω ^ 65 + (x6 * ω ^ 78 + (x7 * ω ^ 91 + (x8 * ω ^ 104 + (x9 * ω ^ 117 + (x10 * ω ^ 130 + (x11 * ω ^ 143 + (x12 * ω ^ 156 + (x13 * ω ^ 169 + (x14 * ω ^ 182 + (x15 * ω ^ 195 + 0)))))))))))))))),
      (x0 * ω ^ 0 + (x1 * ω ^ 14 + (x2 * ω ^ 28 + (x3 * ω ^ 42 + (x4 * ω ^ 56 + (x5 * ω ^ 70 + (x6 * ω ^ 84 + (x7 * ω ^ 98 + (x8 * ω ^ 112 + (x9 * ω ^ 126 + (x10 * ω ^ 140 + (x11 * ω ^ 154 + (x12 * ω ^ 168 + (x13 * ω ^ 182 + (x14 * ω ^ 196 + (x15 * ω ^ 210 + 0)))))))))))))))),
      (x0 * ω ^ 0 + (x1 * ω ^ 15 + (x2 * ω ^ 30 + (x3 * ω ^ 45 + (x4 * ω ^ 60 + (x5 * ω ^ 75 + (x6 * ω ^ 90 + (x7 * ω ^ 105 + (x8 * ω ^ 120 + (x9 * ω ^ 135 + (x10 * ω ^ 150 + (x11 * ω ^ 165 + (x12 * ω ^ 180 + (x13 * ω ^ 195 + (x14 * ω ^ 210 + (x15 * ω ^ 225 + 0))))))))))))))))] := by
    unfold nttSpec
    rw [hlen16]
    rfl
  simp only [nttWithswap, show List.range 4 = [0, 1, 2, 3] from rfl,
    List.foldl_cons, List.foldl_nil, h0]
  rw [show (16 / (2 * 2 ^ 0) : ℕ) = 8 from rfl, show (16 / (2 * 2 ^ 1) : ℕ) = 4 from rfl,
    show (16 / (2 * 2 ^ 2) : ℕ) = 2 from rfl, show (16 / (2 * 2 ^ 3) : ℕ) = 1 from rfl]
  rw [hs1 (ω ^ 8) x0 x8 x4 x12 x2 x10 x6 x14 x1 x9 x5 x13 x3 x11 x7 x15]
  rw [hs2 (ω ^ 4)
    (x0 + (x8 * (ω ^ 8) ^ 0))
    (x0 - (x8 * (ω ^ 8) ^ 0))
    (x4 + (x12 * (ω ^ 8) ^ 0))
    (x4 - (x12 * (ω ^ 8) ^ 0))
    (x2 + (x10 * (ω ^ 8) ^ 0))
    (x2 - (x10 * (ω ^ 8) ^ 0))
    (x6 + (x14 * (ω ^ 8) ^ 0))
    (x6 - (x14 * (ω ^ 8) ^ 0))
    (x1 + (x9 * (ω ^ 8) ^ 0))
    (x1 - (x9 * (ω ^ 8) ^ 0))
    (x5 + (x13 * (ω ^ 8) ^ 0))
    (x5 - (x13 * (ω ^ 8) ^ 0))
    (x3 + (x11 * (ω ^ 8) ^ 0))
    (x3 - (x11 * (ω ^ 8) ^ 0))
    (x7 + (x15 * (ω ^ 8) ^ 0))
    (x7 - (x15 * (ω ^ 8) ^ 0))]
  rw [hs3 (ω ^ 2)
    ((x0 + (x8 * (ω ^ 8) ^ 0)) + ((x4 + (x12 * (ω ^ 8) ^ 0)) * (ω ^ 4) ^ 0))
    ((x0 - (x8 * (ω ^ 8) ^ 0)) + ((x4 - (x12 * (ω ^ 8) ^ 0)) * (ω ^ 4) ^ 1))
    ((x0 + (x8 * (ω ^ 8) ^ 0)) - ((x4 + (x12 * (ω ^ 8) ^ 0)) * (ω ^ 4) ^ 0))
    ((x0 - (x8 * (ω ^ 8) ^ 0)) - ((x4 - (x12 * (ω ^ 8) ^ 0)) * (ω ^ 4) ^ 1))
    ((x2 + (x10 * (ω ^ 8) ^ 0)) + ((x6 + (x14 * (ω ^ 8) ^ 0)) * (ω ^ 4) ^ 0))
    ((x2 - (x10 * (ω ^ 8) ^ 0)) + ((x6 - (x14 * (ω ^ 8) ^ 0)) * (ω ^ 4) ^ 1))
    ((x2 + (x10 * (ω ^ 8) ^ 0)) - ((x6 + (x14 * (ω ^ 8) ^ 0)) * (ω ^ 4) ^ 0))
    ((x2 - (x10 * (ω ^ 8) ^ 0)) - ((x6 - (x14 * (ω ^ 8) ^ 0)) * (ω ^ 4) ^ 1))
    ((x1 + (x9 * (ω ^ 8) ^ 0)) + ((x5 + (x13 * (ω ^ 8) ^ 0)) * (ω ^ 4) ^ 0))
    ((x1 - (x9 * (ω ^ 8) ^ 0)) + ((x5 - (x13 * (ω ^ 8) ^ 0)) * (ω ^ 4) ^ 1))
    ((x1 + (x9 * (ω ^ 8) ^ 0)) - ((x5 + (x13 * (ω ^ 8) ^ 0)) * (ω ^ 4) ^ 0))
    ((x1 - (x9 * (ω ^ 8) ^ 0)) - ((x5 - (x13 * (ω ^ 8) ^ 0)) * (ω ^ 4) ^ 1))
    ((x3 + (x11 * (ω ^ 8) ^ 0)) + ((x7 + (x15 * (ω ^ 8) ^ 0)) * (ω ^ 4) ^ 0))
    ((x3 - (x11 * (ω ^ 8) ^ 0)) + ((x7 - (x15 * (ω ^ 8) ^ 0)) * (ω ^ 4) ^ 1))
    ((x3 + (x11 * (ω ^ 8) ^ 0)) - ((x7 + (x15 * (ω ^ 8) ^ 0)) * (ω ^ 4) ^ 0))
    ((x3 - (x11 * (ω ^ 8) ^ 0)) - ((x7 - (x15 * (ω ^ 8) ^ 0)) * (ω ^ 4) ^ 1))]
  rw [hs4 (ω ^ 1)
    (((x0 + (x8 * (ω ^ 8) ^ 0)) + ((x4 + (x12 * (ω ^ 8) ^ 0)) * (ω ^ 4) ^ 0)) + (((x2 + (x10 * (ω ^ 8) ^ 0)) + ((x6 + (x14 * (ω ^ 8) ^ 0)) * (ω ^ 4) ^ 0)) * (ω ^ 2) ^ 0))
    (((x0 - (x8 * (ω ^ 8) ^ 0)) + ((x4 - (x12 * (ω ^ 8) ^ 0)) * (ω ^ 4) ^ 1)) + (((x2 - (x10 * (ω ^ 8) ^ 0)) + ((x6 - (x14 * (ω ^ 8) ^ 0)) * (ω ^ 4) ^ 1)) * (ω ^ 2) ^ 1))
    (((x0 + (x8 * (ω ^ 8) ^ 0)) - ((x4 + (x12 * (ω ^ 8) ^ 0)) * (ω ^ 4) ^ 0)) + (((x2 + (x10 * (ω ^ 8) ^ 0)) - ((x6 + (x14 * (ω ^ 8) ^ 0)) * (ω ^ 4) ^ 0)) * (ω ^ 2) ^ 2))
    (((x0 - (x8 * (ω ^ 8) ^ 0)) - ((x4 - (x12 * (ω ^ 8) ^ 0)) * (ω ^ 4) ^ 1)) + (((x2 - (x10 * (ω ^ 8) ^ 0)) - ((x6 - (x14 * (ω ^ 8) ^ 0)) * (ω ^ 4) ^ 1)) * (ω ^ 2) ^ 3))
    (((x0 + (x8 * (ω ^ 8) ^ 0)) + ((x4 + (x12 * (ω ^ 8) ^ 0)) * (ω ^ 4) ^ 0)) - (((x2 + (x10 * (ω ^ 8) ^ 0)) + ((x6 + (x14 * (ω ^ 8) ^ 0)) * (ω ^ 4) ^ 0)) * (ω ^ 2) ^ 0))
    (((x0 - (x8 * (ω ^ 8) ^ 0)) + ((x4 - (x12 * (ω ^ 8) ^ 0)) * (ω ^ 4) ^ 1)) - (((x2 - (x10 * (ω ^ 8) ^ 0)) + ((x6 - (x14 * (ω ^ 8) ^ 0)) * (ω ^ 4) ^ 1)) * (ω ^ 2) ^ 1))
    (((x0 + (x8 * (ω ^ 8) ^ 0)) - ((x4 + (x12 * (ω ^ 8) ^ 0)) * (ω ^ 4) ^ 0)) - (((x2 + (x10 * (ω ^ 8) ^ 0)) - ((x6 + (x14 * (ω ^ 8) ^ 0)) * (ω ^ 4) ^ 0)) * (ω ^ 2) ^ 2))
    (((x0 - (x8 * (ω ^ 8) ^ 0)) - ((x4 - (x12 * (ω ^ 8) ^ 0)) * (ω ^ 4) ^ 1)) - (((x2 - (x10 * (ω ^ 8) ^ 0)) - ((x6 - (x14 * (ω ^ 8) ^ 0)) * (ω ^ 4) ^ 1)) * (ω ^ 2) ^ 3))
    (((x1 + (x9 * (ω ^ 8) ^ 0)) + ((x5 + (x13 * (ω ^ 8) ^ 0)) * (ω ^ 4) ^ 0)) + (((x3 + (x11 * (ω ^ 8) ^ 0)) + ((x7 + (x15 * (ω ^ 8) ^ 0)) * (ω ^ 4) ^ 0)) * (ω ^ 2) ^ 0))
    (((x1 - (x9 * (ω ^ 8) ^ 0)) + ((x5 - (x13 * (ω ^ 8) ^ 0)) * (ω ^ 4) ^ 1)) + (((x3 - (x11 * (ω ^ 8) ^ 0)) + ((x7 - (x15 * (ω ^ 8) ^ 0)) * (ω ^ 4) ^ 1)) * (ω ^ 2) ^ 1))
    (((x1 + (x9 * (ω ^ 8) ^ 0)) - ((x5 + (x13 * (ω ^ 8) ^ 0)) * (ω ^ 4) ^ 0)) + (((x3 + (x11 * (ω ^ 8) ^ 0)) - ((x7 + (x15 * (ω ^ 8) ^ 0)) * (ω ^ 4) ^ 0)) * (ω ^ 2) ^ 2))
    (((x1 - (x9 * (ω ^ 8) ^ 0)) - ((x5 - (x13 * (ω ^ 8) ^ 0)) * (ω ^ 4) ^ 1)) + (((x3 - (x11 * (ω ^ 8) ^ 0)) - ((x7 - (x15 * (ω ^ 8) ^ 0)) * (ω ^ 4) ^ 1)) * (ω ^ 2) ^ 3))
    (((x1 + (x9 * (ω ^ 8) ^ 0)) + ((x5 + (x13 * (ω ^ 8) ^ 0)) * (ω ^ 4) ^ 0)) - (((x3 + (x11 * (ω ^ 8) ^ 0)) + ((x7 + (x15 * (ω ^ 8) ^ 0)) * (ω ^ 4) ^ 0)) * (ω ^ 2) ^ 0))
    (((x1 - (x9 * (ω ^ 8) ^ 0)) + ((x5 - (x13 * (ω ^ 8) ^ 0)) * (ω ^ 4) ^ 1)) - (((x3 - (x11 * (ω ^ 8) ^ 0)) + ((x7 - (x15 * (ω ^ 8) ^ 0)) * (ω ^ 4) ^ 1)) * (ω ^ 2) ^ 1))
    (((x1 + (x9 * (ω ^ 8) ^ 0)) - ((x5 + (x13 * (ω ^ 8) ^ 0)) * (ω ^ 4) ^ 0)) - (((x3 + (x11 * (ω ^ 8) ^ 0)) - ((x7 + (x15 * (ω ^ 8) ^ 0)) * (ω ^ 4) ^ 0)) * (ω ^ 2) ^ 2))
    (((x1 - (x9 * (ω ^ 8) ^ 0)) - ((x5 - (x13 * (ω ^ 8) ^ 0)) * (ω ^ 4) ^ 1)) - (((x3 - (x11 * (ω ^ 8) ^ 0)) - ((x7 - (x15 * (ω ^ 8) ^ 0)) * (ω ^ 4) ^ 1)) * (ω ^ 2) ^ 3))]
  rw [e0]
  rw [e1]
  rw [e2]
  rw [e3]
  rw [e4]
  rw [e5]
  rw [e6]
  rw [e7]
  rw [e8]
  rw [e9]
  rw [e10]
  rw [e11]
  rw [e12]
  rw [e13]
  rw [e14]
  rw [e15]
  rw [hD]

/-- On every 16-element state, `mds_ntt` computes the `mds_schoolbook`
result, for any primitive 16-th root of unity `ω`. -/
theorem mdsNtt_eq (ω : Fp) (state : List Fp) (h16 : ω ^ 16 = 1) (h8 : ω ^ 8 ≠ 1)
    (hlen : state.length = 16) :
    mdsNtt ω state = mdsSchoolbook state := by
  have hneg : ω ^ 8 + 1 = 0 := by
    rw [pow_eight_neg_one ω h16 h8]
    ring
  have hprim := pow_sixteen_primitive ω h16 h8
  have hmds : nttWithswap ω 4 mds = nttSpec ω mds := by
    rw [show (mds) = [256, 8192, 2, 1024, 1, 268436456, 1, 4194304, 524288, 16, 8, 128,
      16777216, 2048, 1073741824, 2] from rfl]
    exact nttWithswap_eq_dft ω 256 8192 2 1024 1 268436456 1 4194304 524288 16 8 128
      16777216 2048 1073741824 2 hneg
  rw [mdsNtt, hmds, dft16_mul ω h16 state mds hlen rfl]
  have hclen : ((List.range 16).map fun r =>
      (∑ i ∈ Finset.range 16, state.getD i 0 * mds.getD ((16 + r - i) % 16) 0 : Fp)).length
      = 16 := by
    rw [List.length_map, List.length_range]
  have hsblen : (mdsSchoolbook state).length = 16 := by
    rw [mdsSchoolbook, mulState, List.length_map, List.length_map, List.length_range]
  apply list_ext_getD
  · rw [nttSpec_length, nttSpec_length, hclen, hsblen]
  · intro n
    by_cases hn : n < 16
    · rw [dft_dft_getD ω 16 (by omega) h16 hprim _ hclen n hn]
      rw [getD_map_range, if_pos hn, conv_eq_mdsArray state hlen n hn]
      rw [mdsSchoolbook, mulState, List.map_map, getD_map_range, if_pos hn]
      simp only [Function.comp]
      push_cast
      ring
    · rw [getD_eq_zero_of_length_le _ n
          (by rw [nttSpec_length, nttSpec_length, hclen]; omega),
        getD_eq_zero_of_length_le _ n (by rw [hsblen]; omega)]

/-- C4, counterexample: on the all-zero state the three implementations do
not agree — `mds_polynomial` panics (the remainder of `0 / (x^16 - 1)` has no
coefficients, so the 16-wide slice `&coeffs[..16]` is out of bounds) while
`mds_schoolbook` returns the all-zero state. -/
theorem C4_counterexample :
    mdsPolynomial (List.replicate 16 (0 : Fp)) = none ∧
    mdsSchoolbook (List.replicate 16 (0 : Fp)) = List.replicate 16 (0 : Fp) := by
  constructor
  · decide
  · decide

/-- C4 (amended): for every 16-element state and any `ω` with the defining
property of `primitive_root_of_unity(16)` (namely `ω^16 = 1` and `ω^8 ≠ 1`;
`b_field_element.rs` is not among the sources), `mds_ntt` and
`mds_schoolbook` produce identical results; `mds_polynomial` produces that
same result on every nonzero state but panics on the all-zero state. -/
theorem C4_mds_equivalence (ω : Fp) (state : List Fp)
    (h16 : ω ^ 16 = 1) (h8 : ω ^ 8 ≠ 1) (hlen : state.length = 16) :
    mdsNtt ω state = mdsSchoolbook state ∧
    (isZero state = false → mdsPolynomial state = some (mdsSchoolbook state)) ∧
    (isZero state = true → mdsPolynomial state = none) :=
  ⟨mdsNtt_eq ω state h16 h8 hlen,
   fun hnz => mdsPolynomial_some state hlen hnz,
   fun hz => mdsPolynomial_none state hz⟩

/-- C4, witness: the state `(1, 2, …, 16)` and `ω = 4096 = 2^12` (for which
`ω^8 = 2^96 = -1` in the Goldilocks field). -/
theorem C4_witness :
    ((4096 : Fp) ^ 16 = 1 ∧ (4096 : Fp) ^ 8 ≠ 1 ∧
      ([1, 2, 3, 4, 5, 6, 7, 8, 9, 10, 11, 12, 13, 14, 15, 16] : List Fp).length = 16) ∧
    (mdsNtt 4096 [1, 2, 3, 4, 5, 6, 7, 8, 9, 10, 11, 12, 13, 14, 15, 16]
        = mdsSchoolbook [1, 2, 3, 4, 5, 6, 7, 8, 9, 10, 11, 12, 13, 14, 15, 16] ∧
      (isZero ([1, 2, 3, 4, 5, 6, 7, 8, 9, 10, 11, 12, 13, 14, 15, 16] : List Fp) = false →
        mdsPolynomial [1, 2, 3, 4, 5, 6, 7, 8, 9, 10, 11, 12, 13, 14, 15, 16]
          = some (mdsSchoolbook [1, 2, 3, 4, 5, 6, 7, 8, 9, 10, 11, 12, 13, 14, 15, 16])) ∧
      (isZero ([1, 2, 3, 4, 5, 6, 7, 8, 9, 10, 11, 12, 13, 14, 15, 16] : List Fp) = true →
        mdsPolynomial [1, 2, 3, 4, 5, 6, 7, 8, 9, 10, 11, 12, 13, 14, 15, 16] = none)) :=
  ⟨⟨by decide, by decide, by decide⟩,
   C4_mds_equivalence 4096 [1, 2, 3, 4, 5, 6, 7, 8, 9, 10, 11, 12, 13, 14, 15, 16]
     (by decide) (by decide) (by decide)⟩


/-! ## `Polynomial::lagrange_interpolate` (polynomial.rs:200-262) and
`Polynomial::fast_interpolate` (polynomial.rs:690-761) -/

/-- `Add for Polynomial` (polynomial.rs:1066): pointwise sum via
`zip_longest`. -/
def polyAdd (a b : List F) : List F :=
  (List.range (max a.length b.length)).map fun i =>
    if i < a.length then
      (if i < b.length then a.getD i 0 + b.getD i 0 else a.getD i 0)
    else b.getD i 0

/-- The inner zerofier loop of `lagrange_interpolate` (polynomial.rs:221-223):
`arr[k] = arr[k-1] - d·arr[k]` for `k = numCoeffs, …, 1` in descending
order. -/
def zerofierInnerRec (d : F) : ℕ → List F → List F
  | 0, arr => arr
  | k + 1, arr =>
      zerofierInnerRec d k (arr.set (k + 1) (arr.getD k 0 - d * arr.getD (k + 1) 0))

/-- The zerofier accumulation loop of `lagrange_interpolate`
(polynomial.rs:217-226), producing the coefficient vector of
`∏ (X - d_i)` in an array of length `n + 1`. -/
def zerofierFold (domain : List F) (n : ℕ) : List F :=
  (domain.foldl
    (fun st dd =>
      ((zerofierInnerRec dd st.2 st.1).set 0
          (-dd * (zerofierInnerRec dd st.2 st.1).getD 0 0), st.2 + 1))
    ((List.replicate (n + 1) (0 : F)).set 0 1, 1)).1

/-- The synthetic-division loop of `lagrange_interpolate`
(polynomial.rs:236-244): divide `(X - x)` out of the zerofier, writing the
quotient coefficients from the top into the summand array.  (At `k = 0` the
Rust skips the trailing update of `supporting_coefficient`; the value passed
here is never read.) -/
def summandRec (x : F) (zf : List F) : ℕ → List F → F → F → List F
  | 0, s, _, _ => s
  | k + 1, s, lc, sc =>
      summandRec x zf k (s.set k lc) (sc + lc * x) (zf.getD (k - 1) 0)

/-- One summand-array computation (polynomial.rs:236-244, with the initial
leading/supporting coefficients from the top of the zerofier array). -/
def summandArray (x : F) (zf : List F) (n : ℕ) (prev : List F) : List F :=
  summandRec x zf n prev (zf.getD n 0) (zf.getD (n - 1) 0)

/-- The Horner loop computing `summand_eval` (polynomial.rs:248-251). -/
def summandEval (x : F) (s : List F) : F :=
  s.reverse.foldl (fun acc c => acc * x + c) 0

/-- The accumulation loop of `lagrange_interpolate` (polynomial.rs:255-257):
`lagrange_sum_array[j] += c·summand_array[j]`. -/
def lagrangeAccum (c : F) (s : List F) (n : ℕ) (acc : List F) : List F :=
  (List.range n).foldl (fun a j => a.set j (a.getD j 0 + c * s.getD j 0)) acc

/-- `Polynomial::lagrange_interpolate` (polynomial.rs:200): `none` models the
panics of the two entry assertions (length mismatch, empty domain).  The
loop state is the pair (lagrange sum array, reused summand buffer). -/
def lagrangeInterpolate (domain values : List F) : Option (List F) :=
  if domain.length ≠ values.length ∨ domain = [] then none
  else
    some ((List.range values.length).foldl
      (fun st i =>
        (lagrangeAccum
          (values.getD i 0 /
            summandEval (domain.getD i 0)
              (summandArray (domain.getD i 0) (zerofierFold domain domain.length)
                domain.length st.2))
          (summandArray (domain.getD i 0) (zerofierFold domain domain.length)
            domain.length st.2)
          domain.length st.1,
         summandArray (domain.getD i 0) (zerofierFold domain domain.length)
           domain.length st.2))
      (List.replicate domain.length 0, List.replicate domain.length 0)).1

/-- The order/root halving loop of `Polynomial::fast_multiply`
(polynomial.rs:580-583). -/
def fastMultiplyRoot (root : F) (order deg : ℕ) : F × ℕ :=
  if deg < order / 2 then fastMultiplyRoot (root * root) (order / 2) deg
  else (root, order)
termination_by order
decreasing_by
  rename_i h
  omega

/-- `Polynomial::fast_multiply` (polynomial.rs:551): zero short-circuit,
schoolbook product below degree 8, otherwise pad both factors to the halved
order, transform (the external `ntt`/`intt` of ntt.rs are spec-modelled as
`nttSpec`/`inttSpec`; their `log_2` size arguments are determined by the
buffer lengths), multiply pointwise (right factor first, as in the source),
transform back and truncate to `degree + 1` coefficients.  The entry
assertions about the supplied root are guaranteed by the hypotheses of every
theorem below. -/
def fastMultiply (a b : List F) (ω : F) (order : ℕ) : List F :=
  if isZero a ∨ isZero b then []
  else if (degreeRaw a).toNat + (degreeRaw b).toNat < 8 then multiply a b
  else
    (inttSpec (fastMultiplyRoot ω order ((degreeRaw a).toNat + (degreeRaw b).toNat)).1
      (List.zipWith (fun r l => r * l)
        (b.take ((degreeRaw b).toNat + 1) ++
          List.replicate
            ((fastMultiplyRoot ω order ((degreeRaw a).toNat + (degreeRaw b).toNat)).2
              - ((degreeRaw b).toNat + 1)) 0
          |> nttSpec (fastMultiplyRoot ω order ((degreeRaw a).toNat + (degreeRaw b).toNat)).1)
        (a.take ((degreeRaw a).toNat + 1) ++
          List.replicate
            ((fastMultiplyRoot ω order ((degreeRaw a).toNat + (degreeRaw b).toNat)).2
              - ((degreeRaw a).toNat + 1)) 0
          |> nttSpec (fastMultiplyRoot ω order ((degreeRaw a).toNat + (degreeRaw b).toNat)).1))).take
      ((degreeRaw a).toNat + (degreeRaw b).toNat + 1)

/-- `Polynomial::fast_zerofier` (polynomial.rs:615): recursive split with
`fast_multiply` at the join (the `debug_assert` checks are compiled out). -/
def fastZerofier (domain : List F) (ω : F) (order : ℕ) : List F :=
  if domain.length = 0 then []
  else if domain.length = 1 then [-(domain.getD 0 0), 1]
  else
    fastMultiply (fastZerofier (domain.take (domain.length / 2)) ω order)
      (fastZerofier (domain.drop (domain.length / 2)) ω order) ω order
termination_by domain.length
decreasing_by
  all_goals simp only [List.length_take, List.length_drop]
  all_goals rename_i h1 h2
  all_goals omega

/-- `Polynomial::fast_evaluate` (polynomial.rs:656): recursive split, taking
each half modulo the corresponding zerofier; `none` propagates the panic of
`divide` (never reached for nonempty halves, whose zerofiers are monic). -/
def fastEvaluate (p domain : List F) (ω : F) (order : ℕ) : Option (List F) :=
  if domain.length = 0 then some []
  else if domain.length = 1 then some [evaluate p (domain.getD 0 0)]
  else
    (divide p (fastZerofier (domain.take (domain.length / 2)) ω order)).bind fun lqr =>
      (divide p (fastZerofier (domain.drop (domain.length / 2)) ω order)).bind fun rqr =>
        (fastEvaluate lqr.2 (domain.take (domain.length / 2)) ω order).bind fun lv =>
          (fastEvaluate rqr.2 (domain.drop (domain.length / 2)) ω order).bind fun rv =>
            some (lv ++ rv)
termination_by domain.length
decreasing_by
  all_goals simp only [List.length_take, List.length_drop]
  all_goals rename_i h1 h2
  all_goals omega

/-- `Polynomial::fast_interpolate` (polynomial.rs:690): `none` models the
panics of the entry assertions (length mismatch, empty domain) and of the
propagated `divide` calls. -/
def fastInterpolate (domain values : List F) (ω : F) (order : ℕ) : Option (List F) :=
  if domain.length ≠ values.length then none
  else if domain.length = 0 then none
  else if domain.length = 1 then some [values.getD 0 0]
  else
    (fastEvaluate (fastZerofier (domain.drop (domain.length / 2)) ω order)
        (domain.take (domain.length / 2)) ω order).bind fun lo =>
      (fastEvaluate (fastZerofier (domain.take (domain.length / 2)) ω order)
          (domain.drop (domain.length / 2)) ω order).bind fun ro =>
        (fastInterpolate (domain.take (domain.length / 2))
            (List.zipWith (fun nn dd => nn / dd) (values.take (domain.length / 2)) lo)
            ω order).bind fun li =>
          (fastInterpolate (domain.drop (domain.length / 2))
              (List.zipWith (fun nn dd => nn / dd) (values.drop (domain.length / 2)) ro)
              ω order).bind fun ri =>
            some (polyAdd
              (fastMultiply li (fastZerofier (domain.drop (domain.length / 2)) ω order) ω order)
              (fastMultiply ri (fastZerofier (domain.take (domain.length / 2)) ω order) ω order))
termination_by domain.length
decreasing_by
  all_goals simp only [List.length_take, List.length_drop]
  all_goals rename_i h1 h2 h3
  all_goals omega

theorem evaluate_toPoly (l : List F) (x : F) : evaluate l x = (toPoly l).eval x := by
  induction l with
  | nil =>
      rw [toPoly_nil]
      simp [evaluate]
  | cons c t ih =>
      have hstep : evaluate (c :: t) x = c + x * evaluate t x := rfl
      rw [hstep, toPoly_cons, Polynomial.eval_add, Polynomial.eval_C, Polynomial.eval_mul,
        Polynomial.eval_X, ih]

theorem summandEval_evaluate (x : F) (s : List F) : summandEval x s = evaluate s x := by
  rw [summandEval, List.foldl_reverse]
  induction s with
  | nil => rfl
  | cons c t ih =>
      have h1 : (c :: t).foldr (fun c acc => acc * x + c) 0
          = (t.foldr (fun c acc => acc * x + c) 0) * x + c := rfl
      have h2 : evaluate (c :: t) x = c + x * evaluate t x := rfl
      rw [h1, h2, ih]
      ring

theorem polyAdd_getD (a b : List F) (t : ℕ) :
    (polyAdd a b).getD t 0 = a.getD t 0 + b.getD t 0 := by
  rw [polyAdd, getD_map_range]
  by_cases ht : t < max a.length b.length
  · rw [if_pos ht]
    by_cases ha : t < a.length
    · rw [if_pos ha]
      by_cases hb : t < b.length
      · rw [if_pos hb]
      · rw [if_neg hb, getD_eq_zero_of_length_le b t (by omega), add_zero]
    · rw [if_neg ha, getD_eq_zero_of_length_le a t (by omega), zero_add]
  · rw [if_neg ht, getD_eq_zero_of_length_le a t (by omega),
      getD_eq_zero_of_length_le b t (by omega), add_zero]

theorem toPoly_polyAdd (a b : List F) : toPoly (polyAdd a b) = toPoly a + toPoly b := by
  apply Polynomial.ext
  intro n
  rw [Polynomial.coeff_add, toPoly_coeff, toPoly_coeff, toPoly_coeff, polyAdd_getD]

theorem polyAdd_length (a b : List F) :
    (polyAdd a b).length = max a.length b.length := by
  rw [polyAdd, List.length_map, List.length_range]

theorem toPoly_append (a b : List F) :
    toPoly (a ++ b) = toPoly a + toPoly b * Polynomial.X ^ a.length := by
  apply Polynomial.ext
  intro n
  rw [Polynomial.coeff_add, toPoly_coeff, toPoly_coeff, Polynomial.coeff_mul_X_pow',
    getD_append_zero, toPoly_coeff]
  by_cases h : n < a.length
  · rw [if_pos h, if_neg (by omega), add_zero]
  · rw [if_neg h, if_pos (by omega), getD_eq_zero_of_length_le a n (by omega), zero_add]

theorem filter_range_self (n t : ℕ) :
    (List.range n).filter (fun j => j == t) = if t < n then [t] else [] := by
  induction n with
  | zero => simp
  | succ m ih =>
      rw [List.range_succ, List.filter_append, ih]
      by_cases hm : m = t
      · subst hm
        have h1 : ¬ m < m := by omega
        rw [if_neg h1, List.nil_append, List.filter_cons, if_pos (by simp),
          List.filter_nil, if_pos (by omega)]
      · have hmf : ¬((m == t) = true) := by simp [hm]
        rw [List.filter_cons, if_neg hmf, List.filter_nil, List.append_nil]
        by_cases hc : t < m
        · rw [if_pos hc, if_pos (by omega)]
        · rw [if_neg hc, if_neg (by omega)]

theorem coeff_X_sub_C_mul (d : F) (z : Polynomial F) (t : ℕ) :
    ((Polynomial.X - Polynomial.C d) * z).coeff t
      = (if 1 ≤ t then z.coeff (t - 1) else 0) - d * z.coeff t := by
  rw [sub_mul, Polynomial.coeff_sub, Polynomial.coeff_C_mul]
  congr 1
  cases t with
  | zero =>
      rw [Polynomial.mul_coeff_zero, Polynomial.coeff_X_zero, zero_mul, if_neg (by omega)]
  | succ k =>
      rw [Polynomial.coeff_X_mul, if_pos (by omega)]
      norm_num

theorem getD_take (l : List F) (k i : ℕ) :
    (l.take k).getD i 0 = if i < k then l.getD i 0 else 0 := by
  by_cases h : i < k
  · rw [if_pos h, List.getD_eq_getElem?_getD, List.getD_eq_getElem?_getD,
      List.getElem?_take, if_pos h]
  · rw [if_neg h]
    apply getD_eq_zero_of_length_le
    rw [List.length_take]
    omega

theorem getD_drop (l : List F) (k i : ℕ) :
    (l.drop k).getD i 0 = l.getD (k + i) 0 := by
  rw [List.getD_eq_getElem?_getD, List.getElem?_drop, List.getD_eq_getElem?_getD]

theorem getD_map (f : F → F) (l : List F) (i : ℕ) (h : i < l.length) :
    (l.map f).getD i 0 = f (l.getD i 0) := by
  rw [List.getD_eq_getElem?_getD, List.getElem?_eq_getElem (by rw [List.length_map]; exact h),
    Option.getD_some, List.getElem_map, List.getD_eq_getElem?_getD,
    List.getElem?_eq_getElem h, Option.getD_some]

theorem getD_zipWith (f : F → F → F) (a b : List F) (i : ℕ)
    (ha : i < a.length) (hb : i < b.length) :
    (List.zipWith f a b).getD i 0 = f (a.getD i 0) (b.getD i 0) := by
  rw [List.getD_eq_getElem?_getD,
    List.getElem?_eq_getElem (by rw [List.length_zipWith]; omega),
    Option.getD_some, List.getElem_zipWith, List.getD_eq_getElem?_getD,
    List.getElem?_eq_getElem ha, List.getD_eq_getElem?_getD,
    List.getElem?_eq_getElem hb, Option.getD_some, Option.getD_some]

theorem getD_mem (l : List F) (i : ℕ) (h : i < l.length) : l.getD i 0 ∈ l := by
  rw [List.getD_eq_getElem?_getD, List.getElem?_eq_getElem h, Option.getD_some]
  exact List.getElem_mem h

theorem take_succ_getD (l : List F) (k : ℕ) (hk : k < l.length) :
    l.take (k + 1) = l.take k ++ [l.getD k 0] := by
  have h1 : l.getD k 0 = l[k] := by
    rw [List.getD_eq_getElem?_getD, List.getElem?_eq_getElem hk, Option.getD_some]
  rw [h1, List.take_succ, List.getElem?_eq_getElem hk]
  rfl

theorem toPoly_singleton (c : F) : toPoly [c] = Polynomial.C c := by
  rw [toPoly_cons, toPoly_nil, mul_zero, add_zero]

theorem toPoly_take_succ (l : List F) (k : ℕ) :
    toPoly (l.take (k + 1))
      = toPoly (l.take k) + Polynomial.C (l.getD k 0) * Polynomial.X ^ k := by
  rcases Nat.lt_or_ge k l.length with h | h
  · rw [take_succ_getD l k h, toPoly_append, toPoly_singleton, List.length_take,
      min_eq_left (by omega)]
  · rw [List.take_of_length_le (by omega), List.take_of_length_le (by omega),
      getD_eq_zero_of_length_le l k h, map_zero, zero_mul, add_zero]

theorem natDegree_toPoly_le (l : List F) (m : ℕ) (h : l.length ≤ m + 1) :
    (toPoly l).natDegree ≤ m := by
  rw [Polynomial.natDegree_le_iff_coeff_eq_zero]
  intro N hN
  rw [toPoly_coeff]
  exact getD_eq_zero_of_length_le l N (by omega)

theorem isZero_false_of_toPoly_ne_zero (l : List F) (h : toPoly l ≠ 0) :
    isZero l = false := by
  rcases hz : isZero l with _ | _
  · rfl
  · exact absurd (toPoly_eq_zero_of_isZero l hz) h

theorem degreeRaw_toNat_natDegree (l : List F) (h : isZero l = false) :
    (degreeRaw l).toNat = (toPoly l).natDegree := by
  have hge := isZero_false_degreeRaw l h
  have hne := getD_degreeRaw_ne_zero l h
  apply le_antisymm
  · apply Polynomial.le_natDegree_of_ne_zero
    rw [toPoly_coeff]
    exact hne
  · rw [Polynomial.natDegree_le_iff_coeff_eq_zero]
    intro N hN
    rw [toPoly_coeff]
    apply getD_eq_zero_of_degreeRaw_lt
    omega

theorem zerofierInnerRec_length (d : F) (k : ℕ) :
    ∀ arr : List F, (zerofierInnerRec d k arr).length = arr.length := by
  induction k with
  | zero => intro arr; rfl
  | succ m ih =>
      intro arr
      rw [zerofierInnerRec, ih, List.length_set]

theorem zerofierInnerRec_getD (d : F) (k : ℕ) :
    ∀ (arr : List F) (t : ℕ), k < arr.length →
    (zerofierInnerRec d k arr).getD t 0 =
      if 1 ≤ t ∧ t ≤ k then arr.getD (t - 1) 0 - d * arr.getD t 0 else arr.getD t 0 := by
  induction k with
  | zero =>
      intro arr t _
      rw [if_neg (by omega)]
      rfl
  | succ m ih =>
      intro arr t hk
      rw [zerofierInnerRec,
        ih (arr.set (m + 1) (arr.getD m 0 - d * arr.getD (m + 1) 0)) t
          (by rw [List.length_set]; omega)]
      by_cases h1 : 1 ≤ t ∧ t ≤ m
      · rw [if_pos h1, if_pos (by omega), getD_set_other _ _ _ _ (by omega),
          getD_set_other _ _ _ _ (by omega)]
      · by_cases h2 : t = m + 1
        · subst h2
          rw [if_neg (by omega), if_pos (by omega), getD_set_self _ _ _ (by omega)]
          have h3 : m + 1 - 1 = m := by omega
          rw [h3]
        · rw [if_neg h1, if_neg (by omega), getD_set_other _ _ _ _ (by omega)]

theorem prod_X_sub_C_coeff_zero (l : List F) (t : ℕ) (ht : l.length < t) :
    ((l.map fun d => Polynomial.X - Polynomial.C d).prod).coeff t = 0 := by
  induction l generalizing t with
  | nil =>
      simp only [List.map_nil, List.prod_nil]
      rw [Polynomial.coeff_one, if_neg (by omega)]
  | cons d tl ih =>
      rw [List.length_cons] at ht
      rw [List.map_cons, List.prod_cons, coeff_X_sub_C_mul, if_pos (by omega),
        ih (t - 1) (by omega), ih t (by omega), mul_zero, sub_zero]

theorem prod_X_sub_C_monic (l : List F) :
    ((l.map fun d => Polynomial.X - Polynomial.C d).prod).Monic ∧
      ((l.map fun d => Polynomial.X - Polynomial.C d).prod).natDegree = l.length := by
  induction l with
  | nil =>
      constructor
      · simp only [List.map_nil, List.prod_nil]
        exact Polynomial.monic_one
      · simp
  | cons d tl ih =>
      rw [List.map_cons, List.prod_cons]
      constructor
      · exact (Polynomial.monic_X_sub_C d).mul ih.1
      · rw [(Polynomial.monic_X_sub_C d).natDegree_mul ih.1, ih.2,
          Polynomial.natDegree_X_sub_C, List.length_cons]
        omega

theorem eval_prod_mem_zero (l : List F) (y : F) (hy : y ∈ l) :
    ((l.map fun d => Polynomial.X - Polynomial.C d).prod).eval y = 0 := by
  rw [Polynomial.eval_list_prod]
  apply List.prod_eq_zero
  rw [List.map_map, List.mem_map]
  refine ⟨y, hy, ?_⟩
  simp

theorem eval_prod_not_mem_ne_zero (l : List F) (y : F) (hy : y ∉ l) :
    ((l.map fun d => Polynomial.X - Polynomial.C d).prod).eval y ≠ 0 := by
  rw [Polynomial.eval_list_prod]
  apply List.prod_ne_zero
  intro h0
  rw [List.map_map, List.mem_map] at h0
  obtain ⟨d, hd1, hd2⟩ := h0
  simp only [Function.comp_apply, Polynomial.eval_sub, Polynomial.eval_X,
    Polynomial.eval_C] at hd2
  have hdx : d = y := by linear_combination -hd2
  subst hdx
  exact hy hd1

theorem prod_erase_cons (domain : List F) (x : F) (hx : x ∈ domain) :
    (domain.map fun d => Polynomial.X - Polynomial.C d).prod
      = (Polynomial.X - Polynomial.C x) *
          ((domain.erase x).map fun d => Polynomial.X - Polynomial.C d).prod := by
  have hperm := (List.perm_cons_erase hx).map fun d => Polynomial.X - Polynomial.C d
  rw [hperm.prod_eq, List.map_cons, List.prod_cons]

theorem zerofierFold_loop_length (rest : List F) :
    ∀ (arr : List F) (m : ℕ),
      ((rest.foldl
        (fun st dd =>
          ((zerofierInnerRec dd st.2 st.1).set 0
              (-dd * (zerofierInnerRec dd st.2 st.1).getD 0 0), st.2 + 1))
        (arr, m)).1).length = arr.length := by
  induction rest with
  | nil => intro arr m; rfl
  | cons d tl ih =>
      intro arr m
      simp only [List.foldl_cons]
      rw [ih, List.length_set, zerofierInnerRec_length]

theorem zerofierFold_loop (rest : List F) :
    ∀ (pref arr : List F) (n : ℕ),
      arr.length = n + 1 → pref.length + rest.length ≤ n →
      (∀ t, arr.getD t 0
        = ((pref.map fun d => Polynomial.X - Polynomial.C d).prod).coeff t) →
      ∀ t, ((rest.foldl
          (fun st dd =>
            ((zerofierInnerRec dd st.2 st.1).set 0
                (-dd * (zerofierInnerRec dd st.2 st.1).getD 0 0), st.2 + 1))
          (arr, pref.length + 1)).1).getD t 0
        = (((pref ++ rest).map fun d => Polynomial.X - Polynomial.C d).prod).coeff t := by
  induction rest with
  | nil =>
      intro pref arr n hlen hle hinv t
      rw [List.append_nil]
      exact hinv t
  | cons d tl ih =>
      intro pref arr n hlen hle hinv t
      simp only [List.foldl_cons]
      set A := zerofierInnerRec d (pref.length + 1) arr with hA
      have hPre : pref.length + 1 < arr.length := by
        rw [hlen]
        simp only [List.length_cons] at hle
        omega
      have hAlen : A.length = arr.length := by
        rw [hA, zerofierInnerRec_length]
      have hnewlen : (A.set 0 (-d * A.getD 0 0)).length = n + 1 := by
        rw [List.length_set, hAlen, hlen]
      have hnewinv : ∀ t2, (A.set 0 (-d * A.getD 0 0)).getD t2 0
          = (((pref ++ [d]).map fun d2 => Polynomial.X - Polynomial.C d2).prod).coeff t2 := by
        intro t2
        have hprod : ((pref ++ [d]).map fun d2 => Polynomial.X - Polynomial.C d2).prod
            = (Polynomial.X - Polynomial.C d) *
                (pref.map fun d2 => Polynomial.X - Polynomial.C d2).prod := by
          rw [List.map_append, List.prod_append, List.map_singleton, List.prod_singleton,
            mul_comm]
        rw [hprod, coeff_X_sub_C_mul]
        by_cases h0 : t2 = 0
        · subst h0
          rw [getD_set_self _ _ _ (by rw [hAlen]; omega), if_neg (by omega), hA,
            zerofierInnerRec_getD d (pref.length + 1) arr 0 hPre, if_neg (by omega), hinv 0]
          ring
        · rw [getD_set_other _ _ _ _ (by omega), hA,
            zerofierInnerRec_getD d (pref.length + 1) arr t2 hPre]
          by_cases h1 : t2 ≤ pref.length + 1
          · rw [if_pos (by omega), if_pos (by omega), hinv (t2 - 1), hinv t2]
          · rw [if_neg (by omega), if_pos (by omega), hinv t2,
              prod_X_sub_C_coeff_zero pref t2 (by omega),
              prod_X_sub_C_coeff_zero pref (t2 - 1) (by omega), mul_zero, sub_zero]
      have hlen' : (pref ++ [d]).length = pref.length + 1 := by simp
      have hfin := ih (pref ++ [d]) (A.set 0 (-d * A.getD 0 0)) n hnewlen
        (by rw [hlen']; simp only [List.length_cons] at hle; omega) hnewinv t
      rw [hlen', List.append_assoc] at hfin
      exact hfin

theorem zerofierFold_length (domain : List F) (n : ℕ) :
    (zerofierFold domain n).length = n + 1 := by
  simp only [zerofierFold]
  rw [zerofierFold_loop_length, List.length_set, List.length_replicate]

theorem zerofierFold_getD (domain : List F) (n : ℕ) (hn : domain.length ≤ n) (t : ℕ) :
    (zerofierFold domain n).getD t 0
      = ((domain.map fun d => Polynomial.X - Polynomial.C d).prod).coeff t := by
  have hinv : ∀ t2, ((List.replicate (n + 1) (0 : F)).set 0 1).getD t2 0
      = ((([] : List F).map fun d => Polynomial.X - Polynomial.C d).prod).coeff t2 := by
    intro t2
    simp only [List.map_nil, List.prod_nil]
    by_cases h0 : t2 = 0
    · subst h0
      rw [getD_set_self _ _ _ (by rw [List.length_replicate]; omega), Polynomial.coeff_one,
        if_pos rfl]
    · rw [getD_set_other _ _ _ _ (by omega), getD_replicate_zero, Polynomial.coeff_one,
        if_neg (by omega)]
  have h := zerofierFold_loop domain [] ((List.replicate (n + 1) (0 : F)).set 0 1) n
    (by rw [List.length_set, List.length_replicate]) (by simpa using hn) hinv t
  rw [List.nil_append] at h
  simp only [zerofierFold]
  exact h

theorem toPoly_zerofierFold (domain : List F) :
    toPoly (zerofierFold domain domain.length)
      = (domain.map fun d => Polynomial.X - Polynomial.C d).prod := by
  apply Polynomial.ext
  intro t
  rw [toPoly_coeff, zerofierFold_getD domain domain.length (le_refl _) t]

theorem summandRec_length (x : F) (zf : List F) (k : ℕ) :
    ∀ (s : List F) (lc sc : F), (summandRec x zf k s lc sc).length = s.length := by
  induction k with
  | zero => intro s lc sc; rfl
  | succ m ih =>
      intro s lc sc
      rw [summandRec, ih, List.length_set]

theorem summandRec_getD_ge (x : F) (zf : List F) (k : ℕ) :
    ∀ (s : List F) (lc sc : F) (t : ℕ), k ≤ t →
      (summandRec x zf k s lc sc).getD t 0 = s.getD t 0 := by
  induction k with
  | zero => intro s lc sc t ht; rfl
  | succ m ih =>
      intro s lc sc t ht
      rw [summandRec, ih _ _ _ t (by omega), getD_set_other _ _ _ _ (by omega)]

theorem summandRec_spec (x : F) (zf : List F) (k : ℕ) :
    ∀ (s : List F) (lc : F), k ≤ s.length →
      ∃ R : F, (Polynomial.X - Polynomial.C x) *
          toPoly ((summandRec x zf k s lc (zf.getD (k - 1) 0)).take k) + Polynomial.C R
        = toPoly (zf.take k) + Polynomial.C lc * Polynomial.X ^ k := by
  induction k with
  | zero =>
      intro s lc _
      refine ⟨lc, ?_⟩
      simp only [List.take_zero, toPoly_nil, mul_zero, zero_add, pow_zero, mul_one]
  | succ m ih =>
      intro s lc hs
      rw [summandRec]
      simp only [Nat.add_sub_cancel]
      obtain ⟨R, hR⟩ := ih (s.set m lc) (zf.getD m 0 + lc * x) (by rw [List.length_set]; omega)
      refine ⟨R, ?_⟩
      have hrlen : (summandRec x zf m (s.set m lc) (zf.getD m 0 + lc * x)
          (zf.getD (m - 1) 0)).length = s.length := by
        rw [summandRec_length, List.length_set]
      have hrget : (summandRec x zf m (s.set m lc) (zf.getD m 0 + lc * x)
          (zf.getD (m - 1) 0)).getD m 0 = lc := by
        rw [summandRec_getD_ge x zf m _ _ _ m (le_refl m),
          getD_set_self _ _ _ (by omega)]
      have htake : (summandRec x zf m (s.set m lc) (zf.getD m 0 + lc * x)
            (zf.getD (m - 1) 0)).take (m + 1)
          = (summandRec x zf m (s.set m lc) (zf.getD m 0 + lc * x)
            (zf.getD (m - 1) 0)).take m ++ [lc] := by
        rw [take_succ_getD _ m (by omega), hrget]
      rw [htake, toPoly_append, toPoly_singleton, List.length_take,
        min_eq_left (by omega), toPoly_take_succ zf m]
      rw [map_add, map_mul] at hR
      linear_combination hR

theorem summandArray_identity (x : F) (zf prev : List F) (n : ℕ)
    (hzf : zf.length = n + 1) (hprev : n ≤ prev.length) :
    (Polynomial.X - Polynomial.C x) * toPoly ((summandArray x zf n prev).take n)
        + Polynomial.C ((toPoly zf).eval x) = toPoly zf := by
  obtain ⟨R, hR⟩ := summandRec_spec x zf n prev (zf.getD n 0) hprev
  have h1 : toPoly (zf.take n) + Polynomial.C (zf.getD n 0) * Polynomial.X ^ n
      = toPoly (zf.take (n + 1)) := (toPoly_take_succ zf n).symm
  have h2 : zf.take (n + 1) = zf := List.take_of_length_le (by omega)
  rw [h1, h2] at hR
  have hR2 : (Polynomial.X - Polynomial.C x) *
      toPoly ((summandArray x zf n prev).take n) + Polynomial.C R = toPoly zf := hR
  have hev : R = (toPoly zf).eval x := by
    have h3 := congrArg (Polynomial.eval x) hR2
    simp only [Polynomial.eval_add, Polynomial.eval_mul, Polynomial.eval_sub,
      Polynomial.eval_X, Polynomial.eval_C, sub_self, zero_mul, zero_add] at h3
    exact h3
  rw [← hev]
  exact hR2

theorem toPoly_summandArray (x : F) (zf prev : List F) (n : ℕ) (domain : List F)
    (hzf : zf.length = n + 1) (hprev : prev.length = n)
    (hz : toPoly zf = (domain.map fun d => Polynomial.X - Polynomial.C d).prod)
    (hx : x ∈ domain) :
    toPoly (summandArray x zf n prev)
      = ((domain.erase x).map fun d => Polynomial.X - Polynomial.C d).prod := by
  have hid := summandArray_identity x zf prev n hzf (by omega)
  have hlen : (summandArray x zf n prev).length = n := by
    rw [summandArray, summandRec_length, hprev]
  rw [List.take_of_length_le (by omega)] at hid
  rw [hz, eval_prod_mem_zero domain x hx, map_zero, add_zero,
    prod_erase_cons domain x hx] at hid
  exact mul_left_cancel₀ (Polynomial.X_sub_C_ne_zero x) hid

theorem lagrangeAccum_length (c : F) (s : List F) (n : ℕ) (acc : List F) :
    (lagrangeAccum c s n acc).length = acc.length :=
  addFold_length (List.range n) (fun j => j) (fun j => c * s.getD j 0) acc

theorem lagrangeAccum_getD (c : F) (s : List F) (n : ℕ) (acc : List F) (t : ℕ)
    (ht : t < acc.length) :
    (lagrangeAccum c s n acc).getD t 0
      = acc.getD t 0 + if t < n then c * s.getD t 0 else 0 := by
  have h1 : (lagrangeAccum c s n acc).getD t 0
      = acc.getD t 0 + (((List.range n).filter fun j => (fun j => j) j == t).map
          fun j => c * s.getD j 0).sum :=
    addFold_getD (List.range n) (fun j => j) (fun j => c * s.getD j 0) acc t ht
  have h2 : ((List.range n).filter fun j => (fun j => j) j == t)
      = if t < n then [t] else [] := filter_range_self n t
  rw [h1, h2]
  by_cases h : t < n
  · rw [if_pos h, if_pos h]
    simp
  · rw [if_neg h, if_neg h]
    simp

theorem getD_ne_of_nodup (l : List F) (hnd : l.Nodup) (i j : ℕ) (hi : i < l.length)
    (hj : j < l.length) (hij : i ≠ j) : l.getD i 0 ≠ l.getD j 0 := by
  rw [List.getD_eq_getElem?_getD, List.getElem?_eq_getElem hi, Option.getD_some,
    List.getD_eq_getElem?_getD, List.getElem?_eq_getElem hj, Option.getD_some]
  intro hcon
  exact hij ((List.Nodup.getElem_inj_iff hnd).mp hcon)

theorem lagrange_loop (domain values : List F) (hlen : domain.length = values.length)
    (hnd : domain.Nodup) (N : ℕ) (hN : N ≤ values.length) :
    ∃ st, (List.range N).foldl
        (fun st i =>
          (lagrangeAccum
            (values.getD i 0 /
              summandEval (domain.getD i 0)
                (summandArray (domain.getD i 0) (zerofierFold domain domain.length)
                  domain.length st.2))
            (summandArray (domain.getD i 0) (zerofierFold domain domain.length)
              domain.length st.2)
            domain.length st.1,
           summandArray (domain.getD i 0) (zerofierFold domain domain.length)
             domain.length st.2))
        (List.replicate domain.length 0, List.replicate domain.length 0) = st ∧
      st.1.length = domain.length ∧ st.2.length = domain.length ∧
      ∀ t, st.1.getD t 0
        = ∑ i ∈ Finset.range N,
            (values.getD i 0 /
                (((domain.erase (domain.getD i 0)).map
                    fun d => Polynomial.X - Polynomial.C d).prod).eval (domain.getD i 0)) *
              (((domain.erase (domain.getD i 0)).map
                  fun d => Polynomial.X - Polynomial.C d).prod).coeff t := by
  induction N with
  | zero =>
      refine ⟨_, rfl, ?_, ?_, ?_⟩
      · simp only [List.range_zero, List.foldl_nil, List.length_replicate]
      · simp only [List.range_zero, List.foldl_nil, List.length_replicate]
      · intro t
        simp only [List.range_zero, List.foldl_nil, Finset.range_zero, Finset.sum_empty]
        exact getD_replicate_zero _ _
  | succ N ih =>
      obtain ⟨st, hst, h1, h2, h3⟩ := ih (by omega)
      have hNlt : N < domain.length := by omega
      rw [List.range_succ, List.foldl_append, hst]
      simp only [List.foldl_cons, List.foldl_nil]
      have hZlen : (zerofierFold domain domain.length).length = domain.length + 1 :=
        zerofierFold_length domain domain.length
      have hxmem : domain.getD N 0 ∈ domain := getD_mem domain N hNlt
      have hS : toPoly (summandArray (domain.getD N 0)
            (zerofierFold domain domain.length) domain.length st.2)
          = ((domain.erase (domain.getD N 0)).map
              fun d => Polynomial.X - Polynomial.C d).prod :=
        toPoly_summandArray (domain.getD N 0) (zerofierFold domain domain.length) st.2
          domain.length domain hZlen h2 (toPoly_zerofierFold domain) hxmem
      have hSlen : (summandArray (domain.getD N 0)
            (zerofierFold domain domain.length) domain.length st.2).length
          = domain.length := by
        rw [summandArray, summandRec_length, h2]
      have hSget : ∀ t, (summandArray (domain.getD N 0)
            (zerofierFold domain domain.length) domain.length st.2).getD t 0
          = (((domain.erase (domain.getD N 0)).map
              fun d => Polynomial.X - Polynomial.C d).prod).coeff t := by
        intro t
        rw [← toPoly_coeff, hS]
      have hEval : summandEval (domain.getD N 0)
            (summandArray (domain.getD N 0)
              (zerofierFold domain domain.length) domain.length st.2)
          = (((domain.erase (domain.getD N 0)).map
              fun d => Polynomial.X - Polynomial.C d).prod).eval (domain.getD N 0) := by
        rw [summandEval_evaluate, evaluate_toPoly, hS]
      refine ⟨_, rfl, ?_, ?_, ?_⟩
      · dsimp only
        rw [lagrangeAccum_length, h1]
      · dsimp only
        exact hSlen
      · intro t
        dsimp only
        by_cases ht : t < domain.length
        · rw [lagrangeAccum_getD _ _ _ _ t (by rw [h1]; exact ht), h3 t,
            Finset.sum_range_succ, if_pos ht, hEval, hSget t]
        · rw [getD_eq_zero_of_length_le _ _ (by rw [lagrangeAccum_length, h1]; omega)]
          symm
          apply Finset.sum_eq_zero
          intro i hi
          rw [Finset.mem_range] at hi
          have him : domain.getD i 0 ∈ domain := getD_mem domain i (by omega)
          rw [prod_X_sub_C_coeff_zero _ _ (by rw [List.length_erase_of_mem him]; omega),
            mul_zero]

theorem lagrangeInterpolate_spec (domain values : List F)
    (hlen : domain.length = values.length) (hne : domain ≠ []) (hnd : domain.Nodup) :
    ∃ r, lagrangeInterpolate domain values = some r ∧ r.length = domain.length ∧
      toPoly r = ∑ i ∈ Finset.range domain.length,
        Polynomial.C (values.getD i 0 /
            (((domain.erase (domain.getD i 0)).map
                fun d => Polynomial.X - Polynomial.C d).prod).eval (domain.getD i 0)) *
          ((domain.erase (domain.getD i 0)).map
              fun d => Polynomial.X - Polynomial.C d).prod := by
  obtain ⟨st, hst, h1, h2, h3⟩ :=
    lagrange_loop domain values hlen hnd values.length (le_refl _)
  refine ⟨st.1, ?_, h1, ?_⟩
  · simp only [lagrangeInterpolate]
    rw [if_neg (by simp [hlen, hne]), hst]
  · apply Polynomial.ext
    intro t
    rw [toPoly_coeff, hlen, h3 t, Polynomial.finset_sum_coeff]
    apply Finset.sum_congr rfl
    intro i hi
    rw [Polynomial.coeff_C_mul]

theorem lagrangeInterpolate_eval (domain values : List F)
    (hlen : domain.length = values.length) (hne : domain ≠ []) (hnd : domain.Nodup) :
    ∃ r, lagrangeInterpolate domain values = some r ∧ r.length = domain.length ∧
      ∀ j, j < domain.length → evaluate r (domain.getD j 0) = values.getD j 0 := by
  obtain ⟨r, hsome, hrlen, hpoly⟩ := lagrangeInterpolate_spec domain values hlen hne hnd
  refine ⟨r, hsome, hrlen, ?_⟩
  intro j hj
  have hjm : domain.getD j 0 ∈ domain := getD_mem domain j hj
  rw [evaluate_toPoly, hpoly, Polynomial.eval_finset_sum]
  rw [Finset.sum_eq_single j ?_ ?_]
  · rw [Polynomial.eval_mul, Polynomial.eval_C]
    exact div_mul_cancel₀ _ (eval_prod_not_mem_ne_zero _ _ (hnd.not_mem_erase))
  · intro i hi hij
    rw [Finset.mem_range] at hi
    have hne2 : domain.getD j 0 ≠ domain.getD i 0 :=
      getD_ne_of_nodup domain hnd j i hj hi (Ne.symm hij)
    rw [Polynomial.eval_mul,
      eval_prod_mem_zero _ _ ((List.mem_erase_of_ne hne2).mpr hjm), mul_zero]
  · intro habs
    exact absurd (Finset.mem_range.mpr hj) habs

theorem mod_inv_left (n i j : ℕ) (hi : i < n) (hj : j < n) :
    (n + (i + j) % n - i) % n = j := by
  rcases Nat.lt_or_ge (i + j) n with h | h
  · rw [Nat.mod_eq_of_lt h]
    have h2 : n + (i + j) - i = n + j := by omega
    rw [h2, Nat.add_mod_left, Nat.mod_eq_of_lt hj]
  · have h1 : (i + j) % n = i + j - n := by
      have h3 : i + j - n < n := by omega
      have h4 : i + j = (i + j - n) + n := by omega
      conv_lhs => rw [h4]
      rw [Nat.add_mod_right, Nat.mod_eq_of_lt h3]
    rw [h1]
    have h2 : n + (i + j - n) - i = j := by omega
    rw [h2, Nat.mod_eq_of_lt hj]

theorem mod_inv_right (n i r : ℕ) (hi : i < n) (hr : r < n) :
    (i + (n + r - i) % n) % n = r := by
  rcases Nat.lt_or_ge r i with h | h
  · have h1 : (n + r - i) % n = n + r - i := Nat.mod_eq_of_lt (by omega)
    rw [h1]
    have h2 : i + (n + r - i) = n + r := by omega
    rw [h2, Nat.add_mod_left, Nat.mod_eq_of_lt hr]
  · have h1 : n + r - i = (r - i) + n := by omega
    have h2 : (r - i) % n = r - i := Nat.mod_eq_of_lt (by omega)
    rw [h1, Nat.add_mod_right, h2]
    have h3 : i + (r - i) = r := by omega
    rw [h3, Nat.mod_eq_of_lt hr]

theorem pow_mod_of_pow_eq_one (ω : F) (n : ℕ) (h1 : ω ^ n = 1) (m : ℕ) :
    ω ^ m = ω ^ (m % n) := by
  conv_lhs => rw [← Nat.div_add_mod m n]
  rw [pow_add, pow_mul, h1, one_pow, one_mul]

theorem dftn_mul (ω : F) (n : ℕ) (hn : 0 < n) (h1 : ω ^ n = 1) (a b : List F)
    (ha : a.length = n) (hb : b.length = n) :
    List.zipWith (fun x y => x * y) (nttSpec ω a) (nttSpec ω b)
      = nttSpec ω ((List.range n).map fun r =>
          ∑ i ∈ Finset.range n, a.getD i 0 * b.getD ((n + r - i) % n) 0) := by
  have hlen1 : (nttSpec ω a).length = n := by rw [nttSpec_length, ha]
  have hlen2 : (nttSpec ω b).length = n := by rw [nttSpec_length, hb]
  have hclen : ((List.range n).map fun r =>
      (∑ i ∈ Finset.range n, a.getD i 0 * b.getD ((n + r - i) % n) 0 : F)).length
      = n := by
    rw [List.length_map, List.length_range]
  apply list_ext_getD
  · rw [List.length_zipWith, hlen1, hlen2, nttSpec_length, hclen, min_self]
  · intro k
    by_cases hk : k < n
    · have hkz : k < (List.zipWith (fun x y : F => x * y)
          (nttSpec ω a) (nttSpec ω b)).length := by
        rw [List.length_zipWith, hlen1, hlen2, min_self]
        omega
      have hzip : (List.zipWith (fun x y : F => x * y)
            (nttSpec ω a) (nttSpec ω b)).getD k 0
          = (nttSpec ω a).getD k 0 * (nttSpec ω b).getD k 0 := by
        rw [List.getD_eq_getElem?_getD, List.getElem?_eq_getElem hkz, Option.getD_some,
          List.getElem_zipWith, List.getD_eq_getElem?_getD,
          List.getElem?_eq_getElem (show k < (nttSpec ω a).length by omega),
          List.getD_eq_getElem?_getD,
          List.getElem?_eq_getElem (show k < (nttSpec ω b).length by omega),
          Option.getD_some, Option.getD_some]
      rw [hzip, nttSpec_getD ω a k (by omega), nttSpec_getD ω b k (by omega), ha, hb,
        nttSpec_getD ω _ k (by rw [hclen]; omega), hclen, Finset.sum_mul_sum]
      have hrhs : ∀ r ∈ Finset.range n,
          ((List.range n).map fun r =>
              (∑ i ∈ Finset.range n, a.getD i 0 * b.getD ((n + r - i) % n) 0 : F)).getD
            r 0 * ω ^ (r * k)
          = ∑ i ∈ Finset.range n,
              a.getD i 0 * b.getD ((n + r - i) % n) 0 * ω ^ (r * k) := by
        intro r hr
        rw [Finset.mem_range] at hr
        rw [getD_map_range, if_pos hr, Finset.sum_mul]
      rw [Finset.sum_congr rfl hrhs]
      have hcomm : ∑ r ∈ Finset.range n, ∑ i ∈ Finset.range n,
            a.getD i 0 * b.getD ((n + r - i) % n) 0 * ω ^ (r * k)
          = ∑ i ∈ Finset.range n, ∑ r ∈ Finset.range n,
            a.getD i 0 * b.getD ((n + r - i) % n) 0 * ω ^ (r * k) := Finset.sum_comm
      rw [hcomm]
      apply Finset.sum_congr rfl
      intro i hi
      rw [Finset.mem_range] at hi
      apply Finset.sum_nbij' (fun j => (i + j) % n) (fun r => (n + r - i) % n)
      · intro j hj
        rw [Finset.mem_range] at hj ⊢
        exact Nat.mod_lt _ hn
      · intro r hr
        rw [Finset.mem_range] at hr ⊢
        exact Nat.mod_lt _ hn
      · intro j hj
        rw [Finset.mem_range] at hj
        exact mod_inv_left n i j hi hj
      · intro r hr
        rw [Finset.mem_range] at hr
        exact mod_inv_right n i r hi hr
      · intro j hj
        rw [Finset.mem_range] at hj
        have hidx : (n + (i + j) % n - i) % n = j := mod_inv_left n i j hi hj
        have hpow : ω ^ (i * k) * ω ^ (j * k) = ω ^ ((i + j) % n * k) := by
          rw [← pow_add]
          have he : i * k + j * k = (i + j) * k := by ring
          rw [he]
          simp only [pow_mul]
          rw [pow_mod_of_pow_eq_one ω n h1 (i + j)]
        rw [hidx, ← hpow]
        ring
    · rw [getD_eq_zero_of_length_le _ k
          (by rw [List.length_zipWith, hlen1, hlen2, min_self]; omega),
        getD_eq_zero_of_length_le _ k (by rw [nttSpec_length, hclen]; omega)]

theorem toPoly_mul_coeff (a b : List F) (t : ℕ) :
    (toPoly a * toPoly b).coeff t
      = ∑ i ∈ Finset.range (t + 1), a.getD i 0 * b.getD (t - i) 0 := by
  rw [Polynomial.coeff_mul, Finset.Nat.sum_antidiagonal_eq_sum_range_succ_mk]
  apply Finset.sum_congr rfl
  intro i hi
  rw [toPoly_coeff, toPoly_coeff]

theorem toPoly_multiply (a b : List F) (ha : isZero a = false) (hb : isZero b = false) :
    toPoly (multiply a b) = toPoly a * toPoly b := by
  have hda := isZero_false_degreeRaw a ha
  have hdb := isZero_false_degreeRaw b hb
  apply Polynomial.ext
  intro t
  rw [toPoly_coeff, toPoly_mul_coeff]
  by_cases ht : t < (degreeRaw a).toNat + (degreeRaw b).toNat + 1
  · have hS : ∀ i ∈ Finset.range ((degreeRaw a).toNat + 1),
        (if i ≤ t ∧ t - i < (degreeRaw b).toNat + 1
          then a.getD i 0 * b.getD (t - i) 0 else 0)
          = (if i ≤ t then a.getD i 0 * b.getD (t - i) 0 else 0) := by
      intro i hi
      by_cases h1 : i ≤ t
      · by_cases h2 : t - i < (degreeRaw b).toNat + 1
        · rw [if_pos ⟨h1, h2⟩, if_pos h1]
        · rw [if_neg (by tauto), if_pos h1,
            getD_eq_zero_of_degreeRaw_lt b (t - i) (by omega), mul_zero]
      · rw [if_neg (by tauto), if_neg h1]
    have hgoal1 : ∑ i ∈ Finset.range ((degreeRaw a).toNat + 1),
        (if i ≤ t then a.getD i 0 * b.getD (t - i) 0 else 0)
      = ∑ i ∈ Finset.range ((degreeRaw a).toNat + t + 1),
        (if i ≤ t then a.getD i 0 * b.getD (t - i) 0 else 0) := by
      apply Finset.sum_subset
      · intro y hy
        rw [Finset.mem_range] at hy ⊢
        omega
      · intro y hy hny
        rw [Finset.mem_range] at hny
        push_neg at hny
        by_cases h1 : y ≤ t
        · rw [if_pos h1, getD_eq_zero_of_degreeRaw_lt a y (by omega), zero_mul]
        · rw [if_neg h1]
    have hcong : ∑ i ∈ Finset.range (t + 1), a.getD i 0 * b.getD (t - i) 0
        = ∑ i ∈ Finset.range (t + 1),
          (if i ≤ t then a.getD i 0 * b.getD (t - i) 0 else 0) := by
      apply Finset.sum_congr rfl
      intro i hi
      rw [Finset.mem_range] at hi
      rw [if_pos (by omega)]
    have hgoal2 : ∑ i ∈ Finset.range (t + 1),
        (if i ≤ t then a.getD i 0 * b.getD (t - i) 0 else 0)
      = ∑ i ∈ Finset.range ((degreeRaw a).toNat + t + 1),
        (if i ≤ t then a.getD i 0 * b.getD (t - i) 0 else 0) := by
      apply Finset.sum_subset
      · intro y hy
        rw [Finset.mem_range] at hy ⊢
        omega
      · intro y hy hny
        rw [Finset.mem_range] at hny
        push_neg at hny
        rw [if_neg (by omega)]
    rw [multiply_getD a b ha hb t ht, Finset.sum_congr rfl hS, hgoal1, hcong, hgoal2]
  · rw [getD_eq_zero_of_length_le _ _ (by rw [multiply_length a b ha hb]; omega)]
    symm
    apply Finset.sum_eq_zero
    intro i hi
    rw [Finset.mem_range] at hi
    rcases Nat.lt_or_ge (degreeRaw a).toNat i with h | h
    · rw [getD_eq_zero_of_degreeRaw_lt a i (by omega), zero_mul]
    · rw [getD_eq_zero_of_degreeRaw_lt b (t - i) (by omega), mul_zero]

theorem fastMultiplyRoot_spec (k : ℕ) :
    ∀ (ω : F) (deg : ℕ), ω ^ 2 ^ k = 1 → (∀ d, 0 < d → d < 2 ^ k → ω ^ d ≠ 1) →
      deg < 2 ^ k →
      ∃ j, j ≤ k ∧ fastMultiplyRoot ω (2 ^ k) deg = (ω ^ 2 ^ (k - j), 2 ^ j) ∧
        deg < 2 ^ j ∧ (ω ^ 2 ^ (k - j)) ^ 2 ^ j = 1 ∧
        (∀ d, 0 < d → d < 2 ^ j → (ω ^ 2 ^ (k - j)) ^ d ≠ 1) := by
  induction k with
  | zero =>
      intro ω deg h1 hprim hdeg
      refine ⟨0, le_refl 0, ?_, hdeg, ?_, ?_⟩
      · rw [fastMultiplyRoot, if_neg (by norm_num)]
        simp only [Nat.sub_self, pow_zero, pow_one]
      · simp only [Nat.sub_self, pow_zero, pow_one]
        simpa using h1
      · intro d hd1 hd2
        exfalso
        have h2 : (2 : ℕ) ^ 0 = 1 := by norm_num
        omega
  | succ m ih =>
      intro ω deg h1 hprim hdeg
      by_cases hcase : deg < 2 ^ (m + 1) / 2
      · have h2 : 2 ^ (m + 1) / 2 = 2 ^ m := by
          rw [pow_succ]
          omega
        have hωω : ω * ω = ω ^ 2 := by ring
        have hsq1 : (ω * ω) ^ 2 ^ m = 1 := by
          rw [hωω, ← pow_mul]
          have h3 : 2 * 2 ^ m = 2 ^ (m + 1) := by
            rw [pow_succ]
            ring
          rw [h3, h1]
        have hsqprim : ∀ d, 0 < d → d < 2 ^ m → (ω * ω) ^ d ≠ 1 := by
          intro d hd1 hd2
          rw [hωω, ← pow_mul]
          apply hprim
          · omega
          · rw [pow_succ]
            omega
        have hdeg2 : deg < 2 ^ m := by
          rw [h2] at hcase
          exact hcase
        obtain ⟨j, hj, heq, hdlt, hh1, hhp⟩ := ih (ω * ω) deg hsq1 hsqprim hdeg2
        have hbase : (ω * ω) ^ 2 ^ (m - j) = ω ^ 2 ^ (m + 1 - j) := by
          rw [hωω, ← pow_mul]
          have hexp : (2 : ℕ) * 2 ^ (m - j) = 2 ^ (m + 1 - j) := by
            have h3 : m + 1 - j = (m - j) + 1 := by omega
            rw [h3, pow_succ]
            ring
          rw [hexp]
        refine ⟨j, by omega, ?_, hdlt, ?_, ?_⟩
        · rw [fastMultiplyRoot, if_pos hcase, h2, heq, hbase]
        · rw [← hbase]
          exact hh1
        · intro d hd1 hd2
          rw [← hbase]
          exact hhp d hd1 hd2
      · refine ⟨m + 1, le_refl _, ?_, hdeg, ?_, ?_⟩
        · rw [fastMultiplyRoot, if_neg hcase]
          simp only [Nat.sub_self, pow_zero, pow_one]
        · simp only [Nat.sub_self, pow_zero, pow_one]
          exact h1
        · simp only [Nat.sub_self, pow_zero, pow_one]
          exact hprim

theorem fastMultiply_spec (ω : F) (k : ℕ) (h1 : ω ^ 2 ^ k = 1)
    (hprim : ∀ d, 0 < d → d < 2 ^ k → ω ^ d ≠ 1)
    (a b : List F) (ha : isZero a = false) (hb : isZero b = false)
    (hdeg : (degreeRaw a).toNat + (degreeRaw b).toNat < 2 ^ k) :
    toPoly (fastMultiply a b ω (2 ^ k)) = toPoly a * toPoly b ∧
    (fastMultiply a b ω (2 ^ k)).length
      = (degreeRaw a).toNat + (degreeRaw b).toNat + 1 := by
  have hda0 := isZero_false_degreeRaw a ha
  have hdb0 := isZero_false_degreeRaw b hb
  have hdalen := degreeRaw_lt_length a
  have hdblen := degreeRaw_lt_length b
  by_cases hsmall : (degreeRaw a).toNat + (degreeRaw b).toNat < 8
  · constructor
    · simp only [fastMultiply]
      rw [if_neg (by simp [ha, hb]), if_pos hsmall]
      exact toPoly_multiply a b ha hb
    · simp only [fastMultiply]
      rw [if_neg (by simp [ha, hb]), if_pos hsmall]
      exact multiply_length a b ha hb
  · obtain ⟨j, hj, heq, hdlt, hρ1, hρprim⟩ :=
      fastMultiplyRoot_spec k ω ((degreeRaw a).toNat + (degreeRaw b).toNat) h1 hprim hdeg
    have hfin : fastMultiply a b ω (2 ^ k) =
        (inttSpec (ω ^ 2 ^ (k - j))
          (List.zipWith (fun r l => r * l)
            (nttSpec (ω ^ 2 ^ (k - j))
              (b.take ((degreeRaw b).toNat + 1) ++
                List.replicate (2 ^ j - ((degreeRaw b).toNat + 1)) 0))
            (nttSpec (ω ^ 2 ^ (k - j))
              (a.take ((degreeRaw a).toNat + 1) ++
                List.replicate (2 ^ j - ((degreeRaw a).toNat + 1)) 0)))).take
          ((degreeRaw a).toNat + (degreeRaw b).toNat + 1) := by
      simp only [fastMultiply]
      rw [if_neg (by simp [ha, hb]), if_neg hsmall, heq]
    set ρ := ω ^ 2 ^ (k - j) with hρdef
    set pb := b.take ((degreeRaw b).toNat + 1) ++
      List.replicate (2 ^ j - ((degreeRaw b).toNat + 1)) 0 with hpbdef
    set pa := a.take ((degreeRaw a).toNat + 1) ++
      List.replicate (2 ^ j - ((degreeRaw a).toNat + 1)) 0 with hpadef
    have htaka : (degreeRaw a).toNat + 1 ≤ a.length := by omega
    have htakb : (degreeRaw b).toNat + 1 ≤ b.length := by omega
    have hpalen : pa.length = 2 ^ j := by
      rw [hpadef, List.length_append, List.length_take, List.length_replicate,
        min_eq_left htaka]
      omega
    have hpblen : pb.length = 2 ^ j := by
      rw [hpbdef, List.length_append, List.length_take, List.length_replicate,
        min_eq_left htakb]
      omega
    have hpaE : ∀ i, i < 2 ^ j → pa.getD i 0 = a.getD i 0 := by
      intro i him
      rw [hpadef, getD_append_zero, List.length_take, min_eq_left htaka]
      by_cases h : i < (degreeRaw a).toNat + 1
      · rw [if_pos h, getD_take, if_pos h]
      · rw [if_neg h, getD_replicate_zero,
          getD_eq_zero_of_degreeRaw_lt a i (by omega)]
    have hpbE : ∀ i, i < 2 ^ j → pb.getD i 0 = b.getD i 0 := by
      intro i him
      rw [hpbdef, getD_append_zero, List.length_take, min_eq_left htakb]
      by_cases h : i < (degreeRaw b).toNat + 1
      · rw [if_pos h, getD_take, if_pos h]
      · rw [if_neg h, getD_replicate_zero,
          getD_eq_zero_of_degreeRaw_lt b i (by omega)]
    have hconv := dftn_mul ρ (2 ^ j) (by positivity) hρ1 pb pa hpblen hpalen
    rw [hconv] at hfin
    have hchar : ((2 ^ j : ℕ) : F) ≠ 0 := two_pow_cast_ne_zero ρ j hρ1 hρprim
    have hcl : ((List.range (2 ^ j)).map fun r =>
        (∑ i ∈ Finset.range (2 ^ j),
          pb.getD i 0 * pa.getD ((2 ^ j + r - i) % 2 ^ j) 0 : F)).length = 2 ^ j := by
      rw [List.length_map, List.length_range]
    rw [inttSpec_nttSpec ρ (2 ^ j) (by positivity) hρ1 hρprim hchar _ hcl] at hfin
    have hc : ∀ t, t ≤ (degreeRaw a).toNat + (degreeRaw b).toNat →
        ((List.range (2 ^ j)).map fun r =>
          (∑ i ∈ Finset.range (2 ^ j),
            pb.getD i 0 * pa.getD ((2 ^ j + r - i) % 2 ^ j) 0 : F)).getD t 0
        = (toPoly a * toPoly b).coeff t := by
      intro t htD
      rw [getD_map_range, if_pos (by omega)]
      have hstepA : ∑ i ∈ Finset.range (2 ^ j),
            pb.getD i 0 * pa.getD ((2 ^ j + t - i) % 2 ^ j) 0
          = ∑ i ∈ Finset.range (2 ^ j),
              (if i ≤ t then b.getD i 0 * a.getD (t - i) 0 else 0) := by
        apply Finset.sum_congr rfl
        intro i hi
        rw [Finset.mem_range] at hi
        rw [hpbE i hi, hpaE _ (Nat.mod_lt _ (by positivity))]
        by_cases hit : i ≤ t
        · have hidx : (2 ^ j + t - i) % 2 ^ j = t - i := by
            have h4 : 2 ^ j + t - i = (t - i) + 2 ^ j := by omega
            rw [h4, Nat.add_mod_right, Nat.mod_eq_of_lt (by omega)]
          rw [hidx, if_pos hit]
        · have hidx : (2 ^ j + t - i) % 2 ^ j = 2 ^ j + t - i :=
            Nat.mod_eq_of_lt (by omega)
          rw [hidx, if_neg hit]
          rcases Nat.lt_or_ge (degreeRaw b).toNat i with h | h
          · rw [getD_eq_zero_of_degreeRaw_lt b i (by omega), zero_mul]
          · rw [getD_eq_zero_of_degreeRaw_lt a (2 ^ j + t - i) (by omega), mul_zero]
      have hstepB : ∑ i ∈ Finset.range (t + 1),
            (if i ≤ t then b.getD i 0 * a.getD (t - i) 0 else 0)
          = ∑ i ∈ Finset.range (2 ^ j),
            (if i ≤ t then b.getD i 0 * a.getD (t - i) 0 else 0) := by
        apply Finset.sum_subset
        · intro y hy
          rw [Finset.mem_range] at hy ⊢
          omega
        · intro y hy hny
          rw [Finset.mem_range] at hny
          push_neg at hny
          rw [if_neg (by omega)]
      have hstepC : ∑ i ∈ Finset.range (t + 1),
            (if i ≤ t then b.getD i 0 * a.getD (t - i) 0 else 0)
          = ∑ i ∈ Finset.range (t + 1), b.getD i 0 * a.getD (t - i) 0 := by
        apply Finset.sum_congr rfl
        intro i hi
        rw [Finset.mem_range] at hi
        rw [if_pos (by omega)]
      rw [hstepA, ← hstepB, hstepC, ← toPoly_mul_coeff, mul_comm]
    constructor
    · rw [hfin]
      apply Polynomial.ext
      intro t
      rw [toPoly_coeff, getD_take]
      by_cases htD : t < (degreeRaw a).toNat + (degreeRaw b).toNat + 1
      · rw [if_pos htD, hc t (by omega)]
      · rw [if_neg htD]
        symm
        apply Polynomial.coeff_eq_zero_of_natDegree_lt
        calc (toPoly a * toPoly b).natDegree
            ≤ (toPoly a).natDegree + (toPoly b).natDegree := Polynomial.natDegree_mul_le
          _ < t := by
              rw [← degreeRaw_toNat_natDegree a ha, ← degreeRaw_toNat_natDegree b hb]
              omega
    · rw [hfin, List.length_take, hcl, min_eq_left (by omega)]

theorem fastZerofier_spec (ω : F) (k : ℕ) (h1 : ω ^ 2 ^ k = 1)
    (hprim : ∀ d, 0 < d → d < 2 ^ k → ω ^ d ≠ 1) :
    ∀ (m : ℕ) (domain : List F), domain.length = m → domain ≠ [] → m < 2 ^ k →
      toPoly (fastZerofier domain ω (2 ^ k))
          = (domain.map fun d => Polynomial.X - Polynomial.C d).prod ∧
        (fastZerofier domain ω (2 ^ k)).length = domain.length + 1 := by
  intro m
  induction m using Nat.strong_induction_on with
  | _ m ih =>
    intro domain hm hne hlt
    have hm0 : domain.length ≠ 0 := by
      rw [hm]
      intro hcon
      rw [hcon] at hm
      exact hne (List.length_eq_zero.mp hm)
    rcases Nat.lt_or_ge m 2 with h2 | h2
    · have hm1 : domain.length = 1 := by omega
      obtain ⟨x, hx⟩ := List.length_eq_one.mp hm1
      subst hx
      rw [fastZerofier, if_neg (by simp), if_pos (by simp)]
      constructor
      · rw [List.map_singleton, List.prod_singleton]
        have hg : ([x] : List F).getD 0 0 = x := rfl
        rw [hg, toPoly_cons, toPoly_singleton, map_neg, map_one]
        ring
      · simp
    · rw [fastZerofier, if_neg (by omega), if_neg (by omega)]
      have hdllen : (domain.take (domain.length / 2)).length = domain.length / 2 := by
        rw [List.length_take]
        omega
      have hdrlen : (domain.drop (domain.length / 2)).length
          = domain.length - domain.length / 2 := List.length_drop _ _
      have hdlne : domain.take (domain.length / 2) ≠ [] := by
        rw [← List.length_pos, hdllen]
        omega
      have hdrne : domain.drop (domain.length / 2) ≠ [] := by
        rw [← List.length_pos, hdrlen]
        omega
      obtain ⟨hLpoly, hLlen⟩ := ih (domain.length / 2) (by omega)
        (domain.take (domain.length / 2)) hdllen hdlne (by omega)
      obtain ⟨hRpoly, hRlen⟩ := ih (domain.length - domain.length / 2) (by omega)
        (domain.drop (domain.length / 2)) hdrlen hdrne (by omega)
      have hZl0 : isZero (fastZerofier (domain.take (domain.length / 2)) ω (2 ^ k))
          = false := by
        apply isZero_false_of_toPoly_ne_zero
        rw [hLpoly]
        exact (prod_X_sub_C_monic _).1.ne_zero
      have hZr0 : isZero (fastZerofier (domain.drop (domain.length / 2)) ω (2 ^ k))
          = false := by
        apply isZero_false_of_toPoly_ne_zero
        rw [hRpoly]
        exact (prod_X_sub_C_monic _).1.ne_zero
      have hdZl : (degreeRaw (fastZerofier (domain.take (domain.length / 2))
          ω (2 ^ k))).toNat = domain.length / 2 := by
        rw [degreeRaw_toNat_natDegree _ hZl0, hLpoly, (prod_X_sub_C_monic _).2, hdllen]
      have hdZr : (degreeRaw (fastZerofier (domain.drop (domain.length / 2))
          ω (2 ^ k))).toNat = domain.length - domain.length / 2 := by
        rw [degreeRaw_toNat_natDegree _ hZr0, hRpoly, (prod_X_sub_C_monic _).2, hdrlen]
      obtain ⟨hMpoly, hMlen⟩ := fastMultiply_spec ω k h1 hprim
        (fastZerofier (domain.take (domain.length / 2)) ω (2 ^ k))
        (fastZerofier (domain.drop (domain.length / 2)) ω (2 ^ k))
        hZl0 hZr0 (by rw [hdZl, hdZr]; omega)
      constructor
      · rw [hMpoly, hLpoly, hRpoly, ← List.prod_append, ← List.map_append,
          List.take_append_drop]
      · rw [hMlen, hdZl, hdZr]
        omega

theorem fastEvaluate_spec (ω : F) (k : ℕ) (h1 : ω ^ 2 ^ k = 1)
    (hprim : ∀ d, 0 < d → d < 2 ^ k → ω ^ d ≠ 1) :
    ∀ (m : ℕ) (p domain : List F), domain.length = m → m < 2 ^ k →
      fastEvaluate p domain ω (2 ^ k) = some (domain.map fun y => evaluate p y) := by
  intro m
  induction m using Nat.strong_induction_on with
  | _ m ih =>
    intro p domain hm hlt
    rcases Nat.lt_or_ge m 1 with h0 | h0
    · have hnil : domain = [] := List.length_eq_zero.mp (by omega)
      subst hnil
      rw [fastEvaluate, if_pos (by simp)]
      rfl
    · rcases Nat.lt_or_ge m 2 with h2 | h2
      · obtain ⟨x, hx⟩ := List.length_eq_one.mp (show domain.length = 1 by omega)
        subst hx
        rw [fastEvaluate, if_neg (by simp), if_pos (by simp)]
        rfl
      · rw [fastEvaluate, if_neg (by omega), if_neg (by omega)]
        have hdllen : (domain.take (domain.length / 2)).length = domain.length / 2 := by
          rw [List.length_take]
          omega
        have hdrlen : (domain.drop (domain.length / 2)).length
            = domain.length - domain.length / 2 := List.length_drop _ _
        have hdlne : domain.take (domain.length / 2) ≠ [] := by
          rw [← List.length_pos, hdllen]
          omega
        have hdrne : domain.drop (domain.length / 2) ≠ [] := by
          rw [← List.length_pos, hdrlen]
          omega
        obtain ⟨hZlpoly, hZllen⟩ := fastZerofier_spec ω k h1 hprim (domain.length / 2)
          (domain.take (domain.length / 2)) hdllen hdlne (by omega)
        obtain ⟨hZrpoly, hZrlen⟩ := fastZerofier_spec ω k h1 hprim
          (domain.length - domain.length / 2)
          (domain.drop (domain.length / 2)) hdrlen hdrne (by omega)
        have hZl0 : isZero (fastZerofier (domain.take (domain.length / 2)) ω (2 ^ k))
            = false := by
          apply isZero_false_of_toPoly_ne_zero
          rw [hZlpoly]
          exact (prod_X_sub_C_monic _).1.ne_zero
        have hZr0 : isZero (fastZerofier (domain.drop (domain.length / 2)) ω (2 ^ k))
            = false := by
          apply isZero_false_of_toPoly_ne_zero
          rw [hZrpoly]
          exact (prod_X_sub_C_monic _).1.ne_zero
        obtain ⟨q1, r1, hdiv1, hid1, hdr1, hnorm1⟩ :=
          divide_euclid p (fastZerofier (domain.take (domain.length / 2)) ω (2 ^ k)) hZl0
        obtain ⟨q2, r2, hdiv2, hid2, hdr2, hnorm2⟩ :=
          divide_euclid p (fastZerofier (domain.drop (domain.length / 2)) ω (2 ^ k)) hZr0
        rw [hdiv1, hdiv2]
        simp only [Option.some_bind]
        rw [ih (domain.length / 2) (by omega) r1 (domain.take (domain.length / 2))
            hdllen (by omega),
          ih (domain.length - domain.length / 2) (by omega) r2
            (domain.drop (domain.length / 2)) hdrlen (by omega)]
        simp only [Option.some_bind]
        have heval1 : ∀ y ∈ domain.take (domain.length / 2),
            evaluate r1 y = evaluate p y := by
          intro y hy
          rw [evaluate_toPoly, evaluate_toPoly, hid1, Polynomial.eval_add,
            Polynomial.eval_mul, hZlpoly, eval_prod_mem_zero _ y hy, mul_zero, zero_add]
        have heval2 : ∀ y ∈ domain.drop (domain.length / 2),
            evaluate r2 y = evaluate p y := by
          intro y hy
          rw [evaluate_toPoly, evaluate_toPoly, hid2, Polynomial.eval_add,
            Polynomial.eval_mul, hZrpoly, eval_prod_mem_zero _ y hy, mul_zero, zero_add]
        have hsplit : domain.map (fun y => evaluate p y)
            = (domain.take (domain.length / 2)).map (fun y => evaluate p y)
              ++ (domain.drop (domain.length / 2)).map (fun y => evaluate p y) := by
          rw [← List.map_append, List.take_append_drop]
        rw [hsplit, List.map_congr_left heval1, List.map_congr_left heval2]

theorem fastInterpolate_spec (ω : F) (k : ℕ) (h1 : ω ^ 2 ^ k = 1)
    (hprim : ∀ d, 0 < d → d < 2 ^ k → ω ^ d ≠ 1) :
    ∀ (m : ℕ) (domain values : List F), domain.length = m →
      domain.length = values.length → domain.Nodup → domain ≠ [] → m < 2 ^ k →
      ∃ l, fastInterpolate domain values ω (2 ^ k) = some l ∧
        l.length ≤ domain.length ∧
        ∀ i, i < domain.length → evaluate l (domain.getD i 0) = values.getD i 0 := by
  intro m
  induction m using Nat.strong_induction_on with
  | _ m ih =>
    intro domain values hm hveq hnd hne hlt
    rcases Nat.lt_or_ge m 1 with h0 | h0
    · exact absurd (List.length_eq_zero.mp (show domain.length = 0 by omega)) hne
    rcases Nat.lt_or_ge m 2 with h2 | h2
    · obtain ⟨x, hx⟩ := List.length_eq_one.mp (show domain.length = 1 by omega)
      subst hx
      rw [fastInterpolate, if_neg (by omega), if_neg (by simp), if_pos (by simp)]
      refine ⟨_, rfl, by simp, ?_⟩
      intro i hi
      simp only [List.length_singleton] at hi
      have hi0 : i = 0 := by omega
      subst hi0
      have hev : evaluate [values.getD 0 0] (([x] : List F).getD 0 0)
          = values.getD 0 0 + ([x] : List F).getD 0 0 * 0 := rfl
      rw [hev, mul_zero, add_zero]
    · rw [fastInterpolate, if_neg (by omega), if_neg (by omega), if_neg (by omega)]
      have hdllen : (domain.take (domain.length / 2)).length = domain.length / 2 := by
        rw [List.length_take]
        omega
      have hdrlen : (domain.drop (domain.length / 2)).length
          = domain.length - domain.length / 2 := List.length_drop _ _
      have hdlne : domain.take (domain.length / 2) ≠ [] := by
        rw [← List.length_pos, hdllen]
        omega
      have hdrne : domain.drop (domain.length / 2) ≠ [] := by
        rw [← List.length_pos, hdrlen]
        omega
      have hnd2 : ((domain.take (domain.length / 2))
          ++ domain.drop (domain.length / 2)).Nodup := by
        rw [List.take_append_drop]
        exact hnd
      have hdisj := (List.nodup_append.mp hnd2).2.2
      obtain ⟨hZlpoly, hZllen⟩ := fastZerofier_spec ω k h1 hprim (domain.length / 2)
        (domain.take (domain.length / 2)) hdllen hdlne (by omega)
      obtain ⟨hZrpoly, hZrlen⟩ := fastZerofier_spec ω k h1 hprim
        (domain.length - domain.length / 2)
        (domain.drop (domain.length / 2)) hdrlen hdrne (by omega)
      have hZl0 : isZero (fastZerofier (domain.take (domain.length / 2)) ω (2 ^ k))
          = false := by
        apply isZero_false_of_toPoly_ne_zero
        rw [hZlpoly]
        exact (prod_X_sub_C_monic _).1.ne_zero
      have hZr0 : isZero (fastZerofier (domain.drop (domain.length / 2)) ω (2 ^ k))
          = false := by
        apply isZero_false_of_toPoly_ne_zero
        rw [hZrpoly]
        exact (prod_X_sub_C_monic _).1.ne_zero
      have hdZl : (degreeRaw (fastZerofier (domain.take (domain.length / 2))
          ω (2 ^ k))).toNat = domain.length / 2 := by
        rw [degreeRaw_toNat_natDegree _ hZl0, hZlpoly, (prod_X_sub_C_monic _).2, hdllen]
      have hdZr : (degreeRaw (fastZerofier (domain.drop (domain.length / 2))
          ω (2 ^ k))).toNat = domain.length - domain.length / 2 := by
        rw [degreeRaw_toNat_natDegree _ hZr0, hZrpoly, (prod_X_sub_C_monic _).2, hdrlen]
      rw [fastEvaluate_spec ω k h1 hprim (domain.length / 2)
          (fastZerofier (domain.drop (domain.length / 2)) ω (2 ^ k))
          (domain.take (domain.length / 2)) hdllen (by omega),
        fastEvaluate_spec ω k h1 hprim (domain.length - domain.length / 2)
          (fastZerofier (domain.take (domain.length / 2)) ω (2 ^ k))
          (domain.drop (domain.length / 2)) hdrlen (by omega)]
      simp only [Option.some_bind]
      obtain ⟨li, hli, hlil, hlie⟩ := ih (domain.length / 2) (by omega)
        (domain.take (domain.length / 2))
        (List.zipWith (fun nn dd => nn / dd) (values.take (domain.length / 2))
          ((domain.take (domain.length / 2)).map fun y =>
            evaluate (fastZerofier (domain.drop (domain.length / 2)) ω (2 ^ k)) y))
        hdllen
        (by rw [hdllen, List.length_zipWith, List.length_take, List.length_map, hdllen]
            omega)
        (List.Nodup.sublist (List.take_sublist _ _) hnd) hdlne (by omega)
      obtain ⟨ri, hri, hril, hrie⟩ := ih (domain.length - domain.length / 2) (by omega)
        (domain.drop (domain.length / 2))
        (List.zipWith (fun nn dd => nn / dd) (values.drop (domain.length / 2))
          ((domain.drop (domain.length / 2)).map fun y =>
            evaluate (fastZerofier (domain.take (domain.length / 2)) ω (2 ^ k)) y))
        hdrlen
        (by rw [hdrlen, List.length_zipWith, List.length_drop, List.length_map, hdrlen]
            omega)
        (List.Nodup.sublist (List.drop_sublist _ _) hnd) hdrne (by omega)
      rw [hli, hri]
      simp only [Option.some_bind]
      have hfm1 : toPoly (fastMultiply li
            (fastZerofier (domain.drop (domain.length / 2)) ω (2 ^ k)) ω (2 ^ k))
            = toPoly li * ((domain.drop (domain.length / 2)).map
                fun d => Polynomial.X - Polynomial.C d).prod ∧
          (fastMultiply li
            (fastZerofier (domain.drop (domain.length / 2)) ω (2 ^ k)) ω
            (2 ^ k)).length ≤ domain.length := by
        rcases hzli : isZero li with _ | _
        · have hli0 := isZero_false_degreeRaw li hzli
          have hlid := degreeRaw_lt_length li
          have hspec := fastMultiply_spec ω k h1 hprim li
            (fastZerofier (domain.drop (domain.length / 2)) ω (2 ^ k)) hzli hZr0
            (by rw [hdZr]; rw [hdllen] at hlil; omega)
          constructor
          · rw [hspec.1, hZrpoly]
          · rw [hspec.2, hdZr]
            rw [hdllen] at hlil
            omega
        · have hempty : fastMultiply li
              (fastZerofier (domain.drop (domain.length / 2)) ω (2 ^ k)) ω (2 ^ k)
              = [] := by
            simp only [fastMultiply]
            rw [if_pos (Or.inl hzli)]
          constructor
          · rw [hempty, toPoly_nil, toPoly_eq_zero_of_isZero li hzli, zero_mul]
          · rw [hempty]
            simp
      have hfm2 : toPoly (fastMultiply ri
            (fastZerofier (domain.take (domain.length / 2)) ω (2 ^ k)) ω (2 ^ k))
            = toPoly ri * ((domain.take (domain.length / 2)).map
                fun d => Polynomial.X - Polynomial.C d).prod ∧
          (fastMultiply ri
            (fastZerofier (domain.take (domain.length / 2)) ω (2 ^ k)) ω
            (2 ^ k)).length ≤ domain.length := by
        rcases hzri : isZero ri with _ | _
        · have hri0 := isZero_false_degreeRaw ri hzri
          have hrid := degreeRaw_lt_length ri
          have hspec := fastMultiply_spec ω k h1 hprim ri
            (fastZerofier (domain.take (domain.length / 2)) ω (2 ^ k)) hzri hZl0
            (by rw [hdZl]; rw [hdrlen] at hril; omega)
          constructor
          · rw [hspec.1, hZlpoly]
          · rw [hspec.2, hdZl]
            rw [hdrlen] at hril
            omega
        · have hempty : fastMultiply ri
              (fastZerofier (domain.take (domain.length / 2)) ω (2 ^ k)) ω (2 ^ k)
              = [] := by
            simp only [fastMultiply]
            rw [if_pos (Or.inl hzri)]
          constructor
          · rw [hempty, toPoly_nil, toPoly_eq_zero_of_isZero ri hzri, zero_mul]
          · rw [hempty]
            simp
      refine ⟨_, rfl, ?_, ?_⟩
      · rw [polyAdd_length]
        have hb1 := hfm1.2
        have hb2 := hfm2.2
        omega
      · intro i hi
        rw [evaluate_toPoly, toPoly_polyAdd, Polynomial.eval_add, hfm1.1, hfm2.1,
          Polynomial.eval_mul, Polynomial.eval_mul]
        rcases Nat.lt_or_ge i (domain.length / 2) with hiH | hiH
        · have hxdl : (domain.take (domain.length / 2)).getD i 0 = domain.getD i 0 := by
            rw [getD_take, if_pos hiH]
          have hmem : domain.getD i 0 ∈ domain.take (domain.length / 2) := by
            rw [← hxdl]
            exact getD_mem _ i (by rw [hdllen]; omega)
          have hnotdr : domain.getD i 0 ∉ domain.drop (domain.length / 2) :=
            fun hin => hdisj hmem hin
          have hZrev : Polynomial.eval (domain.getD i 0)
              (((domain.drop (domain.length / 2)).map
                fun d => Polynomial.X - Polynomial.C d).prod) ≠ 0 :=
            eval_prod_not_mem_ne_zero _ _ hnotdr
          have hliev := hlie i (by rw [hdllen]; omega)
          rw [hxdl, evaluate_toPoly] at hliev
          have hlval : (List.zipWith (fun nn dd => nn / dd)
              (values.take (domain.length / 2))
              ((domain.take (domain.length / 2)).map fun y =>
                evaluate (fastZerofier (domain.drop (domain.length / 2)) ω (2 ^ k))
                  y)).getD i 0
              = values.getD i 0 / Polynomial.eval (domain.getD i 0)
                  (((domain.drop (domain.length / 2)).map
                    fun d => Polynomial.X - Polynomial.C d).prod) := by
            rw [getD_zipWith _ _ _ i (by rw [List.length_take]; omega)
                (by rw [List.length_map, hdllen]; omega),
              getD_take, if_pos hiH, getD_map _ _ i (by rw [hdllen]; omega), hxdl,
              evaluate_toPoly, hZrpoly]
          rw [hliev, hlval, eval_prod_mem_zero _ _ hmem, mul_zero, add_zero,
            div_mul_cancel₀ _ hZrev]
        · have hidx : domain.length / 2 + (i - domain.length / 2) = i := by omega
          have hxdr : (domain.drop (domain.length / 2)).getD
              (i - domain.length / 2) 0 = domain.getD i 0 := by
            rw [getD_drop, hidx]
          have hmem : domain.getD i 0 ∈ domain.drop (domain.length / 2) := by
            rw [← hxdr]
            exact getD_mem _ _ (by rw [hdrlen]; omega)
          have hnotdl : domain.getD i 0 ∉ domain.take (domain.length / 2) :=
            fun hin => hdisj hin hmem
          have hZlev : Polynomial.eval (domain.getD i 0)
              (((domain.take (domain.length / 2)).map
                fun d => Polynomial.X - Polynomial.C d).prod) ≠ 0 :=
            eval_prod_not_mem_ne_zero _ _ hnotdl
          have hriev := hrie (i - domain.length / 2) (by rw [hdrlen]; omega)
          rw [hxdr, evaluate_toPoly] at hriev
          have hrval : (List.zipWith (fun nn dd => nn / dd)
              (values.drop (domain.length / 2))
              ((domain.drop (domain.length / 2)).map fun y =>
                evaluate (fastZerofier (domain.take (domain.length / 2)) ω (2 ^ k))
                  y)).getD (i - domain.length / 2) 0
              = values.getD i 0 / Polynomial.eval (domain.getD i 0)
                  (((domain.take (domain.length / 2)).map
                    fun d => Polynomial.X - Polynomial.C d).prod) := by
            rw [getD_zipWith _ _ _ _ (by rw [List.length_drop]; omega)
                (by rw [List.length_map, hdrlen]; omega),
              getD_drop, hidx, getD_map _ _ _ (by rw [hdrlen]; omega), hxdr,
              evaluate_toPoly, hZlpoly]
          rw [hriev, hrval, eval_prod_mem_zero _ _ hmem, mul_zero, zero_add,
            div_mul_cancel₀ _ hZlev]

theorem interpolant_unique (domain : List F) (hnd : domain.Nodup) (hne : domain ≠ [])
    (p q : Polynomial F) (hp : p.natDegree ≤ domain.length - 1)
    (hq : q.natDegree ≤ domain.length - 1)
    (h : ∀ i, i < domain.length → p.eval (domain.getD i 0) = q.eval (domain.getD i 0)) :
    p = q := by
  have hlen1 : 1 ≤ domain.length := by
    rw [Nat.one_le_iff_ne_zero]
    intro hcon
    exact hne (List.length_eq_zero.mp hcon)
  have hd : (p - q).natDegree < domain.length :=
    lt_of_le_of_lt (Polynomial.natDegree_sub_le p q) (by omega)
  have hinj : Function.Injective (fun i : Fin domain.length => domain.get i) := by
    intro i1 i2 hii
    simp only [List.get_eq_getElem] at hii
    exact Fin.ext ((List.Nodup.getElem_inj_iff hnd).mp hii)
  have heval0 : ∀ i : Fin domain.length,
      Polynomial.eval ((fun i : Fin domain.length => domain.get i) i) (p - q) = 0 := by
    intro i
    simp only [Polynomial.eval_sub, List.get_eq_getElem]
    have hgi : domain[i.1] = domain.getD i.1 0 := by
      rw [List.getD_eq_getElem?_getD, List.getElem?_eq_getElem i.2, Option.getD_some]
    rw [hgi, h i.1 i.2, sub_self]
  have hcard : (p - q).natDegree < Fintype.card (Fin domain.length) := by
    rw [Fintype.card_fin]
    exact hd
  have hzero := Polynomial.eq_zero_of_natDegree_lt_card_of_eval_eq_zero (p - q)
    hinj heval0 hcard
  exact sub_eq_zero.mp hzero

set_option maxHeartbeats 1000000 in
/-- C6: for a non-empty list of pairwise-distinct abscissae `x_i` and a value
list of the same length, `lagrange_interpolate` succeeds and its result
evaluates to `y_i` at each `x_i`; and for any primitive `2^k`-th root of unity
whose order exceeds the domain size (a valid NTT plan for the domain),
`fast_interpolate` succeeds and returns the identical polynomial. -/
theorem C6_interpolation (domain values : List F) (ω : F) (k : ℕ)
    (hveq : domain.length = values.length) (hne : domain ≠ []) (hnd : domain.Nodup)
    (h1 : ω ^ 2 ^ k = 1) (hprim : ∀ d, 0 < d → d < 2 ^ k → ω ^ d ≠ 1)
    (hlt : domain.length < 2 ^ k) :
    ∃ r rf, lagrangeInterpolate domain values = some r ∧
      fastInterpolate domain values ω (2 ^ k) = some rf ∧
      (∀ i, i < domain.length → evaluate r (domain.getD i 0) = values.getD i 0) ∧
      toPoly rf = toPoly r := by
  obtain ⟨r, hr, hrlen, hrev⟩ := lagrangeInterpolate_eval domain values hveq hne hnd
  obtain ⟨rf, hrf, hrflen, hrfev⟩ := fastInterpolate_spec ω k h1 hprim domain.length
    domain values rfl hveq hnd hne hlt
  have hlen1 : 1 ≤ domain.length := by
    rw [Nat.one_le_iff_ne_zero]
    intro hcon
    exact hne (List.length_eq_zero.mp hcon)
  refine ⟨r, rf, hr, hrf, hrev, ?_⟩
  apply interpolant_unique domain hnd hne
  · exact natDegree_toPoly_le rf (domain.length - 1) (by omega)
  · exact natDegree_toPoly_le r (domain.length - 1) (by omega)
  · intro i hi
    rw [← evaluate_toPoly, ← evaluate_toPoly, hrfev i hi, hrev i hi]

theorem C6_witness :
    ∃ r rf, lagrangeInterpolate ([1, 2] : List Fp) [3, 5] = some r ∧
      fastInterpolate ([1, 2] : List Fp) [3, 5] 281474976710656 (2 ^ 2) = some rf ∧
      (∀ i, i < ([1, 2] : List Fp).length →
        evaluate r (([1, 2] : List Fp).getD i 0) = ([3, 5] : List Fp).getD i 0) ∧
      toPoly rf = toPoly r :=
  C6_interpolation [1, 2] [3, 5] 281474976710656 2 rfl (by simp) (by decide)
    (by decide)
    (fun d hd0 hdlt =>
      (by decide : ∀ d, d < 2 ^ 2 → 0 < d → (281474976710656 : Fp) ^ d ≠ 1) d hdlt hd0)
    (by decide)
